import Mathlib

/-!
# stlink option-byte programming engine

A shallow embedding of `src/stlink-lib/src/option_bytes.c` and of the helpers of
`src/stlink-lib/src/read_write.c`, followed by theorems about the dispatcher
`stlink_write_option_bytes`, the option-control-register entry points, the
per-family codecs and the little-endian helpers.

Modelling conventions

* `uint32_t` values are natural numbers below `2 ^ 32`; every C expression that can
  wrap carries an explicit `% U32`.  `int32_t` statuses are integers, and the C test
  `if (ret)` is `ret ≠ 0`.
* Every call that leaves `option_bytes.c` towards the probe (debug-register access,
  the flash state machine of `common_flash.c`, the flash loader) appends one `Op` to
  a chronological log.  What the call answers is decided by an environment `Env`,
  an arbitrary function of the log up to and including that call, so a theorem
  quantified over `Env` holds for every behaviour of the hardware and the transport.
* Loops whose trip count is not bounded by the source take a `fuel` argument; a run
  that exhausts it yields `none`.
-/

namespace Stlink

/-- Number of values of a `uint32_t`. -/
def U32 : Nat := 4294967296

/-- The enumerators of `enum stm32_flash_type` that `option_bytes.c` names in its
`switch` statements; `OTHER` stands for every further value of the enumeration
(the header declaring it, `stm32.h`, is outside the embedded sources). -/
inductive stm32_flash_type where
  | STM32_FLASH_TYPE_C0
  | STM32_FLASH_TYPE_F0_F1_F3
  | STM32_FLASH_TYPE_F1_XL
  | STM32_FLASH_TYPE_F2_F4
  | STM32_FLASH_TYPE_F7
  | STM32_FLASH_TYPE_G0
  | STM32_FLASH_TYPE_G4
  | STM32_FLASH_TYPE_H7
  | STM32_FLASH_TYPE_L0_L1
  | STM32_FLASH_TYPE_L4
  | STM32_FLASH_TYPE_WB_WL
  | OTHER (code : Nat)
  deriving DecidableEq

open stm32_flash_type

/-- The fields of `struct _stlink` (stlink.h) read by the option-byte engine. -/
structure stlink_t where
  chip_id : Nat
  flash_type : stm32_flash_type
  option_base : Nat
  option_size : Nat
  deriving DecidableEq

/-- Register addresses, bit positions and chip identifiers used by `option_bytes.c`.
They are declared in headers outside the embedded sources
(`stm32flash.h`, `stm32.h`, `chipid.h`), so the embedding takes them as parameters.
Addresses and identifiers are `uint32_t` values, bit positions are below 32.
`get_stm32l0_flash_base` is the helper of `common_flash.c` of the same name. -/
structure Consts where
  FLASH_C0_OPTR : Nat
  FLASH_C0_CR : Nat
  FLASH_C0_CR_OPTSTRT : Nat
  FLASH_C0_CR_OBL_LAUNCH : Nat
  FLASH_OBR : Nat
  FLASH_WRPR : Nat
  FLASH_CR : Nat
  FLASH_CR_OPTER : Nat
  FLASH_CR_OPTWRE : Nat
  FLASH_CR_STRT : Nat
  FLASH_CR_OPTPG : Nat
  FLASH_CR_OBL_LAUNCH : Nat
  STM32_F0_OPTION_BYTES_BASE : Nat
  FLASH_F2_OPT_CR : Nat
  FLASH_F4_OPTCR : Nat
  FLASH_F4_OPTCR_LOCK : Nat
  FLASH_F4_OPTCR_START : Nat
  FLASH_F7_OPTCR : Nat
  FLASH_F7_OPTCR_LOCK : Nat
  FLASH_F7_OPTCR_START : Nat
  FLASH_F7_OPTCR1 : Nat
  FLASH_Gx_OPTR : Nat
  FLASH_Gx_CR : Nat
  FLASH_Gx_CR_OPTSTRT : Nat
  FLASH_Gx_CR_OBL_LAUNCH : Nat
  FLASH_H7_REGS_ADDR : Nat
  FLASH_H7_OPTCR : Nat
  FLASH_H7_OPTCR_OPTSTART : Nat
  FLASH_H7_OPTCCR : Nat
  FLASH_H7_OPTCCR_CLR_OPTCHANGEERR : Nat
  FLASH_H7_OPTSR_CUR : Nat
  FLASH_H7_OPTSR_OPT_BUSY : Nat
  FLASH_H7_OPTSR_OPTCHANGEERR : Nat
  FLASH_PECR_OFF : Nat
  FLASH_L0_OBL_LAUNCH : Nat
  FLASH_L4_OPTR : Nat
  FLASH_L4_CR : Nat
  FLASH_L4_CR_OPTSTRT : Nat
  FLASH_L4_CR_OBL_LAUNCH : Nat
  FLASH_WB_OPTR : Nat
  FLASH_WB_CR : Nat
  FLASH_WB_CR_OPTSTRT : Nat
  FLASH_WB_CR_OBL_LAUNCH : Nat
  STM32_CHIPID_C011xx : Nat
  STM32_CHIPID_C031xx : Nat
  STM32_CHIPID_F2 : Nat
  STM32_CHIPID_F4 : Nat
  STM32_CHIPID_F446 : Nat
  STM32_CHIPID_F76xxx : Nat
  STM32_CHIPID_G0_CAT1 : Nat
  STM32_CHIPID_G0_CAT2 : Nat
  STM32_CHIPID_G4_CAT2 : Nat
  STM32_CHIPID_G4_CAT3 : Nat
  STM32_CHIPID_G4_CAT4 : Nat
  get_stm32l0_flash_base : stlink_t → Nat

/-- One call leaving the option-byte engine, with the arguments it was made with. -/
inductive Op where
  | read_debug32 (addr : Nat)
  | write_debug32 (addr data : Nat)
  | wait_flash_busy
  | clear_flash_error
  | check_flash_error
  | unlock_flash_if
  | unlock_flash_option_if
  | lock_flash_option
  | lock_flash
  | flash_loader_init
  | flash_loader_run (addr : Nat) (data : List Nat) (len : Nat)
  | printf (word : Nat)
  | read_reg (r_idx : Int)
  | read_unsupported_reg (r_convert : Int)
  | write_unsupported_reg (val : Nat) (r_convert : Int)
  deriving DecidableEq

/-- Answer of the outside world to one call: the `int32_t` status it returns and,
for a read, the word it stores through the output pointer. -/
structure Resp where
  ret : Int
  val : Nat
  deriving DecidableEq

/-- Behaviour of the probe, the transport and the target: the answer to the last
call of a log, as a function of the whole log. -/
abbrev Env := List Op → Resp

/-- Computations of the engine: they extend the log and may run out of fuel. -/
abbrev Dev (α : Type) := StateT (List Op) Option α

/-- Perform one outside call: append it to the log and obtain its answer. -/
def call (env : Env) (op : Op) : Dev Resp :=
  fun log => some (env (log ++ [op]), log ++ [op])

/-! ## read_write.c -/

/-- Byte `i` of a buffer (an `unsigned char`). -/
def byte_at (c : List Nat) (i : Nat) : Nat := c.getD i 0 % 256

/-- C function `read_uint16(c, pt)`. -/
def read_uint16 (c : List Nat) (pt : Nat) : Nat :=
  (byte_at c pt ||| (byte_at c (pt + 1) <<< 8)) % 65536

/-- C function `write_uint16(buf, ui)`: the two bytes stored in `buf`. -/
def write_uint16 (ui : Nat) : List Nat :=
  [ui % 256, (ui >>> 8) % 256]

/-- C function `read_uint32(c, pt)`. -/
def read_uint32 (c : List Nat) (pt : Nat) : Nat :=
  (byte_at c pt ||| (byte_at c (pt + 1) <<< 8) |||
    (byte_at c (pt + 2) <<< 16) ||| (byte_at c (pt + 3) <<< 24)) % U32

/-- C function `write_uint32(buf, ui)`: the four bytes stored in `buf`. -/
def write_uint32 (ui : Nat) : List Nat :=
  [ui % 256, (ui >>> 8) % 256, (ui >>> 16) % 256, (ui >>> 24) % 256]

/-- The C expression `*(uint32_t *)(p)` on a little-endian host: the word whose
object representation is the first four bytes at `p`. -/
def deref_uint32 (p : List Nat) : Nat :=
  byte_at p 0 + 256 * byte_at p 1 + 65536 * byte_at p 2 + 16777216 * byte_at p 3

/-- The idiom `write_uint32((unsigned char *)&data, *(uint32_t *)(base))` of the
codecs: the value of the local `data` afterwards. -/
def option_word (base : List Nat) : Nat :=
  deref_uint32 (write_uint32 (deref_uint32 base))

/-- C function `stlink_read_debug32(sl, addr, data)`: status and the word stored in `*data`. -/
def stlink_read_debug32 (env : Env) (addr : Nat) : Dev (Int × Nat) := do
  let r ← call env (.read_debug32 addr)
  return (r.ret, r.val % U32)

/-- C function `stlink_write_debug32(sl, addr, data)`. -/
def stlink_write_debug32 (env : Env) (addr data : Nat) : Dev Int := do
  let r ← call env (.write_debug32 addr data)
  return r.ret

/-- C function `stlink_read_reg(sl, r_idx, regp)`. -/
def stlink_read_reg (env : Env) (r_idx : Int) : Dev Int := do
  if r_idx > 20 ∨ r_idx < 0 then
    return -1
  let r ← call env (.read_reg r_idx)
  return r.ret

/-- C function `stlink_read_unsupported_reg(sl, r_idx, regp)`. -/
def stlink_read_unsupported_reg (env : Env) (r_idx : Int) : Dev Int := do
  let mut r_convert : Int := 0
  if r_idx ≥ 0x1C ∧ r_idx ≤ 0x1F then
    r_convert := 0x14
  else if r_idx = 0x40 then
    r_convert := 0x21
  else if r_idx ≥ 0x20 ∧ r_idx < 0x40 then
    r_convert := 0x40 + (r_idx - 0x20)
  else
    return -1
  let r ← call env (.read_unsupported_reg r_convert)
  return r.ret

/-- C function `stlink_write_unsupported_reg(sl, val, r_idx, regp)`. -/
def stlink_write_unsupported_reg (env : Env) (val : Nat) (r_idx : Int) : Dev Int := do
  let mut r_convert : Int := 0
  if r_idx ≥ 0x1C ∧ r_idx ≤ 0x1F then
    r_convert := r_idx
  else if r_idx = 0x40 then
    r_convert := 0x21
  else if r_idx ≥ 0x20 ∧ r_idx < 0x40 then
    r_convert := 0x40 + (r_idx - 0x20)
  else
    return -1
  let r ← call env (.write_unsupported_reg val r_convert)
  return r.ret

/-! ## Flash state machine and flash loader (callees of `common_flash.c` and `flash_loader.c`) -/

/-- Modelled from the spec: `wait_flash_busy` of common_flash.c (§4.2 `wait_busy`),
recorded as one call that returns once the controller is idle. -/
def wait_flash_busy (env : Env) : Dev Unit := do
  let _ ← call env .wait_flash_busy
  return ()

/-- Modelled from the spec: `clear_flash_error` of common_flash.c (§4.2 `clear_error`). -/
def clear_flash_error (env : Env) : Dev Unit := do
  let _ ← call env .clear_flash_error
  return ()

/-- Modelled from the spec: `check_flash_error` of common_flash.c (§4.2 `check_error`),
0 for a clean status and non-zero for an error flag. -/
def check_flash_error (env : Env) : Dev Int := do
  let r ← call env .check_flash_error
  return r.ret

/-- Modelled from the spec: `unlock_flash_if` of common_flash.c (§4.2 `unlock_flash`),
non-zero when the flash stays locked. -/
def unlock_flash_if (env : Env) : Dev Int := do
  let r ← call env .unlock_flash_if
  return r.ret

/-- Modelled from the spec: `unlock_flash_option_if` of common_flash.c
(§4.2 `unlock_flash_option`), non-zero when the option block stays locked. -/
def unlock_flash_option_if (env : Env) : Dev Int := do
  let r ← call env .unlock_flash_option_if
  return r.ret

/-- Modelled from the spec: `lock_flash_option` of common_flash.c (§4.2). -/
def lock_flash_option (env : Env) : Dev Int := do
  let r ← call env .lock_flash_option
  return r.ret

/-- Modelled from the spec: `lock_flash` of common_flash.c (§4.2). -/
def lock_flash (env : Env) : Dev Int := do
  let r ← call env .lock_flash
  return r.ret

/-- Modelled from the spec: `stlink_flash_loader_init` of flash_loader.c (§4.3 `init`). -/
def stlink_flash_loader_init (env : Env) : Dev Int := do
  let r ← call env .flash_loader_init
  return r.ret

/-- Modelled from the spec: `stlink_flash_loader_run` of flash_loader.c (§4.3 `run`). -/
def stlink_flash_loader_run (env : Env) (addr : Nat) (base : List Nat) (len : Nat) :
    Dev Int := do
  let r ← call env (.flash_loader_run addr base len)
  return r.ret

/-! ## option_bytes.c: per-family codecs -/

/-- The C expression `~x` at `uint32_t` width. -/
def not32 (x : Nat) : Nat := (U32 - 1 - x % U32) % U32

/-- C function `stlink_read_option_control_register_c0`. -/
def stlink_read_option_control_register_c0 (k : Consts) (env : Env) : Dev (Int × Nat) :=
  stlink_read_debug32 env k.FLASH_C0_OPTR

/-- C function `stlink_read_option_bytes_c0`. -/
def stlink_read_option_bytes_c0 (k : Consts) (env : Env) : Dev (Int × Nat) :=
  stlink_read_option_control_register_c0 k env

/-- C function `stlink_write_option_control_register_c0(sl, option_cr)`. -/
def stlink_write_option_control_register_c0 (k : Consts) (env : Env) (option_cr : Nat) :
    Dev Int := do
  clear_flash_error env
  let ret ← stlink_write_debug32 env k.FLASH_C0_OPTR option_cr
  if ret ≠ 0 then
    return ret
  wait_flash_busy env
  let cr_reg := 1 <<< k.FLASH_C0_CR_OPTSTRT
  let ret ← stlink_write_debug32 env k.FLASH_C0_CR cr_reg
  if ret ≠ 0 then
    return ret
  wait_flash_busy env
  let ret ← check_flash_error env
  if ret ≠ 0 then
    return ret
  -- trigger the load of option bytes into option registers
  let cr_reg := 1 <<< k.FLASH_C0_CR_OBL_LAUNCH
  let _ ← stlink_write_debug32 env k.FLASH_C0_CR cr_reg
  return ret

/-- C function `stlink_write_option_bytes_c0(sl, addr, base, len)`; `addr` and `len` are unused. -/
def stlink_write_option_bytes_c0 (k : Consts) (env : Env) (_addr : Nat) (base : List Nat)
    (_len : Nat) : Dev Int :=
  stlink_write_option_control_register_c0 k env (deref_uint32 base)

/-- C function `stlink_read_option_control_register_f0`. -/
def stlink_read_option_control_register_f0 (k : Consts) (env : Env) : Dev (Int × Nat) :=
  stlink_read_debug32 env k.FLASH_OBR

/-- C function `stlink_write_option_bytes_f0(sl, addr, base, len)`. -/
def stlink_write_option_bytes_f0 (k : Consts) (env : Env) (addr : Nat) (base : List Nat)
    (len : Nat) : Dev Int := do
  if len < 12 ∨ addr ≠ k.STM32_F0_OPTION_BYTES_BASE then
    return -1
  clear_flash_error env
  -- erase option bytes
  let _ ← stlink_write_debug32 env k.FLASH_CR
    ((1 <<< k.FLASH_CR_OPTER) ||| (1 <<< k.FLASH_CR_OPTWRE))
  let ret ← stlink_write_debug32 env k.FLASH_CR
    ((1 <<< k.FLASH_CR_OPTER) ||| (1 <<< k.FLASH_CR_STRT) ||| (1 <<< k.FLASH_CR_OPTWRE))
  if ret ≠ 0 then
    return ret
  wait_flash_busy env
  let ret ← check_flash_error env
  if ret ≠ 0 then
    return ret
  -- set the Option PG bit to enable programming
  let _ ← stlink_write_debug32 env k.FLASH_CR
    ((1 <<< k.FLASH_CR_OPTPG) ||| (1 <<< k.FLASH_CR_OPTWRE))
  let ret ← stlink_flash_loader_init env
  if ret ≠ 0 then
    return ret
  let ret ← stlink_flash_loader_run env addr base len
  if ret ≠ 0 then
    return ret
  -- reload option bytes
  let _ ← stlink_write_debug32 env k.FLASH_CR (1 <<< k.FLASH_CR_OBL_LAUNCH)
  check_flash_error env

/-- The macro `VAL_WITH_COMPLEMENT(v)`:
`(uint16_t) (((v)&0xFF) | (((~(v))<<8)&0xFF00))`, the complement and the shift
taken at 32-bit width. -/
def VAL_WITH_COMPLEMENT (v : Nat) : Nat :=
  ((v &&& 0xFF) ||| (((not32 v <<< 8) % U32) &&& 0xFF00)) % 65536

/-- The object representation of a `uint16_t` array on a little-endian host, as seen
through the cast `(uint8_t*)opt_val`. -/
def halfword_bytes (opt_val : List Nat) : List Nat :=
  opt_val.flatMap fun h => [h % 256, (h >>> 8) % 256]

/-- The chip identifiers of the first `case` group in
`stlink_write_option_control_register_f0`. -/
def f0_chip_group (chip_id : Nat) : Bool :=
  chip_id = 0x422 ∨ chip_id = 0x432 ∨ chip_id = 0x438 ∨ chip_id = 0x446 ∨
  chip_id = 0x439 ∨ chip_id = 0x440 ∨ chip_id = 0x444 ∨ chip_id = 0x445 ∨
  chip_id = 0x448 ∨ chip_id = 0x442

/-- The array `opt_val[8]` built by `stlink_write_option_control_register_f0` from
`option_cr`, the chip identifier and the value read from `FLASH_WRPR`. -/
def f0_opt_val (chip_id option_cr protection : Nat) : List Nat :=
  let option_offset := if f0_chip_group chip_id then 6 else 0
  let user_data_offset := if f0_chip_group chip_id then 16 else 10
  let rdp := if f0_chip_group chip_id then 0x55AA else 0x5AA5
  let user_options := (option_cr >>> option_offset >>> 2) &&& 0xFFFF
  let user_data := (option_cr >>> user_data_offset) &&& 0xFFFF
  [ if option_cr &&& (1 <<< 1) ≠ 0 then 0xFFFF else rdp,
    VAL_WITH_COMPLEMENT user_options,
    VAL_WITH_COMPLEMENT user_data,
    VAL_WITH_COMPLEMENT (user_data >>> 8),
    VAL_WITH_COMPLEMENT protection,
    VAL_WITH_COMPLEMENT (protection >>> 8),
    VAL_WITH_COMPLEMENT (protection >>> 16),
    VAL_WITH_COMPLEMENT (protection >>> 24) ]

/-- C function `stlink_write_option_control_register_f0(sl, option_cr)`. -/
def stlink_write_option_control_register_f0 (k : Consts) (env : Env) (sl : stlink_t)
    (option_cr : Nat) : Dev Int := do
  clear_flash_error env
  -- retrieve current values
  let (ret, _optiondata) ← stlink_read_debug32 env k.FLASH_OBR
  if ret ≠ 0 then
    return ret
  let (ret, protection) ← stlink_read_debug32 env k.FLASH_WRPR
  if ret ≠ 0 then
    return ret
  let opt_val := f0_opt_val sl.chip_id option_cr protection
  -- write bytes and check errors; sizeof(opt_val) = 16
  let ret ← stlink_write_option_bytes_f0 k env k.STM32_F0_OPTION_BYTES_BASE
    (halfword_bytes opt_val) 16
  if ret ≠ 0 then
    return ret
  let ret ← check_flash_error env
  return ret

/-- C function `stlink_read_option_control_register_f2`. -/
def stlink_read_option_control_register_f2 (k : Consts) (env : Env) : Dev (Int × Nat) :=
  stlink_read_debug32 env k.FLASH_F2_OPT_CR

/-- C function `stlink_read_option_bytes_f2`. -/
def stlink_read_option_bytes_f2 (k : Consts) (env : Env) : Dev (Int × Nat) :=
  stlink_read_option_control_register_f2 k env

/-- C function `stlink_read_option_control_register_f4`. -/
def stlink_read_option_control_register_f4 (k : Consts) (env : Env) : Dev (Int × Nat) :=
  stlink_read_debug32 env k.FLASH_F4_OPTCR

/-- C function `stlink_read_option_bytes_f4`. -/
def stlink_read_option_bytes_f4 (k : Consts) (env : Env) : Dev (Int × Nat) :=
  stlink_read_option_control_register_f4 k env

/-- C function `stlink_write_option_bytes_f4(sl, addr, base, len)`; `addr` and `len` are unused. -/
def stlink_write_option_bytes_f4 (k : Consts) (env : Env) (_addr : Nat) (base : List Nat)
    (_len : Nat) : Dev Int := do
  clear_flash_error env
  let option_byte := option_word base
  -- write option byte, ensuring we dont lock opt, and set strt bit
  let _ ← stlink_write_debug32 env k.FLASH_F4_OPTCR
    ((option_byte &&& not32 (1 <<< k.FLASH_F4_OPTCR_LOCK)) |||
      (1 <<< k.FLASH_F4_OPTCR_START))
  wait_flash_busy env
  let ret ← check_flash_error env
  return ret

/-- The loop of `stlink_read_option_bytes_f7`:
`for (counter = ...; counter < option_size / 4 - 1; counter++)`, with `remaining`
the number of iterations still to run.  It yields `some (err, word)` when a read
returned `-1` (the early `return err`) and `none` when the loop ran to its end. -/
def read_option_bytes_f7_loop (env : Env) (sl : stlink_t) :
    (remaining counter : Nat) → Dev (Option (Int × Nat))
  | 0, _ => return none
  | remaining + 1, counter => do
    let (err, option_byte) ← stlink_read_debug32 env ((sl.option_base + counter * 4) % U32)
    if err = -1 then
      return some (err, option_byte)
    else
      let _ ← call env (.printf option_byte)
      read_option_bytes_f7_loop env sl remaining (counter + 1)

/-- C function `stlink_read_option_bytes_f7(sl, option_byte)`. -/
def stlink_read_option_bytes_f7 (env : Env) (sl : stlink_t) : Dev (Int × Nat) := do
  let bound := (sl.option_size / 4 + U32 - 1) % U32
  match ← read_option_bytes_f7_loop env sl bound 0 with
  | some early => return early
  | none => stlink_read_debug32 env ((sl.option_base + bound * 4) % U32)

/-- C function `stlink_write_option_bytes_f7(sl, addr, base, len)`. -/
def stlink_write_option_bytes_f7 (k : Consts) (env : Env) (addr : Nat) (base : List Nat)
    (_len : Nat) : Dev Int := do
  clear_flash_error env
  let option_byte := option_word base
  let addr := if addr = 0 then k.FLASH_F7_OPTCR else addr
  if addr = k.FLASH_F7_OPTCR then
    -- write option byte, ensuring we dont lock opt, and set strt bit
    let _ ← stlink_write_debug32 env k.FLASH_F7_OPTCR
      ((option_byte &&& not32 (1 <<< k.FLASH_F7_OPTCR_LOCK)) |||
        (1 <<< k.FLASH_F7_OPTCR_START))
  else if addr = k.FLASH_F7_OPTCR1 then
    -- read FLASH_F7_OPTCR
    let (_, oldvalue) ← stlink_read_debug32 env k.FLASH_F7_OPTCR
    -- write option byte
    let _ ← stlink_write_debug32 env k.FLASH_F7_OPTCR1 option_byte
    -- write FLASH_F7_OPTCR lock and start address
    let _ ← stlink_write_debug32 env k.FLASH_F7_OPTCR
      ((oldvalue &&& not32 (1 <<< k.FLASH_F7_OPTCR_LOCK)) |||
        (1 <<< k.FLASH_F7_OPTCR_START))
  else
    let _ ← stlink_write_debug32 env addr option_byte
  wait_flash_busy env
  let ret ← check_flash_error env
  return ret

/-- C function `stlink_read_option_control_register_f7`. -/
def stlink_read_option_control_register_f7 (k : Consts) (env : Env) : Dev (Int × Nat) :=
  stlink_read_debug32 env k.FLASH_F7_OPTCR

/-- C function `stlink_write_option_control_register_f7(sl, option_cr)`. -/
def stlink_write_option_control_register_f7 (k : Consts) (env : Env) (option_cr : Nat) :
    Dev Int := do
  clear_flash_error env
  -- write option byte, ensuring we dont lock opt, and set strt bit
  let _ ← stlink_write_debug32 env k.FLASH_F7_OPTCR
    ((option_cr &&& not32 (1 <<< k.FLASH_F7_OPTCR_LOCK)) |||
      (1 <<< k.FLASH_F7_OPTCR_START))
  wait_flash_busy env
  let ret ← check_flash_error env
  return ret

/-- C function `stlink_read_option_control_register1_f7`. -/
def stlink_read_option_control_register1_f7 (k : Consts) (env : Env) : Dev (Int × Nat) :=
  stlink_read_debug32 env k.FLASH_F7_OPTCR1

/-- C function `stlink_write_option_control_register1_f7(sl, option_cr1)`. -/
def stlink_write_option_control_register1_f7 (k : Consts) (env : Env) (option_cr1 : Nat) :
    Dev Int := do
  clear_flash_error env
  let (_, current_control_register_value) ← stlink_read_debug32 env k.FLASH_F7_OPTCR
  -- write option byte
  let _ ← stlink_write_debug32 env k.FLASH_F7_OPTCR1 option_cr1
  let _ ← stlink_write_debug32 env k.FLASH_F7_OPTCR
    ((current_control_register_value &&& not32 (1 <<< k.FLASH_F7_OPTCR_LOCK)) |||
      (1 <<< k.FLASH_F7_OPTCR_START))
  wait_flash_busy env
  let ret ← check_flash_error env
  return ret

/-- C function `stlink_read_option_bytes_boot_add_f7`. -/
def stlink_read_option_bytes_boot_add_f7 (k : Consts) (env : Env) : Dev (Int × Nat) :=
  stlink_read_option_control_register1_f7 k env

/-- C function `stlink_write_option_bytes_boot_add_f7(sl, option_byte_boot_add)`. -/
def stlink_write_option_bytes_boot_add_f7 (k : Consts) (env : Env)
    (option_byte_boot_add : Nat) : Dev Int :=
  stlink_write_option_control_register1_f7 k env option_byte_boot_add

/-- C function `stlink_read_option_control_register_gx`. -/
def stlink_read_option_control_register_gx (k : Consts) (env : Env) : Dev (Int × Nat) :=
  stlink_read_debug32 env k.FLASH_Gx_OPTR

/-- C function `stlink_read_option_bytes_gx`. -/
def stlink_read_option_bytes_gx (k : Consts) (env : Env) : Dev (Int × Nat) :=
  stlink_read_option_control_register_gx k env

/-- C function `stlink_write_option_bytes_gx(sl, addr, base, len)`. -/
def stlink_write_option_bytes_gx (k : Consts) (env : Env) (_addr : Nat) (base : List Nat)
    (_len : Nat) : Dev Int := do
  clear_flash_error env
  let data := option_word base
  let _ ← stlink_write_debug32 env k.FLASH_Gx_OPTR data
  -- set options start bit
  let (_, val) ← stlink_read_debug32 env k.FLASH_Gx_CR
  let val := val ||| (1 <<< k.FLASH_Gx_CR_OPTSTRT)
  let _ ← stlink_write_debug32 env k.FLASH_Gx_CR val
  wait_flash_busy env
  let ret ← check_flash_error env
  -- reload options
  let (_, val) ← stlink_read_debug32 env k.FLASH_Gx_CR
  let val := val ||| (1 <<< k.FLASH_Gx_CR_OBL_LAUNCH)
  let _ ← stlink_write_debug32 env k.FLASH_Gx_CR val
  return ret

/-- The polling loop of `stlink_write_option_bytes_h7`:
`do { read FLASH_H7_OPTSR_CUR into val } while (val & (1 << OPT_BUSY))`;
returns the last value read. -/
def h7_wait_option_busy (k : Consts) (env : Env) : (fuel : Nat) → Dev Nat
  | 0 => failure
  | fuel + 1 => do
    let (_, val) ← stlink_read_debug32 env k.FLASH_H7_OPTSR_CUR
    if val &&& (1 <<< k.FLASH_H7_OPTSR_OPT_BUSY) ≠ 0 then
      h7_wait_option_busy k env fuel
    else
      return val

/-- The `case` labels of the `switch (addr)` in `stlink_write_option_bytes_h7`:
the programmable registers `FLASH_xxx_PRG`. -/
def h7_programmable (k : Consts) (addr : Nat) : Bool :=
  addr = (k.FLASH_H7_REGS_ADDR + 0x20) % U32 ∨ addr = (k.FLASH_H7_REGS_ADDR + 0x2c) % U32 ∨
  addr = (k.FLASH_H7_REGS_ADDR + 0x34) % U32 ∨ addr = (k.FLASH_H7_REGS_ADDR + 0x3c) % U32 ∨
  addr = (k.FLASH_H7_REGS_ADDR + 0x44) % U32

/-- The loop `while (len != 0) { switch (addr) ...; len -= 4; addr += 4; base += 4; }`
of `stlink_write_option_bytes_h7`, followed by its `return 0`. -/
def stlink_write_option_bytes_h7_loop (k : Consts) (env : Env) :
    (fuel : Nat) → (addr : Nat) → (base : List Nat) → (len : Nat) → Dev Int
  | 0, _, _, _ => failure
  | fuel + 1, addr, base, len => do
    if len = 0 then
      return 0
    if h7_programmable k addr then
      -- write to FLASH_xxx_PRG registers
      let data := option_word base
      -- skip if the value in the CUR register is identical
      let (_, val) ← stlink_read_debug32 env ((addr + U32 - 4) % U32)
      if val ≠ data then
        -- write new option byte values and start modification
        let _ ← stlink_write_debug32 env addr data
        let (_, val) ← stlink_read_debug32 env k.FLASH_H7_OPTCR
        let val := val ||| (1 <<< k.FLASH_H7_OPTCR_OPTSTART)
        let _ ← stlink_write_debug32 env k.FLASH_H7_OPTCR val
        -- wait for the option bytes modification to complete
        let val ← h7_wait_option_busy k env fuel
        -- check for errors
        if val &&& (1 <<< k.FLASH_H7_OPTSR_OPTCHANGEERR) ≠ 0 then
          let _ ← stlink_write_debug32 env k.FLASH_H7_OPTCCR
            (1 <<< k.FLASH_H7_OPTCCR_CLR_OPTCHANGEERR)
          return -1
    stlink_write_option_bytes_h7_loop k env fuel
      ((addr + 4) % U32) (base.drop 4) ((len + U32 - 4) % U32)

/-- C function `stlink_write_option_bytes_h7(sl, addr, base, len)`. -/
def stlink_write_option_bytes_h7 (k : Consts) (env : Env) (fuel : Nat) (addr : Nat)
    (base : List Nat) (len : Nat) : Dev Int := do
  -- wait until previous flash option has completed
  wait_flash_busy env
  -- clear previous error
  let _ ← stlink_write_debug32 env k.FLASH_H7_OPTCCR
    (1 <<< k.FLASH_H7_OPTCCR_CLR_OPTCHANGEERR)
  stlink_write_option_bytes_h7_loop k env fuel addr base len

/-- The loop `while (len != 0) { write; wait; if ((ret = check_flash_error(sl))) break;
len -= 4; addr += 4; base += 4; }` shared verbatim by `stlink_write_option_bytes_l0`
and `stlink_write_option_bytes_wb`; returns the value of `ret` on leaving the loop. -/
def write_option_words_loop (env : Env) :
    (fuel : Nat) → (addr : Nat) → (base : List Nat) → (len : Nat) → Dev Int
  | 0, _, _, _ => failure
  | fuel + 1, addr, base, len => do
    if len = 0 then
      return 0
    let data := option_word base
    let _ ← stlink_write_debug32 env addr data
    wait_flash_busy env
    let ret ← check_flash_error env
    if ret ≠ 0 then
      return ret
    write_option_words_loop env fuel ((addr + 4) % U32) (base.drop 4) ((len + U32 - 4) % U32)

/-- C function `stlink_write_option_bytes_l0(sl, addr, base, len)`. -/
def stlink_write_option_bytes_l0 (k : Consts) (env : Env) (sl : stlink_t) (fuel : Nat)
    (addr : Nat) (base : List Nat) (len : Nat) : Dev Int := do
  let flash_base := k.get_stm32l0_flash_base sl
  clear_flash_error env
  let ret ← write_option_words_loop env fuel addr base len
  -- reload options
  let (_, val) ← stlink_read_debug32 env ((flash_base + k.FLASH_PECR_OFF) % U32)
  let val := val ||| (1 <<< k.FLASH_L0_OBL_LAUNCH)
  let _ ← stlink_write_debug32 env ((flash_base + k.FLASH_PECR_OFF) % U32) val
  return ret

/-- C function `stlink_write_option_bytes_l4(sl, addr, base, len)`; `addr` and `len` are unused. -/
def stlink_write_option_bytes_l4 (k : Consts) (env : Env) (_addr : Nat) (base : List Nat)
    (_len : Nat) : Dev Int := do
  clear_flash_error env
  -- write options bytes
  let data := option_word base
  let _ ← stlink_write_debug32 env k.FLASH_L4_OPTR data
  -- set options start bit
  let (_, val) ← stlink_read_debug32 env k.FLASH_L4_CR
  let val := val ||| (1 <<< k.FLASH_L4_CR_OPTSTRT)
  let _ ← stlink_write_debug32 env k.FLASH_L4_CR val
  wait_flash_busy env
  let ret ← check_flash_error env
  -- apply options bytes immediate
  let (_, val) ← stlink_read_debug32 env k.FLASH_L4_CR
  let val := val ||| (1 <<< k.FLASH_L4_CR_OBL_LAUNCH)
  let _ ← stlink_write_debug32 env k.FLASH_L4_CR val
  return ret

/-- C function `stlink_write_option_bytes_wb(sl, addr, base, len)`. -/
def stlink_write_option_bytes_wb (k : Consts) (env : Env) (fuel : Nat) (addr : Nat)
    (base : List Nat) (len : Nat) : Dev Int := do
  clear_flash_error env
  let _ret ← write_option_words_loop env fuel addr base len
  -- set options start bit
  let (_, val) ← stlink_read_debug32 env k.FLASH_WB_CR
  let val := val ||| (1 <<< k.FLASH_WB_CR_OPTSTRT)
  let _ ← stlink_write_debug32 env k.FLASH_WB_CR val
  wait_flash_busy env
  let ret ← check_flash_error env
  -- reload options
  let (_, val) ← stlink_read_debug32 env k.FLASH_WB_CR
  let val := val ||| (1 <<< k.FLASH_WB_CR_OBL_LAUNCH)
  let _ ← stlink_write_debug32 env k.FLASH_WB_CR val
  return ret

/-- C function `stlink_read_option_control_register_wb`. -/
def stlink_read_option_control_register_wb (k : Consts) (env : Env) : Dev (Int × Nat) :=
  stlink_read_debug32 env k.FLASH_WB_OPTR

/-- C function `stlink_write_option_control_register_wb(sl, option_cr)`. -/
def stlink_write_option_control_register_wb (k : Consts) (env : Env) (option_cr : Nat) :
    Dev Int := do
  clear_flash_error env
  let _ ← stlink_write_debug32 env k.FLASH_WB_OPTR option_cr
  wait_flash_busy env
  -- set options start bit
  let val := 1 <<< k.FLASH_WB_CR_OPTSTRT
  let _ ← stlink_write_debug32 env k.FLASH_WB_CR val
  wait_flash_busy env
  let ret ← check_flash_error env
  return ret

/-- C function `stlink_read_option_bytes_generic`. -/
def stlink_read_option_bytes_generic (env : Env) (sl : stlink_t) : Dev (Int × Nat) :=
  stlink_read_debug32 env sl.option_base

/-! ## option_bytes.c: family dispatch -/

/-- The `switch (sl->flash_type)` of `stlink_write_option_bytes`: the selected codec,
or the initial `ret = -1` when no `case` matches. -/
def write_option_bytes_switch (k : Consts) (env : Env) (sl : stlink_t) (fuel : Nat)
    (addr : Nat) (base : List Nat) (len : Nat) : Dev Int :=
  match sl.flash_type with
  | STM32_FLASH_TYPE_C0 => stlink_write_option_bytes_c0 k env addr base len
  | STM32_FLASH_TYPE_F0_F1_F3 => stlink_write_option_bytes_f0 k env addr base len
  | STM32_FLASH_TYPE_F1_XL => stlink_write_option_bytes_f0 k env addr base len
  | STM32_FLASH_TYPE_F2_F4 => stlink_write_option_bytes_f4 k env addr base len
  | STM32_FLASH_TYPE_F7 => stlink_write_option_bytes_f7 k env addr base len
  | STM32_FLASH_TYPE_L0_L1 => stlink_write_option_bytes_l0 k env sl fuel addr base len
  | STM32_FLASH_TYPE_L4 => stlink_write_option_bytes_l4 k env addr base len
  | STM32_FLASH_TYPE_G0 => stlink_write_option_bytes_gx k env addr base len
  | STM32_FLASH_TYPE_G4 => stlink_write_option_bytes_gx k env addr base len
  | STM32_FLASH_TYPE_H7 => stlink_write_option_bytes_h7 k env fuel addr base len
  | STM32_FLASH_TYPE_WB_WL => stlink_write_option_bytes_wb k env fuel addr base len
  | OTHER _ => return -1

/-- C function `stlink_write_option_bytes(sl, addr, base, len)`. -/
def stlink_write_option_bytes (k : Consts) (env : Env) (sl : stlink_t) (fuel : Nat)
    (addr : Nat) (base : List Nat) (len : Nat) : Dev Int := do
  if sl.option_base = 0 then
    return -1
  if addr < sl.option_base ∨ addr > (sl.option_base + sl.option_size) % U32 then
    return -1
  if (addr + len) % U32 > (sl.option_base + sl.option_size) % U32 then
    return -1
  wait_flash_busy env
  if (← unlock_flash_if env) ≠ 0 then
    return -1
  if (← unlock_flash_option_if env) ≠ 0 then
    return -1
  let ret ← write_option_bytes_switch k env sl fuel addr base len
  -- re-lock flash
  let _ ← lock_flash_option env
  let _ ← lock_flash env
  return ret

/-- C function `stlink_read_option_control_register32(sl, option_byte)`.  On the paths that do
not read, `*option_byte` is left untouched; the model reports the word 0 there. -/
def stlink_read_option_control_register32 (k : Consts) (env : Env) (sl : stlink_t) :
    Dev (Int × Nat) := do
  if sl.option_base = 0 then
    return (-1, 0)
  match sl.flash_type with
  | STM32_FLASH_TYPE_C0 => stlink_read_option_control_register_c0 k env
  | STM32_FLASH_TYPE_F0_F1_F3 => stlink_read_option_control_register_f0 k env
  | STM32_FLASH_TYPE_F1_XL => stlink_read_option_control_register_f0 k env
  | STM32_FLASH_TYPE_F7 => stlink_read_option_control_register_f7 k env
  | STM32_FLASH_TYPE_WB_WL => stlink_read_option_control_register_wb k env
  | _ => return (-1, 0)

/-- The `switch (sl->flash_type)` of `stlink_write_option_control_register32`. -/
def write_option_control_register32_switch (k : Consts) (env : Env) (sl : stlink_t)
    (option_cr : Nat) : Dev Int :=
  match sl.flash_type with
  | STM32_FLASH_TYPE_C0 => stlink_write_option_control_register_c0 k env option_cr
  | STM32_FLASH_TYPE_F0_F1_F3 => stlink_write_option_control_register_f0 k env sl option_cr
  | STM32_FLASH_TYPE_F1_XL => stlink_write_option_control_register_f0 k env sl option_cr
  | STM32_FLASH_TYPE_F7 => stlink_write_option_control_register_f7 k env option_cr
  | STM32_FLASH_TYPE_WB_WL => stlink_write_option_control_register_wb k env option_cr
  | _ => return -1

/-- C function `stlink_write_option_control_register32(sl, option_cr)`. -/
def stlink_write_option_control_register32 (k : Consts) (env : Env) (sl : stlink_t)
    (option_cr : Nat) : Dev Int := do
  wait_flash_busy env
  if (← unlock_flash_if env) ≠ 0 then
    return -1
  if (← unlock_flash_option_if env) ≠ 0 then
    return -1
  let ret ← write_option_control_register32_switch k env sl option_cr
  -- re-lock flash
  let _ ← lock_flash_option env
  let _ ← lock_flash env
  return ret

/-- C function `stlink_read_option_control_register1_32(sl, option_byte)`. -/
def stlink_read_option_control_register1_32 (k : Consts) (env : Env) (sl : stlink_t) :
    Dev (Int × Nat) := do
  if sl.option_base = 0 then
    return (-1, 0)
  match sl.flash_type with
  | STM32_FLASH_TYPE_F7 => stlink_read_option_control_register1_f7 k env
  | _ => return (-1, 0)

/-- C function `stlink_write_option_control_register1_32(sl, option_cr1)`. -/
def stlink_write_option_control_register1_32 (k : Consts) (env : Env) (sl : stlink_t)
    (option_cr1 : Nat) : Dev Int := do
  wait_flash_busy env
  if (← unlock_flash_if env) ≠ 0 then
    return -1
  if (← unlock_flash_option_if env) ≠ 0 then
    return -1
  let ret ← match sl.flash_type with
    | STM32_FLASH_TYPE_F7 => stlink_write_option_control_register1_f7 k env option_cr1
    | _ => pure (-1)
  let _ ← lock_flash_option env
  let _ ← lock_flash env
  return ret

/-- C function `stlink_read_option_bytes32(sl, option_byte)`. -/
def stlink_read_option_bytes32 (k : Consts) (env : Env) (sl : stlink_t) :
    Dev (Int × Nat) := do
  if sl.option_base = 0 then
    return (-1, 0)
  if sl.chip_id = k.STM32_CHIPID_C011xx ∨ sl.chip_id = k.STM32_CHIPID_C031xx then
    stlink_read_option_bytes_c0 k env
  else if sl.chip_id = k.STM32_CHIPID_F2 then
    stlink_read_option_bytes_f2 k env
  else if sl.chip_id = k.STM32_CHIPID_F4 ∨ sl.chip_id = k.STM32_CHIPID_F446 then
    stlink_read_option_bytes_f4 k env
  else if sl.chip_id = k.STM32_CHIPID_F76xxx then
    stlink_read_option_bytes_f7 env sl
  else if sl.chip_id = k.STM32_CHIPID_G0_CAT1 ∨ sl.chip_id = k.STM32_CHIPID_G0_CAT2 ∨
      sl.chip_id = k.STM32_CHIPID_G4_CAT2 ∨ sl.chip_id = k.STM32_CHIPID_G4_CAT3 ∨
      sl.chip_id = k.STM32_CHIPID_G4_CAT4 then
    stlink_read_option_bytes_gx k env
  else
    stlink_read_option_bytes_generic env sl

/-- C function `stlink_write_option_bytes32(sl, option_byte)`: the word is passed as the four
bytes of its object representation (little-endian host). -/
def stlink_write_option_bytes32 (k : Consts) (env : Env) (sl : stlink_t) (fuel : Nat)
    (option_byte : Nat) : Dev Int :=
  stlink_write_option_bytes k env sl fuel sl.option_base (write_uint32 option_byte) 4

/-- C function `stlink_read_option_bytes_boot_add32(sl, option_byte)`. -/
def stlink_read_option_bytes_boot_add32 (k : Consts) (env : Env) (sl : stlink_t) :
    Dev (Int × Nat) := do
  if sl.option_base = 0 then
    return (-1, 0)
  match sl.flash_type with
  | STM32_FLASH_TYPE_F7 => stlink_read_option_bytes_boot_add_f7 k env
  | _ => return (-1, 0)

/-- C function `stlink_write_option_bytes_boot_add32(sl, option_bytes_boot_add)`. -/
def stlink_write_option_bytes_boot_add32 (k : Consts) (env : Env) (sl : stlink_t)
    (option_bytes_boot_add : Nat) : Dev Int := do
  wait_flash_busy env
  if (← unlock_flash_if env) ≠ 0 then
    return -1
  if (← unlock_flash_option_if env) ≠ 0 then
    return -1
  let ret ← match sl.flash_type with
    | STM32_FLASH_TYPE_F7 => stlink_write_option_bytes_boot_add_f7 k env option_bytes_boot_add
    | _ => pure (-1)
  -- re-lock flash
  let _ ← lock_flash_option env
  let _ ← lock_flash env
  return ret

/-! ## Vocabulary of the statements -/

/-- The request passes the three validation tests of `stlink_write_option_bytes`
(each `if` that returns `-1` before the first call is not taken). -/
def request_accepted (sl : stlink_t) (addr len : Nat) : Prop :=
  sl.option_base ≠ 0 ∧
  ¬ (addr < sl.option_base ∨ addr > (sl.option_base + sl.option_size) % U32) ∧
  ¬ ((addr + len) % U32 > (sl.option_base + sl.option_size) % U32)

instance (sl : stlink_t) (addr len : Nat) : Decidable (request_accepted sl addr len) := by
  unfold request_accepted
  infer_instance

/-- The families whose codec contains a `while (len != 0)` loop. -/
def loop_family (t : stm32_flash_type) : Prop :=
  t = STM32_FLASH_TYPE_H7 ∨ t = STM32_FLASH_TYPE_L0_L1 ∨ t = STM32_FLASH_TYPE_WB_WL

instance (t : stm32_flash_type) : Decidable (loop_family t) := by
  unfold loop_family
  infer_instance

/-- The target never reports `OPT_BUSY` when `FLASH_H7_OPTSR_CUR` is polled. -/
def h7_never_busy (k : Consts) (env : Env) : Prop :=
  ∀ log, (env (log ++ [.read_debug32 k.FLASH_H7_OPTSR_CUR])).val % U32 &&&
    (1 <<< k.FLASH_H7_OPTSR_OPT_BUSY) = 0

/-- The calls made by an accepted write before the codec is selected. -/
def unlock_sequence : List Op :=
  [.wait_flash_busy, .unlock_flash_if, .unlock_flash_option_if]

/-- The calls that re-lock the flash after the codec. -/
def relock_sequence : List Op :=
  [.lock_flash_option, .lock_flash]

/-- An instance of the register map, with the values of the STM32 reference manuals. -/
def example_consts : Consts where
  FLASH_C0_OPTR := 0x40022020
  FLASH_C0_CR := 0x40022014
  FLASH_C0_CR_OPTSTRT := 17
  FLASH_C0_CR_OBL_LAUNCH := 27
  FLASH_OBR := 0x4002201C
  FLASH_WRPR := 0x40022020
  FLASH_CR := 0x40022010
  FLASH_CR_OPTER := 5
  FLASH_CR_OPTWRE := 9
  FLASH_CR_STRT := 6
  FLASH_CR_OPTPG := 4
  FLASH_CR_OBL_LAUNCH := 13
  STM32_F0_OPTION_BYTES_BASE := 0x1FFFF800
  FLASH_F2_OPT_CR := 0x40023C14
  FLASH_F4_OPTCR := 0x40023C14
  FLASH_F4_OPTCR_LOCK := 0
  FLASH_F4_OPTCR_START := 1
  FLASH_F7_OPTCR := 0x40023C14
  FLASH_F7_OPTCR_LOCK := 0
  FLASH_F7_OPTCR_START := 1
  FLASH_F7_OPTCR1 := 0x40023C18
  FLASH_Gx_OPTR := 0x40022020
  FLASH_Gx_CR := 0x40022014
  FLASH_Gx_CR_OPTSTRT := 17
  FLASH_Gx_CR_OBL_LAUNCH := 27
  FLASH_H7_REGS_ADDR := 0x52002000
  FLASH_H7_OPTCR := 0x52002018
  FLASH_H7_OPTCR_OPTSTART := 1
  FLASH_H7_OPTCCR := 0x52002024
  FLASH_H7_OPTCCR_CLR_OPTCHANGEERR := 30
  FLASH_H7_OPTSR_CUR := 0x5200201C
  FLASH_H7_OPTSR_OPT_BUSY := 0
  FLASH_H7_OPTSR_OPTCHANGEERR := 30
  FLASH_PECR_OFF := 0x04
  FLASH_L0_OBL_LAUNCH := 18
  FLASH_L4_OPTR := 0x40022020
  FLASH_L4_CR := 0x40022014
  FLASH_L4_CR_OPTSTRT := 17
  FLASH_L4_CR_OBL_LAUNCH := 27
  FLASH_WB_OPTR := 0x58004020
  FLASH_WB_CR := 0x58004014
  FLASH_WB_CR_OPTSTRT := 17
  FLASH_WB_CR_OBL_LAUNCH := 27
  STM32_CHIPID_C011xx := 0x443
  STM32_CHIPID_C031xx := 0x453
  STM32_CHIPID_F2 := 0x411
  STM32_CHIPID_F4 := 0x413
  STM32_CHIPID_F446 := 0x421
  STM32_CHIPID_F76xxx := 0x451
  STM32_CHIPID_G0_CAT1 := 0x466
  STM32_CHIPID_G0_CAT2 := 0x460
  STM32_CHIPID_G4_CAT2 := 0x468
  STM32_CHIPID_G4_CAT3 := 0x469
  STM32_CHIPID_G4_CAT4 := 0x479
  get_stm32l0_flash_base := fun sl =>
    if sl.chip_id = 0x457 ∨ sl.chip_id = 0x425 ∨ sl.chip_id = 0x417 ∨ sl.chip_id = 0x447
    then 0x40022000 else 0x40023C00

/-- An environment in which every call succeeds and every read yields 0. -/
def env_ok : Env := fun _ => ⟨0, 0⟩

/-- An environment in which the call named `op` fails with `-1` (whenever it is the
last call of the log) and every other call succeeds. -/
def env_failing (op : Op) : Env := fun log =>
  if log.getLast? = some op then ⟨-1, 0⟩ else ⟨0, 0⟩

/-- An F7 session: chip 0x451, option bytes at `0x1FFF0000`, 32 bytes. -/
def sl_f7 : stlink_t := ⟨0x451, STM32_FLASH_TYPE_F7, 0x1FFF0000, 0x20⟩

/-- A session of a family without option-byte support in the dispatcher. -/
def sl_other : stlink_t := ⟨0x472, OTHER 11, 0x40022040, 4⟩

/-- An F7 session whose option-byte region is unknown (`option_base == 0`). -/
def sl_no_option : stlink_t := ⟨0x452, STM32_FLASH_TYPE_F7, 0, 0⟩

/-- A computation that always returns, having only appended calls to the log. -/
structure Returns {α : Type} (m : Dev α) : Prop where
  out : ∀ log, ∃ a ops, m.run log = some (a, log ++ ops)


/-- An F0 session: chip 0x440 (STM32F05x), option bytes at `0x1FFFF800`, 16 bytes. -/
def sl_f0 : stlink_t := ⟨0x440, STM32_FLASH_TYPE_F0_F1_F3, 0x1FFFF800, 16⟩

/-- An L0 session: chip 0x457, option bytes at `0x1FF80000`, 20 bytes. -/
def sl_l0 : stlink_t := ⟨0x457, STM32_FLASH_TYPE_L0_L1, 0x1FF80000, 20⟩

/-- The complement invariant of a stored option half-word:
`high_byte == (~low_byte) & 0xFF`. -/
def complement_encoded (hw : Nat) : Prop :=
  hw >>> 8 = not32 (hw &&& 0xFF) &&& 0xFF

instance (hw : Nat) : Decidable (complement_encoded hw) := by
  unfold complement_encoded
  infer_instance

/-- The calls of `stlink_write_option_control_register_f0` when every call succeeds,
`protection` being the value read from `FLASH_WRPR`. -/
def f0_control_register_calls (k : Consts) (chip_id option_cr protection : Nat) : List Op :=
  [.clear_flash_error, .read_debug32 k.FLASH_OBR, .read_debug32 k.FLASH_WRPR,
    .clear_flash_error,
    .write_debug32 k.FLASH_CR ((1 <<< k.FLASH_CR_OPTER) ||| (1 <<< k.FLASH_CR_OPTWRE)),
    .write_debug32 k.FLASH_CR
      ((1 <<< k.FLASH_CR_OPTER) ||| (1 <<< k.FLASH_CR_STRT) ||| (1 <<< k.FLASH_CR_OPTWRE)),
    .wait_flash_busy, .check_flash_error,
    .write_debug32 k.FLASH_CR ((1 <<< k.FLASH_CR_OPTPG) ||| (1 <<< k.FLASH_CR_OPTWRE)),
    .flash_loader_init,
    .flash_loader_run k.STM32_F0_OPTION_BYTES_BASE
      (halfword_bytes (f0_opt_val chip_id option_cr protection)) 16,
    .write_debug32 k.FLASH_CR (1 <<< k.FLASH_CR_OBL_LAUNCH),
    .check_flash_error, .check_flash_error]

/-- The ordering rule "no error check directly after a register write": scanning the
calls in order, `pending` records that a `write_debug32` was made since the last
`wait_flash_busy`; the scan fails at a `check_flash_error` met while `pending`. -/
def checks_follow_wait : Bool → List Op → Bool
  | _, [] => true
  | _, .write_debug32 _ _ :: rest => checks_follow_wait true rest
  | _, .wait_flash_busy :: rest => checks_follow_wait false rest
  | pending, .check_flash_error :: rest => !pending && checks_follow_wait pending rest
  | pending, _ :: rest => checks_follow_wait pending rest

/-- An environment in which every register write fails with `-1` and every other
call succeeds. -/
def env_write_fails : Env := fun log =>
  match log.getLast? with
  | some (.write_debug32 _ _) => ⟨-1, 0⟩
  | _ => ⟨0, 0⟩

/-- An environment in which the first `check_flash_error` of a log reports `-1` and
every other call, later error checks included, succeeds. -/
def env_first_check_fails : Env := fun log =>
  if log.getLast? = some .check_flash_error ∧ log.count .check_flash_error = 1 then ⟨-1, 0⟩
  else ⟨0, 0⟩

/-- An F4 session: chip 0x413, option control register at `0x40023C14`, 4 bytes. -/
def sl_f4 : stlink_t := ⟨0x413, STM32_FLASH_TYPE_F2_F4, 0x40023C14, 4⟩

/-- A WB session: chip 0x495, option bytes at `0x1FFF8000`, 128 bytes. -/
def sl_wb : stlink_t := ⟨0x495, STM32_FLASH_TYPE_WB_WL, 0x1FFF8000, 128⟩

/-- The calls of a streaming loop that handled `m` data words: for `i = 0 .. m - 1`,
in increasing order, the write of word `i` of `base` at `addr + 4 * i`, followed by
`wait_flash_busy` and `check_flash_error`. -/
def streamed_words (addr : Nat) (base : List Nat) (m : Nat) : List Op :=
  (List.range m).flatMap fun i =>
    [.write_debug32 ((addr + 4 * i) % U32) (option_word (base.drop (4 * i))),
      .wait_flash_busy, .check_flash_error]

/-- The log after `stlink_read_option_bytes_f7` has read and printed the first `m`
words of the option region: for `i = 0 .. m - 1`, in increasing order, the read at
`option_base + 4 * i` followed by the `printf` of the word it returned. -/
def f7_dump (env : Env) (option_base : Nat) : (m : Nat) → List Op → List Op
  | 0, log => log
  | m + 1, log =>
    let read := f7_dump env option_base m log ++ [.read_debug32 ((option_base + 4 * m) % U32)]
    read ++ [.printf ((env read).val % U32)]

/-- An F7 session with an empty option region (`option_size == 0`). -/
def sl_f7_empty : stlink_t := ⟨0x451, STM32_FLASH_TYPE_F7, 0x1FFF0000, 0⟩

/-- An environment in which the first call of a log returns the status `-2` and
every other call succeeds. -/
def env_first_read_minus_two : Env := fun log =>
  if log.length = 1 then ⟨-2, 0⟩ else ⟨0, 0⟩

/-- The calls of `stlink_write_option_bytes_f0` on a request it does not reject,
when no call fails; a failing call ends the sequence right after it. -/
def f0_codec_calls (k : Consts) (addr : Nat) (base : List Nat) (len : Nat) : List Op :=
  [.clear_flash_error,
    .write_debug32 k.FLASH_CR ((1 <<< k.FLASH_CR_OPTER) ||| (1 <<< k.FLASH_CR_OPTWRE)),
    .write_debug32 k.FLASH_CR
      ((1 <<< k.FLASH_CR_OPTER) ||| (1 <<< k.FLASH_CR_STRT) ||| (1 <<< k.FLASH_CR_OPTWRE)),
    .wait_flash_busy, .check_flash_error,
    .write_debug32 k.FLASH_CR ((1 <<< k.FLASH_CR_OPTPG) ||| (1 <<< k.FLASH_CR_OPTWRE)),
    .flash_loader_init,
    .flash_loader_run addr base len,
    .write_debug32 k.FLASH_CR (1 <<< k.FLASH_CR_OBL_LAUNCH),
    .check_flash_error]

/-- Every option-busy poll of the H7 codec ends within `n` reads: from every log,
one of the next `n` reads of `FLASH_H7_OPTSR_CUR` finds `OPT_BUSY` clear. -/
def h7_busy_at_most (k : Consts) (env : Env) (n : Nat) : Prop :=
  ∀ log, ∃ j, j < n ∧
    (env (log ++ List.replicate (j + 1) (.read_debug32 k.FLASH_H7_OPTSR_CUR))).val % U32 &&&
      (1 <<< k.FLASH_H7_OPTSR_OPT_BUSY) = 0

/-- The update `len -= 4` of the word loops, in `uint32_t`. -/
def len_minus_four (len : Nat) : Nat := (len + U32 - 4) % U32

/-- Every value the computation can return satisfies `P`. -/
structure OnlyExit {α : Type} (P : α → Prop) (m : Dev α) : Prop where
  out : ∀ log a final, m.run log = some (a, final) → P a

/-- The target never reports `OPTCHANGEERR` in `FLASH_H7_OPTSR_CUR`. -/
def h7_no_change_error (k : Consts) (env : Env) : Prop :=
  ∀ log, (env log).val % U32 &&& (1 <<< k.FLASH_H7_OPTSR_OPTCHANGEERR) = 0

/-- An environment in which every call succeeds and every read yields `0x40000000`:
on the example register map, `FLASH_H7_OPTSR_CUR` with `OPTCHANGEERR` set and
`OPT_BUSY` clear. -/
def env_change_error : Env := fun _ => ⟨0, 0x40000000⟩

/-! ## Termination of the loop-free codecs -/

theorem Returns.pure {α : Type} (a : α) : Returns (pure a : Dev α) :=
  ⟨fun log => ⟨a, [], by simp [StateT.run, Pure.pure, StateT.pure]⟩⟩

theorem Returns.call (env : Env) (op : Op) : Returns (call env op) :=
  ⟨fun _ => ⟨_, [op], rfl⟩⟩

theorem Returns.bind {α β : Type} {m : Dev α} {f : α → Dev β} (hm : Returns m)
    (hf : ∀ a, Returns (f a)) : Returns (m >>= f) := by
  constructor
  intro log
  obtain ⟨a, ops, h⟩ := hm.out log
  obtain ⟨b, ops2, h2⟩ := (hf a).out (log ++ ops)
  refine ⟨b, ops ++ ops2, ?_⟩
  simp only [StateT.run] at h h2
  simp [StateT.run, Bind.bind, StateT.bind, h, h2]

theorem Returns.ite {α : Type} {c : Prop} [Decidable c] {t e : Dev α} (ht : Returns t)
    (he : Returns e) : Returns (if c then t else e) := by
  split <;> assumption

theorem returns_write_option_bytes_c0 (k : Consts) (env : Env) (addr : Nat)
    (base : List Nat) (len : Nat) : Returns (stlink_write_option_bytes_c0 k env addr base len) := by
  unfold stlink_write_option_bytes_c0 stlink_write_option_control_register_c0
    clear_flash_error wait_flash_busy check_flash_error stlink_write_debug32
  repeat with_reducible first | apply Returns.bind | apply Returns.pure | apply Returns.call | apply Returns.ite | intro _ | split | dsimp only

theorem returns_write_option_bytes_f0 (k : Consts) (env : Env) (addr : Nat)
    (base : List Nat) (len : Nat) : Returns (stlink_write_option_bytes_f0 k env addr base len) := by
  unfold stlink_write_option_bytes_f0 clear_flash_error wait_flash_busy check_flash_error
    stlink_write_debug32 stlink_flash_loader_init stlink_flash_loader_run
  repeat with_reducible first | apply Returns.bind | apply Returns.pure | apply Returns.call | apply Returns.ite | intro _ | split | dsimp only

theorem returns_write_option_bytes_f4 (k : Consts) (env : Env) (addr : Nat)
    (base : List Nat) (len : Nat) : Returns (stlink_write_option_bytes_f4 k env addr base len) := by
  unfold stlink_write_option_bytes_f4 clear_flash_error wait_flash_busy check_flash_error
    stlink_write_debug32
  repeat with_reducible first | apply Returns.bind | apply Returns.pure | apply Returns.call | apply Returns.ite | intro _ | split | dsimp only

theorem returns_write_option_bytes_f7 (k : Consts) (env : Env) (addr : Nat)
    (base : List Nat) (len : Nat) : Returns (stlink_write_option_bytes_f7 k env addr base len) := by
  unfold stlink_write_option_bytes_f7 clear_flash_error wait_flash_busy check_flash_error
    stlink_write_debug32 stlink_read_debug32
  repeat with_reducible first | apply Returns.bind | apply Returns.pure | apply Returns.call | apply Returns.ite | intro _ | split | dsimp only

theorem returns_write_option_bytes_gx (k : Consts) (env : Env) (addr : Nat)
    (base : List Nat) (len : Nat) : Returns (stlink_write_option_bytes_gx k env addr base len) := by
  unfold stlink_write_option_bytes_gx clear_flash_error wait_flash_busy check_flash_error
    stlink_write_debug32 stlink_read_debug32
  repeat with_reducible first | apply Returns.bind | apply Returns.pure | apply Returns.call | apply Returns.ite | intro _ | split | dsimp only

theorem returns_write_option_bytes_l4 (k : Consts) (env : Env) (addr : Nat)
    (base : List Nat) (len : Nat) : Returns (stlink_write_option_bytes_l4 k env addr base len) := by
  unfold stlink_write_option_bytes_l4 clear_flash_error wait_flash_busy check_flash_error
    stlink_write_debug32 stlink_read_debug32
  repeat with_reducible first | apply Returns.bind | apply Returns.pure | apply Returns.call | apply Returns.ite | intro _ | split | dsimp only

/-- The streaming loop of the L0/L1 and WB/WL codecs returns for every word-aligned
length once the fuel exceeds the number of words. -/
theorem returns_write_option_words_loop (env : Env) :
    ∀ (fuel addr : Nat) (base : List Nat) (len : Nat), len % 4 = 0 → len < U32 →
      len / 4 < fuel → Returns (write_option_words_loop env fuel addr base len) := by
  intro fuel
  induction fuel with
  | zero => intro addr base len _ _ h; omega
  | succ n ih =>
    intro addr base len h4 hlt hfuel
    unfold write_option_words_loop
    by_cases hz : len = 0
    · simp only [hz, if_true]
      exact Returns.pure 0
    · have hnext : Returns (write_option_words_loop env n ((addr + 4) % U32) (base.drop 4)
          ((len + U32 - 4) % U32)) := by
        apply ih
        · unfold U32 at *; omega
        · unfold U32 at *; omega
        · unfold U32 at *; omega
      unfold wait_flash_busy check_flash_error stlink_write_debug32
      simp only [hz, if_false]
      repeat with_reducible first | exact hnext | apply Returns.bind | apply Returns.pure | apply Returns.call | apply Returns.ite | intro _ | split | dsimp only

theorem returns_write_option_bytes_l0 (k : Consts) (env : Env) (sl : stlink_t)
    (fuel addr : Nat) (base : List Nat) (len : Nat) (h4 : len % 4 = 0) (hlt : len < U32)
    (hfuel : len / 4 < fuel) :
    Returns (stlink_write_option_bytes_l0 k env sl fuel addr base len) := by
  have hloop := returns_write_option_words_loop env fuel addr base len h4 hlt hfuel
  unfold stlink_write_option_bytes_l0 clear_flash_error stlink_write_debug32
    stlink_read_debug32
  repeat with_reducible first | exact hloop | apply Returns.bind | apply Returns.pure | apply Returns.call | apply Returns.ite | intro _ | split | dsimp only

theorem returns_write_option_bytes_wb (k : Consts) (env : Env)
    (fuel addr : Nat) (base : List Nat) (len : Nat) (h4 : len % 4 = 0) (hlt : len < U32)
    (hfuel : len / 4 < fuel) :
    Returns (stlink_write_option_bytes_wb k env fuel addr base len) := by
  have hloop := returns_write_option_words_loop env fuel addr base len h4 hlt hfuel
  unfold stlink_write_option_bytes_wb clear_flash_error wait_flash_busy check_flash_error
    stlink_write_debug32 stlink_read_debug32
  repeat with_reducible first | exact hloop | apply Returns.bind | apply Returns.pure | apply Returns.call | apply Returns.ite | intro _ | split | dsimp only

theorem returns_h7_wait_option_busy (k : Consts) (env : Env) (hidle : h7_never_busy k env)
    (fuel : Nat) : Returns (h7_wait_option_busy k env (fuel + 1)) := by
  constructor
  intro log
  refine ⟨(env (log ++ [.read_debug32 k.FLASH_H7_OPTSR_CUR])).val % U32,
    [.read_debug32 k.FLASH_H7_OPTSR_CUR], ?_⟩
  have h := hidle log
  simp [h7_wait_option_busy, stlink_read_debug32, call, StateT.run, bind, StateT.bind,
    pure, StateT.pure, h]

theorem returns_write_option_bytes_h7_loop (k : Consts) (env : Env)
    (hidle : h7_never_busy k env) :
    ∀ (fuel addr : Nat) (base : List Nat) (len : Nat), len % 4 = 0 → len < U32 →
      len / 4 + 1 < fuel → Returns (stlink_write_option_bytes_h7_loop k env fuel addr base len) := by
  intro fuel
  induction fuel with
  | zero => intro addr base len _ _ h; omega
  | succ n ih =>
    intro addr base len h4 hlt hfuel
    unfold stlink_write_option_bytes_h7_loop
    by_cases hz : len = 0
    · simp only [hz, if_true]
      exact Returns.pure 0
    · have hnext : Returns (stlink_write_option_bytes_h7_loop k env n ((addr + 4) % U32)
          (base.drop 4) ((len + U32 - 4) % U32)) := by
        apply ih
        · unfold U32 at *; omega
        · unfold U32 at *; omega
        · unfold U32 at *; omega
      obtain ⟨m, rfl⟩ : ∃ m, n = m + 1 := ⟨n - 1, by omega⟩
      have hwait := returns_h7_wait_option_busy k env hidle m
      unfold stlink_write_debug32 stlink_read_debug32
      simp only [hz, if_false]
      repeat with_reducible first | exact hnext | exact hwait | apply Returns.bind | apply Returns.pure | apply Returns.call | apply Returns.ite | intro _ | split | dsimp only

theorem returns_write_option_bytes_h7 (k : Consts) (env : Env) (hidle : h7_never_busy k env)
    (fuel addr : Nat) (base : List Nat) (len : Nat) (h4 : len % 4 = 0) (hlt : len < U32)
    (hfuel : len / 4 + 1 < fuel) :
    Returns (stlink_write_option_bytes_h7 k env fuel addr base len) := by
  have hloop := returns_write_option_bytes_h7_loop k env hidle fuel addr base len h4 hlt hfuel
  unfold stlink_write_option_bytes_h7 wait_flash_busy stlink_write_debug32
  repeat with_reducible first | exact hloop | apply Returns.bind | apply Returns.pure | apply Returns.call | apply Returns.ite | intro _ | split | dsimp only

/-- The codec selected by the dispatcher returns: always for the loop-free families,
and for the looping ones when the length is word-aligned, the fuel covers the words
and (H7) the option-busy poll sees an idle controller. -/
theorem returns_write_option_bytes_switch (k : Consts) (env : Env) (sl : stlink_t)
    (fuel addr : Nat) (base : List Nat) (len : Nat)
    (hloop : loop_family sl.flash_type → len % 4 = 0 ∧ len < U32 ∧ len / 4 + 1 < fuel)
    (hidle : sl.flash_type = STM32_FLASH_TYPE_H7 → h7_never_busy k env) :
    Returns (write_option_bytes_switch k env sl fuel addr base len) := by
  unfold write_option_bytes_switch
  unfold loop_family at hloop
  split
  · exact returns_write_option_bytes_c0 k env addr base len
  · exact returns_write_option_bytes_f0 k env addr base len
  · exact returns_write_option_bytes_f0 k env addr base len
  · exact returns_write_option_bytes_f4 k env addr base len
  · exact returns_write_option_bytes_f7 k env addr base len
  · rename_i h
    obtain ⟨h4, hlt, hf⟩ := hloop (Or.inr (Or.inl h))
    exact returns_write_option_bytes_l0 k env sl fuel addr base len h4 hlt (by omega)
  · exact returns_write_option_bytes_l4 k env addr base len
  · exact returns_write_option_bytes_gx k env addr base len
  · exact returns_write_option_bytes_gx k env addr base len
  · rename_i h
    obtain ⟨h4, hlt, hf⟩ := hloop (Or.inl h)
    exact returns_write_option_bytes_h7 k env (hidle h) fuel addr base len h4 hlt hf
  · rename_i h
    obtain ⟨h4, hlt, hf⟩ := hloop (Or.inr (Or.inr h))
    exact returns_write_option_bytes_wb k env fuel addr base len h4 hlt (by omega)
  · exact Returns.pure (-1)

/-! ## The dispatcher after validation -/

/-- An accepted request whose two unlock steps succeed runs the selected codec and
then the two lock calls, and returns what the codec returned. -/
theorem write_option_bytes_accepted (k : Consts) (env : Env) (sl : stlink_t)
    (fuel addr : Nat) (base : List Nat) (len : Nat) (log : List Op)
    (hvalid : request_accepted sl addr len)
    (hu : (env (log ++ [.wait_flash_busy, .unlock_flash_if])).ret = 0)
    (huo : (env (log ++ unlock_sequence)).ret = 0) :
    (stlink_write_option_bytes k env sl fuel addr base len).run log =
      ((write_option_bytes_switch k env sl fuel addr base len).run
        (log ++ unlock_sequence)).map fun p => (p.1, p.2 ++ relock_sequence) := by
  obtain ⟨hbase, hrange, hlen⟩ := hvalid
  unfold unlock_sequence at huo
  unfold stlink_write_option_bytes wait_flash_busy unlock_flash_if unlock_flash_option_if
    lock_flash_option lock_flash unlock_sequence relock_sequence
  cases h : write_option_bytes_switch k env sl fuel addr base len
      (log ++ [Op.wait_flash_busy, Op.unlock_flash_if, Op.unlock_flash_option_if]) with
  | none => simp [StateT.run, bind, StateT.bind, pure, StateT.pure, call, hbase, hrange, hlen,
      hu, huo, h]
  | some p => simp [StateT.run, bind, StateT.bind, pure, StateT.pure, call, hbase, hrange,
      hlen, hu, huo, h]

/-- An accepted request whose flash unlock fails returns `-1` right after it. -/
theorem write_option_bytes_flash_unlock_failed (k : Consts) (env : Env) (sl : stlink_t)
    (fuel addr : Nat) (base : List Nat) (len : Nat) (log : List Op)
    (hvalid : request_accepted sl addr len)
    (hu : (env (log ++ [.wait_flash_busy, .unlock_flash_if])).ret ≠ 0) :
    (stlink_write_option_bytes k env sl fuel addr base len).run log =
      some (-1, log ++ [.wait_flash_busy, .unlock_flash_if]) := by
  obtain ⟨hbase, hrange, hlen⟩ := hvalid
  unfold stlink_write_option_bytes wait_flash_busy unlock_flash_if
  simp [StateT.run, bind, StateT.bind, pure, StateT.pure, call, hbase, hrange, hlen, hu]

/-- An accepted request whose option unlock fails returns `-1` right after it. -/
theorem write_option_bytes_option_unlock_failed (k : Consts) (env : Env) (sl : stlink_t)
    (fuel addr : Nat) (base : List Nat) (len : Nat) (log : List Op)
    (hvalid : request_accepted sl addr len)
    (hu : (env (log ++ [.wait_flash_busy, .unlock_flash_if])).ret = 0)
    (huo : (env (log ++ unlock_sequence)).ret ≠ 0) :
    (stlink_write_option_bytes k env sl fuel addr base len).run log =
      some (-1, log ++ unlock_sequence) := by
  obtain ⟨hbase, hrange, hlen⟩ := hvalid
  unfold unlock_sequence at huo ⊢
  unfold stlink_write_option_bytes wait_flash_busy unlock_flash_if unlock_flash_option_if
  simp [StateT.run, bind, StateT.bind, pure, StateT.pure, call, hbase, hrange, hlen, hu,
    huo]

/-- The control-register entry point returns `-1` right after a failed flash unlock. -/
theorem write_option_control_register32_flash_unlock_failed (k : Consts) (env : Env)
    (sl : stlink_t) (option_cr : Nat) (log : List Op)
    (hu : (env (log ++ [.wait_flash_busy, .unlock_flash_if])).ret ≠ 0) :
    (stlink_write_option_control_register32 k env sl option_cr).run log =
      some (-1, log ++ [.wait_flash_busy, .unlock_flash_if]) := by
  unfold stlink_write_option_control_register32 wait_flash_busy unlock_flash_if
  simp [StateT.run, bind, StateT.bind, pure, StateT.pure, call, hu]

/-- The control-register entry point returns `-1` right after a failed option unlock. -/
theorem write_option_control_register32_option_unlock_failed (k : Consts) (env : Env)
    (sl : stlink_t) (option_cr : Nat) (log : List Op)
    (hu : (env (log ++ [.wait_flash_busy, .unlock_flash_if])).ret = 0)
    (huo : (env (log ++ unlock_sequence)).ret ≠ 0) :
    (stlink_write_option_control_register32 k env sl option_cr).run log =
      some (-1, log ++ unlock_sequence) := by
  unfold unlock_sequence at huo ⊢
  unfold stlink_write_option_control_register32 wait_flash_busy unlock_flash_if
    unlock_flash_option_if
  simp [StateT.run, bind, StateT.bind, pure, StateT.pure, call, hu, huo]

/-- An entry point of the control-register family (`stlink_write_option_control_register32`)
whose two unlock steps succeed runs the selected writer and then the two lock calls. -/
theorem write_option_control_register32_unlocked (k : Consts) (env : Env) (sl : stlink_t)
    (option_cr : Nat) (log : List Op)
    (hu : (env (log ++ [.wait_flash_busy, .unlock_flash_if])).ret = 0)
    (huo : (env (log ++ unlock_sequence)).ret = 0) :
    (stlink_write_option_control_register32 k env sl option_cr).run log =
      ((write_option_control_register32_switch k env sl option_cr).run
        (log ++ unlock_sequence)).map fun p => (p.1, p.2 ++ relock_sequence) := by
  unfold unlock_sequence at huo
  unfold stlink_write_option_control_register32 wait_flash_busy unlock_flash_if
    unlock_flash_option_if lock_flash_option lock_flash unlock_sequence relock_sequence
  cases h : write_option_control_register32_switch k env sl option_cr
      (log ++ [Op.wait_flash_busy, Op.unlock_flash_if, Op.unlock_flash_option_if]) with
  | none => simp [StateT.run, bind, StateT.bind, pure, StateT.pure, call, hu, huo, h]
  | some p => simp [StateT.run, bind, StateT.bind, pure, StateT.pure, call, hu, huo, h]

/-! ## Validation (C1, C2, C3, C4) -/

/-- C1: for every family and every context with `option_base != 0`, a request that
fails the bounds validation of `stlink_write_option_bytes` (`addr < option_base`, or
`addr > option_base + option_size`, or `addr + len > option_base + option_size`, the
sums taken as the code takes them, in `uint32_t`) returns `-1` and leaves the log
unchanged: no register access, no busy-wait, no unlock, no lock. -/
theorem write_option_bytes_rejects_out_of_bounds (k : Consts) (env : Env) (sl : stlink_t)
    (fuel addr : Nat) (base : List Nat) (len : Nat) (log : List Op)
    (hbase : sl.option_base ≠ 0)
    (hbad : addr < sl.option_base ∨ addr > (sl.option_base + sl.option_size) % U32 ∨
      (addr + len) % U32 > (sl.option_base + sl.option_size) % U32) :
    (stlink_write_option_bytes k env sl fuel addr base len).run log = some (-1, log) := by
  unfold stlink_write_option_bytes
  by_cases hrange : addr < sl.option_base ∨ addr > (sl.option_base + sl.option_size) % U32
  · simp [StateT.run, bind, StateT.bind, pure, StateT.pure, hbase, hrange]
  · have hlen : (addr + len) % U32 > (sl.option_base + sl.option_size) % U32 := by
      rcases hbad with h | h | h
      · exact absurd (Or.inl h) hrange
      · exact absurd (Or.inr h) hrange
      · exact h
    simp [StateT.run, bind, StateT.bind, pure, StateT.pure, hbase, hrange, hlen]

/-- Witness of C1: on the F7 session, 32 bytes written 16 bytes into the 32-byte
region are rejected before any call. -/
theorem write_option_bytes_rejects_out_of_bounds_witness :
    (stlink_write_option_bytes example_consts env_ok sl_f7 1 0x1FFF0010 [1, 2, 3, 4]
      0x20).run [] = some (-1, []) :=
  write_option_bytes_rejects_out_of_bounds example_consts env_ok sl_f7 1 0x1FFF0010
    [1, 2, 3, 4] 0x20 [] (by decide) (by decide)

/-- C2, evaluated at the input where it fails: on the F7 session (region
`[0x1FFF0000, 0x1FFF0020)`) the request `addr = 0x1FFF0010`, `len = 0xFFFFFFF0`
passes the validation, because `addr + len` wraps to `0x1FFF0000` in `uint32_t`,
although `addr + len` exceeds `option_base + option_size` as integers; the write
proceeds to the unlock steps and to the codec. -/
theorem write_option_bytes_accepts_wrapped_length :
    request_accepted sl_f7 0x1FFF0010 0xFFFFFFF0 ∧
    ¬ (0x1FFF0010 + 0xFFFFFFF0 ≤ sl_f7.option_base + sl_f7.option_size) ∧
    (stlink_write_option_bytes example_consts env_ok sl_f7 1 0x1FFF0010 [1, 2, 3, 4]
      0xFFFFFFF0).run [] =
      some (0, [.wait_flash_busy, .unlock_flash_if, .unlock_flash_option_if,
        .clear_flash_error, .write_debug32 0x1FFF0010 0x04030201, .wait_flash_busy,
        .check_flash_error, .lock_flash_option, .lock_flash]) := by
  refine ⟨by decide, by decide, ?_⟩
  rfl

/-- C3: with `option_base == 0`, `stlink_write_option_bytes` (every family, address,
data and length) and the read entry points `stlink_read_option_bytes32`,
`stlink_read_option_control_register32`, `stlink_read_option_control_register1_32`
and `stlink_read_option_bytes_boot_add32` return `-1` and make no call. -/
theorem option_base_zero_short_circuits (k : Consts) (env : Env) (sl : stlink_t)
    (fuel addr : Nat) (base : List Nat) (len : Nat) (log : List Op)
    (h0 : sl.option_base = 0) :
    (stlink_write_option_bytes k env sl fuel addr base len).run log = some (-1, log) ∧
    (∃ w, (stlink_read_option_bytes32 k env sl).run log = some ((-1, w), log)) ∧
    (∃ w, (stlink_read_option_control_register32 k env sl).run log = some ((-1, w), log)) ∧
    (∃ w, (stlink_read_option_control_register1_32 k env sl).run log =
      some ((-1, w), log)) ∧
    (∃ w, (stlink_read_option_bytes_boot_add32 k env sl).run log = some ((-1, w), log)) := by
  refine ⟨?_, ⟨0, ?_⟩, ⟨0, ?_⟩, ⟨0, ?_⟩, ⟨0, ?_⟩⟩
  · simp [stlink_write_option_bytes, StateT.run, bind, StateT.bind, pure, StateT.pure, h0]
  · simp [stlink_read_option_bytes32, StateT.run, bind, StateT.bind, pure, StateT.pure, h0]
  · simp [stlink_read_option_control_register32, StateT.run, bind, StateT.bind, pure,
      StateT.pure, h0]
  · simp [stlink_read_option_control_register1_32, StateT.run, bind, StateT.bind, pure,
      StateT.pure, h0]
  · simp [stlink_read_option_bytes_boot_add32, StateT.run, bind, StateT.bind, pure,
      StateT.pure, h0]

/-- Witness of C3: the F7 session with `option_base == 0`. -/
theorem option_base_zero_short_circuits_witness :
    (stlink_write_option_bytes example_consts env_ok sl_no_option 1 0 [1, 2, 3, 4] 4).run []
      = some (-1, []) ∧
    (∃ w, (stlink_read_option_bytes32 example_consts env_ok sl_no_option).run [] =
      some ((-1, w), [])) ∧
    (∃ w, (stlink_read_option_control_register32 example_consts env_ok sl_no_option).run []
      = some ((-1, w), [])) ∧
    (∃ w, (stlink_read_option_control_register1_32 example_consts env_ok sl_no_option).run []
      = some ((-1, w), [])) ∧
    (∃ w, (stlink_read_option_bytes_boot_add32 example_consts env_ok sl_no_option).run []
      = some ((-1, w), [])) :=
  option_base_zero_short_circuits example_consts env_ok sl_no_option 1 0 [1, 2, 3, 4] 4 []
    rfl

/-- C4, evaluated at the input where it fails: on an F7 session with
`option_base == 0`, `stlink_write_option_control_register32`,
`stlink_write_option_control_register1_32` and `stlink_write_option_bytes_boot_add32`
do not short-circuit: each waits for the flash, unlocks it, writes the option
control register(s), re-locks, and returns 0. -/
theorem control_register_writers_ignore_option_base_zero :
    sl_no_option.option_base = 0 ∧
    (stlink_write_option_control_register32 example_consts env_ok sl_no_option 0x1234).run []
      = some (0, [.wait_flash_busy, .unlock_flash_if, .unlock_flash_option_if,
        .clear_flash_error, .write_debug32 0x40023C14 0x1236, .wait_flash_busy,
        .check_flash_error, .lock_flash_option, .lock_flash]) ∧
    (stlink_write_option_control_register1_32 example_consts env_ok sl_no_option 0x1234).run []
      = some (0, [.wait_flash_busy, .unlock_flash_if, .unlock_flash_option_if,
        .clear_flash_error, .read_debug32 0x40023C14, .write_debug32 0x40023C18 0x1234,
        .write_debug32 0x40023C14 0x2, .wait_flash_busy, .check_flash_error,
        .lock_flash_option, .lock_flash]) ∧
    (stlink_write_option_bytes_boot_add32 example_consts env_ok sl_no_option 0x1234).run []
      = some (0, [.wait_flash_busy, .unlock_flash_if, .unlock_flash_option_if,
        .clear_flash_error, .read_debug32 0x40023C14, .write_debug32 0x40023C18 0x1234,
        .write_debug32 0x40023C14 0x2, .wait_flash_busy, .check_flash_error,
        .lock_flash_option, .lock_flash]) := by
  refine ⟨rfl, ?_, ?_, ?_⟩ <;> rfl

/-! ## Unlock failures (C5, C6) -/

/-- C5: for every family and every accepted request, when `unlock_flash_if` fails
(returns non-zero) `stlink_write_option_bytes` returns the failure status `-1` and
the log ends with that call: no option unlock, no codec, no `lock_flash_option`,
no `lock_flash`. -/
theorem write_option_bytes_flash_unlock_failure (k : Consts) (env : Env) (sl : stlink_t)
    (fuel addr : Nat) (base : List Nat) (len : Nat) (log : List Op)
    (hvalid : request_accepted sl addr len)
    (hu : (env (log ++ [.wait_flash_busy, .unlock_flash_if])).ret ≠ 0) :
    (stlink_write_option_bytes k env sl fuel addr base len).run log =
      some (-1, log ++ [.wait_flash_busy, .unlock_flash_if]) :=
  write_option_bytes_flash_unlock_failed k env sl fuel addr base len log hvalid hu

/-- Witness of C5: the F7 session with a probe on which the flash unlock fails. -/
theorem write_option_bytes_flash_unlock_failure_witness :
    (stlink_write_option_bytes example_consts (env_failing .unlock_flash_if) sl_f7 1
      0x1FFF0000 [1, 2, 3, 4] 4).run [] =
      some (-1, [.wait_flash_busy, .unlock_flash_if]) :=
  write_option_bytes_flash_unlock_failure example_consts (env_failing .unlock_flash_if)
    sl_f7 1 0x1FFF0000 [1, 2, 3, 4] 4 [] (by decide) (by decide)

/-- C6, evaluated at the input where it fails: on the F7 session with a probe on
which the flash unlock succeeds and the option unlock fails, an accepted request
returns `-1` without invoking the codec, and the log ends with the failed
`unlock_flash_option_if`: `lock_flash` is not called. -/
theorem write_option_bytes_option_unlock_failure_skips_relock :
    request_accepted sl_f7 0x1FFF0000 4 ∧
    (stlink_write_option_bytes example_consts (env_failing .unlock_flash_option_if) sl_f7 1
      0x1FFF0000 [1, 2, 3, 4] 4).run [] =
      some (-1, [.wait_flash_busy, .unlock_flash_if, .unlock_flash_option_if]) ∧
    Op.lock_flash ∉ [Op.wait_flash_busy, Op.unlock_flash_if, Op.unlock_flash_option_if] := by
  refine ⟨by decide, rfl, by decide⟩

/-! ## Re-lock and returned status (C7, C8, C9) -/

/-- C7: for every family and every accepted request for which both unlock steps
succeed, whenever the selected codec returns, with whatever status and after whatever
calls (success, failure, early return on an error), `stlink_write_option_bytes`
returns and its log is the log of the codec followed by `lock_flash_option` and then
`lock_flash` as the last two calls.  The codec does return for every loop-free
family, and for the looping families (H7, L0/L1, WB/WL) when the length is
word-aligned, the fuel covers the words and (H7) the option-busy poll finds the
controller idle. -/
theorem write_option_bytes_ends_with_relock (k : Consts) (env : Env) (sl : stlink_t)
    (fuel addr : Nat) (base : List Nat) (len : Nat) (log : List Op)
    (hvalid : request_accepted sl addr len)
    (hu : (env (log ++ [.wait_flash_busy, .unlock_flash_if])).ret = 0)
    (huo : (env (log ++ unlock_sequence)).ret = 0) :
    (∀ ret codec_log, (write_option_bytes_switch k env sl fuel addr base len).run
        (log ++ unlock_sequence) = some (ret, codec_log) →
      ∃ r, (stlink_write_option_bytes k env sl fuel addr base len).run log =
        some (r, codec_log ++ [.lock_flash_option, .lock_flash])) ∧
    ((loop_family sl.flash_type → len % 4 = 0 ∧ len < U32 ∧ len / 4 + 1 < fuel) →
      (sl.flash_type = STM32_FLASH_TYPE_H7 → h7_never_busy k env) →
      ∃ r ops, (stlink_write_option_bytes k env sl fuel addr base len).run log =
        some (r, log ++ unlock_sequence ++ ops ++ [.lock_flash_option, .lock_flash])) := by
  have hacc := write_option_bytes_accepted k env sl fuel addr base len log hvalid hu huo
  constructor
  · intro ret codec_log hcodec
    refine ⟨ret, ?_⟩
    rw [hacc, hcodec]
    rfl
  · intro hloop hidle
    obtain ⟨r, ops, hcodec⟩ :=
      (returns_write_option_bytes_switch k env sl fuel addr base len hloop hidle).out
        (log ++ unlock_sequence)
    refine ⟨r, ops, ?_⟩
    rw [hacc, hcodec]
    rfl

/-- Witness of C7: on the F7 session with a probe on which `check_flash_error`
reports an error, the codec fails and the write still ends with the two lock calls. -/
theorem write_option_bytes_ends_with_relock_witness :
    ∃ r ops, (stlink_write_option_bytes example_consts (env_failing .check_flash_error)
      sl_f7 1 0x1FFF0000 [1, 2, 3, 4] 4).run [] =
        some (r, [] ++ unlock_sequence ++ ops ++ [.lock_flash_option, .lock_flash]) :=
  (write_option_bytes_ends_with_relock example_consts (env_failing .check_flash_error)
    sl_f7 1 0x1FFF0000 [1, 2, 3, 4] 4 [] (by decide) (by decide) (by decide)).2
    (by decide) (fun h => absurd h (by decide))

/-- C8: for every family and every accepted request for which both unlock steps
succeed, whenever the selected codec returns status `ret`, `stlink_write_option_bytes`
returns that same `ret`, for every answer of the environment to `lock_flash_option`
and `lock_flash`.  The codec does return under the conditions stated for C7. -/
theorem write_option_bytes_returns_codec_status (k : Consts) (env : Env) (sl : stlink_t)
    (fuel addr : Nat) (base : List Nat) (len : Nat) (log : List Op)
    (hvalid : request_accepted sl addr len)
    (hu : (env (log ++ [.wait_flash_busy, .unlock_flash_if])).ret = 0)
    (huo : (env (log ++ unlock_sequence)).ret = 0) :
    (∀ ret codec_log, (write_option_bytes_switch k env sl fuel addr base len).run
        (log ++ unlock_sequence) = some (ret, codec_log) →
      ∃ final_log, (stlink_write_option_bytes k env sl fuel addr base len).run log =
        some (ret, final_log)) ∧
    ((loop_family sl.flash_type → len % 4 = 0 ∧ len < U32 ∧ len / 4 + 1 < fuel) →
      (sl.flash_type = STM32_FLASH_TYPE_H7 → h7_never_busy k env) →
      ∃ ret codec_log final_log, (write_option_bytes_switch k env sl fuel addr base len).run
          (log ++ unlock_sequence) = some (ret, codec_log) ∧
        (stlink_write_option_bytes k env sl fuel addr base len).run log =
          some (ret, final_log)) := by
  have hacc := write_option_bytes_accepted k env sl fuel addr base len log hvalid hu huo
  constructor
  · intro ret codec_log hcodec
    refine ⟨codec_log ++ relock_sequence, ?_⟩
    rw [hacc, hcodec]
    rfl
  · intro hloop hidle
    obtain ⟨r, ops, hcodec⟩ :=
      (returns_write_option_bytes_switch k env sl fuel addr base len hloop hidle).out
        (log ++ unlock_sequence)
    refine ⟨r, log ++ unlock_sequence ++ ops,
      log ++ unlock_sequence ++ ops ++ relock_sequence, hcodec, ?_⟩
    rw [hacc, hcodec]
    rfl

/-- Witness of C8: on the F7 session with a probe on which both lock calls fail, the
write returns the status 0 of the codec. -/
theorem write_option_bytes_returns_codec_status_witness :
    ∃ final_log, (stlink_write_option_bytes example_consts
      (fun log => if log.getLast? = some Op.lock_flash_option ∨
        log.getLast? = some Op.lock_flash then ⟨-1, 0⟩ else ⟨0, 0⟩)
      sl_f7 1 0x1FFF0000 [1, 2, 3, 4] 4).run [] = some (0, final_log) :=
  (write_option_bytes_returns_codec_status example_consts
    (fun log => if log.getLast? = some Op.lock_flash_option ∨
      log.getLast? = some Op.lock_flash then ⟨-1, 0⟩ else ⟨0, 0⟩)
    sl_f7 1 0x1FFF0000 [1, 2, 3, 4] 4 [] (by decide) (by decide) (by decide)).1 0
    [.wait_flash_busy, .unlock_flash_if, .unlock_flash_option_if, .clear_flash_error,
      .write_debug32 0x1FFF0000 0x04030201, .wait_flash_busy, .check_flash_error] rfl

/-- C9: for every `flash_type` outside the families of the `switch` of
`stlink_write_option_bytes`, an accepted request returns `-1` on every path and
makes no register access: its calls are the busy-wait and the unlock steps, followed,
when both unlock steps succeed, by `lock_flash_option` and `lock_flash` and nothing
in between (no codec is invoked, and the re-lock is made).  For every `flash_type`
outside {C0, F0_F1_F3, F1_XL, F7, WB_WL}, `stlink_write_option_control_register32`
returns `-1` with the same calls. -/
theorem unsupported_family_is_defined_error (k : Consts) (env : Env) (sl : stlink_t)
    (fuel addr : Nat) (base : List Nat) (len : Nat) (option_cr : Nat) (log : List Op) :
    (sl.flash_type ∉ [STM32_FLASH_TYPE_C0, STM32_FLASH_TYPE_F0_F1_F3,
        STM32_FLASH_TYPE_F1_XL, STM32_FLASH_TYPE_F2_F4, STM32_FLASH_TYPE_F7,
        STM32_FLASH_TYPE_L0_L1, STM32_FLASH_TYPE_L4, STM32_FLASH_TYPE_G0,
        STM32_FLASH_TYPE_G4, STM32_FLASH_TYPE_H7, STM32_FLASH_TYPE_WB_WL] →
      request_accepted sl addr len →
      ∃ ops, (stlink_write_option_bytes k env sl fuel addr base len).run log =
          some (-1, log ++ ops) ∧
        (ops = [.wait_flash_busy, .unlock_flash_if] ∨ ops = unlock_sequence ∨
          ops = unlock_sequence ++ relock_sequence) ∧
        ((env (log ++ [.wait_flash_busy, .unlock_flash_if])).ret = 0 →
          (env (log ++ unlock_sequence)).ret = 0 →
          ops = unlock_sequence ++ relock_sequence)) ∧
    (sl.flash_type ∉ [STM32_FLASH_TYPE_C0, STM32_FLASH_TYPE_F0_F1_F3,
        STM32_FLASH_TYPE_F1_XL, STM32_FLASH_TYPE_F7, STM32_FLASH_TYPE_WB_WL] →
      ∃ ops, (stlink_write_option_control_register32 k env sl option_cr).run log =
          some (-1, log ++ ops) ∧
        (ops = [.wait_flash_busy, .unlock_flash_if] ∨ ops = unlock_sequence ∨
          ops = unlock_sequence ++ relock_sequence) ∧
        ((env (log ++ [.wait_flash_busy, .unlock_flash_if])).ret = 0 →
          (env (log ++ unlock_sequence)).ret = 0 →
          ops = unlock_sequence ++ relock_sequence)) := by
  constructor
  · intro hft hvalid
    have hsw : write_option_bytes_switch k env sl fuel addr base len = pure (-1) := by
      unfold write_option_bytes_switch
      cases hc : sl.flash_type <;> simp_all
    by_cases hu : (env (log ++ [.wait_flash_busy, .unlock_flash_if])).ret = 0
    · by_cases huo : (env (log ++ unlock_sequence)).ret = 0
      · refine ⟨unlock_sequence ++ relock_sequence, ?_, Or.inr (Or.inr rfl), fun _ _ => rfl⟩
        rw [write_option_bytes_accepted k env sl fuel addr base len log hvalid hu huo, hsw,
          ← List.append_assoc]
        rfl
      · exact ⟨unlock_sequence,
          write_option_bytes_option_unlock_failed k env sl fuel addr base len log hvalid hu
            huo,
          Or.inr (Or.inl rfl), fun _ h => absurd h huo⟩
    · exact ⟨[.wait_flash_busy, .unlock_flash_if],
        write_option_bytes_flash_unlock_failed k env sl fuel addr base len log hvalid hu,
        Or.inl rfl, fun h _ => absurd h hu⟩
  · intro hft
    have hsw : write_option_control_register32_switch k env sl option_cr = pure (-1) := by
      unfold write_option_control_register32_switch
      cases hc : sl.flash_type <;> simp_all
    by_cases hu : (env (log ++ [.wait_flash_busy, .unlock_flash_if])).ret = 0
    · by_cases huo : (env (log ++ unlock_sequence)).ret = 0
      · refine ⟨unlock_sequence ++ relock_sequence, ?_, Or.inr (Or.inr rfl), fun _ _ => rfl⟩
        rw [write_option_control_register32_unlocked k env sl option_cr log hu huo, hsw,
          ← List.append_assoc]
        rfl
      · exact ⟨unlock_sequence,
          write_option_control_register32_option_unlock_failed k env sl option_cr log hu huo,
          Or.inr (Or.inl rfl), fun _ h => absurd h huo⟩
    · exact ⟨[.wait_flash_busy, .unlock_flash_if],
        write_option_control_register32_flash_unlock_failed k env sl option_cr log hu,
        Or.inl rfl, fun h _ => absurd h hu⟩

/-- Witness of C9: a session of family code 11 (not handled by either `switch`). -/
theorem unsupported_family_is_defined_error_witness :
    (∃ ops, (stlink_write_option_bytes example_consts env_ok sl_other 1 0x40022040
        [1, 2, 3, 4] 4).run [] = some (-1, [] ++ ops) ∧
      (ops = [.wait_flash_busy, .unlock_flash_if] ∨ ops = unlock_sequence ∨
        ops = unlock_sequence ++ relock_sequence) ∧
      ((env_ok ([] ++ [.wait_flash_busy, .unlock_flash_if])).ret = 0 →
        (env_ok ([] ++ unlock_sequence)).ret = 0 →
        ops = unlock_sequence ++ relock_sequence)) ∧
    (∃ ops, (stlink_write_option_control_register32 example_consts env_ok sl_other
        0x1234).run [] = some (-1, [] ++ ops) ∧
      (ops = [.wait_flash_busy, .unlock_flash_if] ∨ ops = unlock_sequence ∨
        ops = unlock_sequence ++ relock_sequence) ∧
      ((env_ok ([] ++ [.wait_flash_busy, .unlock_flash_if])).ret = 0 →
        (env_ok ([] ++ unlock_sequence)).ret = 0 →
        ops = unlock_sequence ++ relock_sequence)) :=
  ⟨(unsupported_family_is_defined_error example_consts env_ok sl_other 1 0x40022040
      [1, 2, 3, 4] 4 0x1234 []).1 (by decide) (by decide),
   (unsupported_family_is_defined_error example_consts env_ok sl_other 1 0x40022040
      [1, 2, 3, 4] 4 0x1234 []).2 (by decide)⟩

/-! ## The complement encoder (C10) -/

theorem and_ff00 (y : Nat) : y &&& 0xFF00 = 2 ^ 8 * ((y / 256) % 256) := by
  have h1 : (0xFF00 : Nat) = (2 ^ 8 - 1) <<< 8 := by decide
  have h2 : 2 ^ 8 * ((y / 256) % 256) = ((y >>> 8) % 2 ^ 8) <<< 8 := by
    rw [Nat.shiftLeft_eq, Nat.shiftRight_eq_div_pow]
    norm_num
    ring
  apply Nat.eq_of_testBit_eq
  intro i
  rw [Nat.testBit_and, h1, h2, Nat.testBit_shiftLeft, Nat.testBit_shiftLeft,
    Nat.testBit_two_pow_sub_one, Nat.testBit_mod_two_pow, Nat.testBit_shiftRight]
  by_cases h : i ≥ 8
  · have : 8 + (i - 8) = i := by omega
    simp [h, this, Bool.and_comm]
  · simp [h]

theorem and_ff (y : Nat) : y &&& 0xFF = y % 256 :=
  Nat.and_pow_two_sub_one_eq_mod y 8

/-- Closed form of the macro: the low byte of `v` below its 8-bit complement. -/
theorem val_with_complement_eq (v : Nat) :
    VAL_WITH_COMPLEMENT v = 256 * (255 - v % 256) + v % 256 := by
  unfold VAL_WITH_COMPLEMENT not32 U32
  rw [and_ff, and_ff00, Nat.shiftLeft_eq, Nat.or_comm,
    ← Nat.mul_add_lt_is_or (Nat.mod_lt _ (by norm_num))]
  omega

/-- C10: for every input `v` (16-bit or wider; only its low byte is used), the
half-word `word = VAL_WITH_COMPLEMENT(v)` satisfies `(word >> 8) == (~word & 0xFF)`
and `(word & 0xFF) == (v & 0xFF)`. -/
theorem val_with_complement_invariant (v : Nat) :
    VAL_WITH_COMPLEMENT v >>> 8 = not32 (VAL_WITH_COMPLEMENT v) &&& 0xFF ∧
    VAL_WITH_COMPLEMENT v &&& 0xFF = v &&& 0xFF := by
  rw [and_ff, and_ff, and_ff, val_with_complement_eq, Nat.shiftRight_eq_div_pow]
  unfold not32 U32
  have hr : v % 256 < 256 := Nat.mod_lt _ (by norm_num)
  generalize v % 256 = r at hr
  obtain ⟨c, hc⟩ : ∃ c, c = 255 - r := ⟨_, rfl⟩
  rw [← hc]
  have h1 : (256 * c + r) / 2 ^ 8 = c := by omega
  have h2 : (4294967296 - 1 - (256 * c + r) % 4294967296) % 4294967296 =
      256 * (16777215 - c) + c := by omega
  rw [h1, h2]
  omega

/-! ## Little-endian helpers (C20) -/

theorem le_bytes_or_eq_add (a b c d : Nat) (ha : a < 256) (hb : b < 256) (hc : c < 256) :
    a ||| (b <<< 8) ||| (c <<< 16) ||| (d <<< 24) =
      a + 256 * b + 65536 * c + 16777216 * d := by
  rw [Nat.shiftLeft_eq, Nat.shiftLeft_eq, Nat.shiftLeft_eq]
  have h1 : a ||| b * 2 ^ 8 = 2 ^ 8 * b + a := by
    rw [Nat.or_comm, Nat.mul_comm]
    exact (Nat.mul_add_lt_is_or (by omega) b).symm
  have h2 : (2 ^ 8 * b + a) ||| c * 2 ^ 16 = 2 ^ 16 * c + (2 ^ 8 * b + a) := by
    rw [Nat.or_comm, Nat.mul_comm]
    exact (Nat.mul_add_lt_is_or (by omega) c).symm
  have h3 : (2 ^ 16 * c + (2 ^ 8 * b + a)) ||| d * 2 ^ 24 =
      2 ^ 24 * d + (2 ^ 16 * c + (2 ^ 8 * b + a)) := by
    rw [Nat.or_comm, Nat.mul_comm]
    exact (Nat.mul_add_lt_is_or (by omega) d).symm
  rw [h1, h2, h3]
  omega

theorem byte_at_lt (c : List Nat) (i : Nat) : byte_at c i < 256 :=
  Nat.mod_lt _ (by norm_num)

/-- The value decoded by `read_uint32`, as a sum of weighted bytes. -/
theorem read_uint32_eq_sum (c : List Nat) (pt : Nat) :
    read_uint32 c pt = byte_at c pt + 256 * byte_at c (pt + 1) +
      65536 * byte_at c (pt + 2) + 16777216 * byte_at c (pt + 3) := by
  have h0 := byte_at_lt c pt
  have h1 := byte_at_lt c (pt + 1)
  have h2 := byte_at_lt c (pt + 2)
  have h3 := byte_at_lt c (pt + 3)
  unfold read_uint32 U32
  rw [le_bytes_or_eq_add _ _ _ _ h0 h1 h2]
  omega

/-- The value decoded by `read_uint16`, as a sum of weighted bytes. -/
theorem read_uint16_eq_sum (c : List Nat) (pt : Nat) :
    read_uint16 c pt = byte_at c pt + 256 * byte_at c (pt + 1) := by
  have h0 := byte_at_lt c pt
  have h1 := byte_at_lt c (pt + 1)
  unfold read_uint16
  have h : byte_at c pt ||| byte_at c (pt + 1) <<< 8 =
      2 ^ 8 * byte_at c (pt + 1) + byte_at c pt := by
    rw [Nat.shiftLeft_eq, Nat.or_comm, Nat.mul_comm]
    exact (Nat.mul_add_lt_is_or (by omega) _).symm
  rw [h]
  omega

/-- Decoding on the host the bytes stored by `write_uint32` gives the word back. -/
theorem deref_write_uint32 (v : Nat) : deref_uint32 (write_uint32 v) = v % U32 := by
  simp only [deref_uint32, write_uint32, byte_at, List.getD_cons_zero, List.getD_cons_succ,
    Nat.shiftRight_eq_div_pow, U32]
  omega

/-- The word obtained by the codecs from the bytes of a 32-bit value is that value. -/
theorem option_word_write_uint32 (v : Nat) (hv : v < U32) :
    option_word (write_uint32 v) = v := by
  unfold option_word
  rw [deref_write_uint32, deref_write_uint32, Nat.mod_mod, Nat.mod_eq_of_lt hv]

/-- C20: the little-endian helpers round-trip.  For every 32-bit `v`, `write_uint32`
stores the bytes `[v & 0xFF, (v >> 8) & 0xFF, (v >> 16) & 0xFF, (v >> 24) & 0xFF]` and
`read_uint32` of that buffer at offset 0 returns `v`; for every 16-bit `u`,
`read_uint16` of the buffer written by `write_uint16` returns `u`; conversely,
writing the value read from any 4-byte (2-byte) buffer reproduces the buffer. -/
theorem little_endian_round_trip :
    (∀ v, v < U32 →
      write_uint32 v = [v &&& 0xFF, (v >>> 8) &&& 0xFF, (v >>> 16) &&& 0xFF,
        (v >>> 24) &&& 0xFF] ∧
      read_uint32 (write_uint32 v) 0 = v) ∧
    (∀ u, u < 65536 → read_uint16 (write_uint16 u) 0 = u) ∧
    (∀ b0 b1 b2 b3, b0 < 256 → b1 < 256 → b2 < 256 → b3 < 256 →
      write_uint32 (read_uint32 [b0, b1, b2, b3] 0) = [b0, b1, b2, b3]) ∧
    (∀ b0 b1, b0 < 256 → b1 < 256 → write_uint16 (read_uint16 [b0, b1] 0) = [b0, b1]) := by
  refine ⟨?_, ?_, ?_, ?_⟩
  · intro v hv
    constructor
    · simp only [write_uint32, and_ff]
    · rw [read_uint32_eq_sum]
      simp only [write_uint32, byte_at, List.getD_cons_zero, List.getD_cons_succ,
        Nat.shiftRight_eq_div_pow]
      unfold U32 at hv
      omega
  · intro u hu
    rw [read_uint16_eq_sum]
    simp only [write_uint16, byte_at, List.getD_cons_zero, List.getD_cons_succ,
      Nat.shiftRight_eq_div_pow]
    omega
  · intro b0 b1 b2 b3 h0 h1 h2 h3
    rw [read_uint32_eq_sum]
    simp only [write_uint32, byte_at, List.getD_cons_zero, List.getD_cons_succ,
      Nat.shiftRight_eq_div_pow, List.cons.injEq, and_true]
    refine ⟨?_, ?_, ?_, ?_⟩ <;> omega
  · intro b0 b1 h0 h1
    rw [read_uint16_eq_sum]
    simp only [write_uint16, byte_at, List.getD_cons_zero, List.getD_cons_succ,
      Nat.shiftRight_eq_div_pow, List.cons.injEq, and_true]
    refine ⟨?_, ?_⟩ <;> omega

/-- Witness of C20: the word `0x12345678` and the buffers `[0x78, 0x56, 0x34, 0x12]`,
`[0xCD, 0xAB]`. -/
theorem little_endian_round_trip_witness :
    (write_uint32 0x12345678 = [0x12345678 &&& 0xFF, (0x12345678 >>> 8) &&& 0xFF,
        (0x12345678 >>> 16) &&& 0xFF, (0x12345678 >>> 24) &&& 0xFF] ∧
      read_uint32 (write_uint32 0x12345678) 0 = 0x12345678) ∧
    read_uint16 (write_uint16 0xABCD) 0 = 0xABCD ∧
    write_uint32 (read_uint32 [0x78, 0x56, 0x34, 0x12] 0) = [0x78, 0x56, 0x34, 0x12] ∧
    write_uint16 (read_uint16 [0xCD, 0xAB] 0) = [0xCD, 0xAB] :=
  ⟨little_endian_round_trip.1 0x12345678 (by decide),
   little_endian_round_trip.2.1 0xABCD (by decide),
   little_endian_round_trip.2.2.1 0x78 0x56 0x34 0x12 (by decide) (by decide) (by decide)
     (by decide),
   little_endian_round_trip.2.2.2 0xCD 0xAB (by decide) (by decide)⟩

/-! ## The F0 codec rejects partial writes (C12) -/

/-- C12: on the F0_F1_F3 and F1_XL families, for every request with `len < 12` or
with `addr` different from `STM32_F0_OPTION_BYTES_BASE`, the codec selected by the
dispatcher, `stlink_write_option_bytes_f0`, returns the error `-1` and leaves the log
unchanged: no error clear, no write to `FLASH_CR`, no flash-loader call. -/
theorem write_option_bytes_f0_rejects_partial (k : Consts) (env : Env) (sl : stlink_t)
    (fuel addr : Nat) (base : List Nat) (len : Nat) (log : List Op)
    (hft : sl.flash_type = STM32_FLASH_TYPE_F0_F1_F3 ∨ sl.flash_type = STM32_FLASH_TYPE_F1_XL)
    (hbad : len < 12 ∨ addr ≠ k.STM32_F0_OPTION_BYTES_BASE) :
    (stlink_write_option_bytes_f0 k env addr base len).run log = some (-1, log) ∧
    (write_option_bytes_switch k env sl fuel addr base len).run log = some (-1, log) := by
  have hcodec : (stlink_write_option_bytes_f0 k env addr base len).run log =
      some (-1, log) := by
    unfold stlink_write_option_bytes_f0
    simp [StateT.run, bind, StateT.bind, pure, StateT.pure, hbad]
  refine ⟨hcodec, ?_⟩
  unfold write_option_bytes_switch
  rcases hft with h | h <;> rw [h] <;> exact hcodec

/-- Witness of C12: `len = 8` at the option-byte base of an F0 session. -/
theorem write_option_bytes_f0_rejects_partial_witness :
    (stlink_write_option_bytes_f0 example_consts env_ok 0x1FFFF800
      [1, 2, 3, 4, 5, 6, 7, 8] 8).run [] = some (-1, []) ∧
    (write_option_bytes_switch example_consts env_ok sl_f0 1 0x1FFFF800
      [1, 2, 3, 4, 5, 6, 7, 8] 8).run [] = some (-1, []) :=
  write_option_bytes_f0_rejects_partial example_consts env_ok sl_f0 1 0x1FFFF800
    [1, 2, 3, 4, 5, 6, 7, 8] 8 [] (by decide) (by decide)

/-! ## The F0 option-control-register writer (C11) -/

/-- Every half-word produced by the macro satisfies the complement invariant. -/
theorem complement_encoded_val_with_complement (v : Nat) :
    complement_encoded (VAL_WITH_COMPLEMENT v) := by
  unfold complement_encoded
  rw [and_ff, and_ff, val_with_complement_eq, Nat.shiftRight_eq_div_pow]
  unfold not32 U32
  have hr : v % 256 < 256 := Nat.mod_lt _ (by norm_num)
  generalize v % 256 = r at hr
  obtain ⟨c, hc⟩ : ∃ c, c = 255 - r := ⟨_, rfl⟩
  rw [← hc]
  have h1 : (256 * c + r) / 2 ^ 8 = c := by omega
  have h2 : (256 * c + r) % 256 = r := by omega
  rw [h1, h2]
  omega

/-- When every call succeeds, `stlink_write_option_control_register_f0` returns 0
after the calls of `f0_control_register_calls`; in particular it hands the bytes of
`opt_val`, built from the value read from `FLASH_WRPR`, to the flash loader. -/
theorem write_option_control_register_f0_run (k : Consts) (env : Env) (sl : stlink_t)
    (option_cr : Nat) (log : List Op) (hok : ∀ l, (env l).ret = 0) :
    (stlink_write_option_control_register_f0 k env sl option_cr).run log =
      some (0, log ++ f0_control_register_calls k sl.chip_id option_cr
        ((env (log ++ [.clear_flash_error, .read_debug32 k.FLASH_OBR,
          .read_debug32 k.FLASH_WRPR])).val % U32)) := by
  unfold stlink_write_option_control_register_f0 stlink_write_option_bytes_f0
    clear_flash_error wait_flash_busy check_flash_error stlink_write_debug32
    stlink_read_debug32 stlink_flash_loader_init stlink_flash_loader_run
    f0_control_register_calls
  simp [StateT.run, bind, StateT.bind, pure, StateT.pure, call, hok]

/-- C11 as amended: for every `option_cr`, every `chip_id` and every value read from
`FLASH_WRPR`, the array `opt_val` has 8 half-words; the half-words `opt_val[1..7]`
satisfy the complement invariant `high_byte == (~low_byte) & 0xFF`; the
read-protection half-word `opt_val[0]` satisfies it when bit 1 (`OPT_READOUT`) of
`option_cr` is clear, and is `0xFFFF` when that bit is set.  These are the half-words
whose bytes `stlink_write_option_control_register_f0` hands to the option-byte
write. -/
theorem f0_opt_val_complement (k : Consts) (env : Env) (sl : stlink_t)
    (option_cr protection : Nat) (log : List Op) :
    (f0_opt_val sl.chip_id option_cr protection).length = 8 ∧
    (∀ i, 1 ≤ i → i < 8 →
      complement_encoded ((f0_opt_val sl.chip_id option_cr protection).getD i 0)) ∧
    (option_cr &&& (1 <<< 1) = 0 →
      complement_encoded ((f0_opt_val sl.chip_id option_cr protection).getD 0 0)) ∧
    (option_cr &&& (1 <<< 1) ≠ 0 →
      (f0_opt_val sl.chip_id option_cr protection).getD 0 0 = 0xFFFF) ∧
    ((∀ l, (env l).ret = 0) →
      protection = (env (log ++ [.clear_flash_error, .read_debug32 k.FLASH_OBR,
        .read_debug32 k.FLASH_WRPR])).val % U32 →
      ∃ final, (stlink_write_option_control_register_f0 k env sl option_cr).run log =
          some (0, final) ∧
        Op.flash_loader_run k.STM32_F0_OPTION_BYTES_BASE
          (halfword_bytes (f0_opt_val sl.chip_id option_cr protection)) 16 ∈ final) := by
  refine ⟨rfl, ?_, ?_, ?_, ?_⟩
  · intro i h1 h8
    interval_cases i <;>
      simp only [f0_opt_val, List.getD_cons_zero, List.getD_cons_succ] <;>
      exact complement_encoded_val_with_complement _
  · intro hbit
    simp only [f0_opt_val, List.getD_cons_zero, hbit, ne_eq, not_true_eq_false, if_false]
    split <;> decide
  · intro hbit
    simp only [f0_opt_val, List.getD_cons_zero, hbit, ne_eq, not_false_eq_true, if_true]
  · intro hok hp
    refine ⟨_, write_option_control_register_f0_run k env sl option_cr log hok, ?_⟩
    rw [← hp]
    simp [f0_control_register_calls]

/-- Witness of C11 as amended: the F0 session, `option_cr = 0` and write protection
`0x12345678`. -/
theorem f0_opt_val_complement_witness :
    (∀ i, 1 ≤ i → i < 8 →
      complement_encoded ((f0_opt_val sl_f0.chip_id 0 0x12345678).getD i 0)) ∧
    complement_encoded ((f0_opt_val sl_f0.chip_id 0 0x12345678).getD 0 0) ∧
    (∃ final, (stlink_write_option_control_register_f0 example_consts
        (fun _ => ⟨0, 0x12345678⟩) sl_f0 0).run [] = some (0, final) ∧
      Op.flash_loader_run example_consts.STM32_F0_OPTION_BYTES_BASE
        (halfword_bytes (f0_opt_val sl_f0.chip_id 0 0x12345678)) 16 ∈ final) :=
  have h := f0_opt_val_complement example_consts (fun _ => ⟨0, 0x12345678⟩) sl_f0 0
    0x12345678 []
  ⟨h.2.1, h.2.2.1 (by decide), h.2.2.2.2 (fun _ => rfl) (by decide)⟩

/-- Counterexample to C11 as stated: on the F0 session with every call succeeding,
`option_cr = 0x2` (bit `OPT_READOUT` set) makes
`stlink_write_option_control_register_f0` hand the bytes `0xFF, 0xFF` of
`opt_val[0] = 0xFFFF` to the option-byte write, and `0xFFFF` violates
`high_byte == (~low_byte) & 0xFF` (`0xFF` against `0x00`). -/
theorem f0_opt_val_readout_not_complement :
    (stlink_write_option_control_register_f0 example_consts env_ok sl_f0 0x2).run [] =
      some (0, [.clear_flash_error, .read_debug32 0x4002201C, .read_debug32 0x40022020,
        .clear_flash_error, .write_debug32 0x40022010 0x220,
        .write_debug32 0x40022010 0x260, .wait_flash_busy, .check_flash_error,
        .write_debug32 0x40022010 0x210, .flash_loader_init,
        .flash_loader_run 0x1FFFF800
          [0xFF, 0xFF, 0x00, 0xFF, 0x00, 0xFF, 0x00, 0xFF, 0x00, 0xFF, 0x00, 0xFF, 0x00,
            0xFF, 0x00, 0xFF] 16,
        .write_debug32 0x40022010 0x2000, .check_flash_error, .check_flash_error]) ∧
    (f0_opt_val sl_f0.chip_id 0x2 0).getD 0 0 = 0xFFFF ∧
    ¬ complement_encoded ((f0_opt_val sl_f0.chip_id 0x2 0).getD 0 0) := by
  refine ⟨rfl, rfl, by decide⟩

/-! ## The F7 OPTCR1 path (C13) -/

/-- Bits of `(o & ~(1 << lock)) | (1 << start)`: the start bit is set, the lock bit
is cleared, every other bit is the bit of `o`. -/
theorem testBit_clear_lock_set_start (o lock start i : Nat) (ho : o < U32)
    (hlock : lock < 32) :
    ((o &&& not32 (1 <<< lock)) ||| (1 <<< start)).testBit i =
      (decide (i = start) || (o.testBit i && !decide (i = lock))) := by
  have hpow : (1 : Nat) <<< lock < U32 := by
    rw [Nat.shiftLeft_eq, one_mul]
    exact Nat.pow_lt_pow_right (by norm_num) hlock
  have hnot : not32 (1 <<< lock) = 2 ^ 32 - (1 <<< lock + 1) := by
    unfold not32
    unfold U32 at hpow ⊢
    rw [Nat.mod_eq_of_lt hpow]
    generalize (1 : Nat) <<< lock = p at hpow
    omega
  have hbit : ∀ n j : Nat, ((1 : Nat) <<< n).testBit j = decide (n = j) := by
    intro n j
    rw [Nat.shiftLeft_eq, one_mul, Nat.testBit_two_pow]
  rw [Nat.testBit_or, Nat.testBit_and, hnot, Nat.testBit_two_pow_sub_succ hpow, hbit, hbit]
  by_cases hi : i < 32
  · by_cases h1 : start = i <;> by_cases h2 : lock = i <;> simp [h1, h2, hi, eq_comm]
  · have hle : U32 ≤ 2 ^ i := by
      have h32 : U32 = 2 ^ 32 := by norm_num [U32]
      rw [h32]
      exact Nat.pow_le_pow_right (by norm_num) (by omega)
    have hoi : o.testBit i = false := Nat.testBit_lt_two_pow (lt_of_lt_of_le ho hle)
    by_cases h1 : start = i <;> simp [h1, hi, hoi, eq_comm]

/-- C13: for every value and every `OPTCR` value `o` answered by the transport, the
F7 option-byte codec invoked with `addr = FLASH_F7_OPTCR1` makes, between
`clear_flash_error` and `wait_flash_busy`, exactly three register calls in this
order: read `FLASH_F7_OPTCR` (yielding `o`); write the value to `FLASH_F7_OPTCR1`;
write `(o & ~(1 << LOCK)) | (1 << START)` to `FLASH_F7_OPTCR`, a word whose start
bit is set, whose lock bit is cleared and whose other bits are those of `o`.
`stlink_write_option_control_register1_f7` makes the same three calls.  The value
written by the codec is the 32-bit word whose bytes are passed in `base`.  (The two
register addresses are distinct and non-zero, as in the register map.) -/
theorem f7_optcr1_three_call_sequence (k : Consts) (env : Env) (v len : Nat)
    (base : List Nat) (log : List Op)
    (h0 : k.FLASH_F7_OPTCR1 ≠ 0) (hne : k.FLASH_F7_OPTCR1 ≠ k.FLASH_F7_OPTCR)
    (hlock : k.FLASH_F7_OPTCR_LOCK < 32) (hv : v < U32) :
    let o := (env (log ++ [.clear_flash_error, .read_debug32 k.FLASH_F7_OPTCR])).val % U32
    let w := (o &&& not32 (1 <<< k.FLASH_F7_OPTCR_LOCK)) ||| (1 <<< k.FLASH_F7_OPTCR_START)
    (stlink_write_option_bytes_f7 k env k.FLASH_F7_OPTCR1 base len).run log =
      some ((env (log ++ [.clear_flash_error, .read_debug32 k.FLASH_F7_OPTCR,
          .write_debug32 k.FLASH_F7_OPTCR1 (option_word base),
          .write_debug32 k.FLASH_F7_OPTCR w, .wait_flash_busy, .check_flash_error])).ret,
        log ++ [.clear_flash_error, .read_debug32 k.FLASH_F7_OPTCR,
          .write_debug32 k.FLASH_F7_OPTCR1 (option_word base),
          .write_debug32 k.FLASH_F7_OPTCR w, .wait_flash_busy, .check_flash_error]) ∧
    option_word (write_uint32 v) = v ∧
    (stlink_write_option_control_register1_f7 k env v).run log =
      some ((env (log ++ [.clear_flash_error, .read_debug32 k.FLASH_F7_OPTCR,
          .write_debug32 k.FLASH_F7_OPTCR1 v,
          .write_debug32 k.FLASH_F7_OPTCR w, .wait_flash_busy, .check_flash_error])).ret,
        log ++ [.clear_flash_error, .read_debug32 k.FLASH_F7_OPTCR,
          .write_debug32 k.FLASH_F7_OPTCR1 v,
          .write_debug32 k.FLASH_F7_OPTCR w, .wait_flash_busy, .check_flash_error]) ∧
    (∀ i, w.testBit i = (decide (i = k.FLASH_F7_OPTCR_START) ||
      (o.testBit i && !decide (i = k.FLASH_F7_OPTCR_LOCK)))) := by
  intro o w
  refine ⟨?_, option_word_write_uint32 v hv, ?_, ?_⟩
  · unfold stlink_write_option_bytes_f7 clear_flash_error wait_flash_busy check_flash_error
      stlink_write_debug32 stlink_read_debug32
    simp [StateT.run, bind, StateT.bind, pure, StateT.pure, call, h0, hne, o, w]
  · unfold stlink_write_option_control_register1_f7 clear_flash_error wait_flash_busy
      check_flash_error stlink_write_debug32 stlink_read_debug32
    simp [StateT.run, bind, StateT.bind, pure, StateT.pure, call, o, w]
  · intro i
    exact testBit_clear_lock_set_start o _ _ i (Nat.mod_lt _ (by norm_num [U32])) hlock

/-- Witness of C13: `v = 0x1234` and `o = 0x00000000`; the three register calls are
read `OPTCR`, write `0x1234` to `OPTCR1`, write `0x2` (start set, lock clear) to
`OPTCR`. -/
theorem f7_optcr1_three_call_sequence_witness :
    (stlink_write_option_bytes_f7 example_consts env_ok 0x40023C18
      (write_uint32 0x1234) 4).run [] =
      some (0, [.clear_flash_error, .read_debug32 0x40023C14,
        .write_debug32 0x40023C18 0x1234, .write_debug32 0x40023C14 0x2,
        .wait_flash_busy, .check_flash_error]) ∧
    (stlink_write_option_control_register1_f7 example_consts env_ok 0x1234).run [] =
      some (0, [.clear_flash_error, .read_debug32 0x40023C14,
        .write_debug32 0x40023C18 0x1234, .write_debug32 0x40023C14 0x2,
        .wait_flash_busy, .check_flash_error]) :=
  have h := f7_optcr1_three_call_sequence example_consts env_ok 0x1234 4
    (write_uint32 0x1234) [] (by decide) (by decide) (by decide) (by decide)
  ⟨h.1, h.2.2.1⟩

/-! ## The H7 codec skips an unchanged register (C14) -/

/-- C14: for every programmable H7 register address `A` (one of `REGS + 0x20`,
`0x2c`, `0x34`, `0x3c`, `0x44`) and every requested word (the word whose bytes are in
`base`): when the H7 codec is asked to write it at `A` with `len = 4` and the current
register, read at `A - 4`, already holds that word, the codec returns 0 and its only
calls are the busy-wait, the error-clear write to `FLASH_H7_OPTCCR` and the read at
`A - 4`: no program write to `A` and no launch write to `FLASH_H7_OPTCR`. -/
theorem h7_skips_unchanged_register (k : Consts) (env : Env) (fuel A : Nat)
    (base : List Nat) (log : List Op)
    (hA : A = (k.FLASH_H7_REGS_ADDR + 0x20) % U32 ∨ A = (k.FLASH_H7_REGS_ADDR + 0x2c) % U32 ∨
      A = (k.FLASH_H7_REGS_ADDR + 0x34) % U32 ∨ A = (k.FLASH_H7_REGS_ADDR + 0x3c) % U32 ∨
      A = (k.FLASH_H7_REGS_ADDR + 0x44) % U32)
    (hcur : (env (log ++ [.wait_flash_busy,
      .write_debug32 k.FLASH_H7_OPTCCR (1 <<< k.FLASH_H7_OPTCCR_CLR_OPTCHANGEERR),
      .read_debug32 ((A + U32 - 4) % U32)])).val % U32 = option_word base) :
    (stlink_write_option_bytes_h7 k env (fuel + 2) A base 4).run log =
      some (0, log ++ [.wait_flash_busy,
        .write_debug32 k.FLASH_H7_OPTCCR (1 <<< k.FLASH_H7_OPTCCR_CLR_OPTCHANGEERR),
        .read_debug32 ((A + U32 - 4) % U32)]) ∧
    (k.FLASH_H7_OPTCCR ≠ A → ∀ x, Op.write_debug32 A x ∉ [Op.wait_flash_busy,
        .write_debug32 k.FLASH_H7_OPTCCR (1 <<< k.FLASH_H7_OPTCCR_CLR_OPTCHANGEERR),
        .read_debug32 ((A + U32 - 4) % U32)]) ∧
    (k.FLASH_H7_OPTCCR ≠ k.FLASH_H7_OPTCR → ∀ x, Op.write_debug32 k.FLASH_H7_OPTCR x ∉
        [Op.wait_flash_busy,
        .write_debug32 k.FLASH_H7_OPTCCR (1 <<< k.FLASH_H7_OPTCCR_CLR_OPTCHANGEERR),
        .read_debug32 ((A + U32 - 4) % U32)]) := by
  have hprog : h7_programmable k A = true := by
    unfold h7_programmable
    simpa using hA
  have hlen : (4 + U32 - 4) % U32 = 0 := by norm_num [U32]
  refine ⟨?_, ?_, ?_⟩
  · unfold stlink_write_option_bytes_h7 wait_flash_busy
    simp [stlink_write_option_bytes_h7_loop, stlink_write_debug32, stlink_read_debug32,
      StateT.run, bind, StateT.bind, pure, StateT.pure, call, hprog, hcur, hlen]
  · intro h x
    simp [Ne.symm h]
  · intro h x
    simp [Ne.symm h]

/-- Witness of C14: the register `FLASH_OPTSR_PRG` (`0x52002020`) with current value
`0xAAAA5555` and requested value `0xAAAA5555`. -/
theorem h7_skips_unchanged_register_witness :
    (stlink_write_option_bytes_h7 example_consts (fun _ => ⟨0, 0xAAAA5555⟩) 2 0x52002020
      (write_uint32 0xAAAA5555) 4).run [] =
      some (0, [.wait_flash_busy, .write_debug32 0x52002024 0x40000000,
        .read_debug32 0x5200201C]) :=
  (h7_skips_unchanged_register example_consts (fun _ => ⟨0, 0xAAAA5555⟩) 0 0x52002020
    (write_uint32 0xAAAA5555) [] (by decide) (by decide)).1

/-! ## Ordering and propagation defects (C15, C16, C18) -/

/-- C15, evaluated at the input where it fails: a full 16-byte write at the
option-byte base, every call succeeding.  The F0 codec ends with the `OBL_LAUNCH`
write to `FLASH_CR` immediately followed by `check_flash_error`, with no
`wait_flash_busy` in between, and `stlink_write_option_control_register_f0` adds a
second `check_flash_error` right after; the ordering rule fails on both logs.  (It
holds on the log of the F4 codec for the same environment.) -/
theorem f0_checks_error_without_busy_wait :
    (stlink_write_option_bytes_f0 example_consts env_ok 0x1FFFF800
      [0xAA, 0x55, 0, 0xFF, 0, 0xFF, 0, 0xFF, 0, 0xFF, 0, 0xFF, 0, 0xFF, 0, 0xFF] 16).run []
      = some (0, [.clear_flash_error, .write_debug32 0x40022010 0x220,
        .write_debug32 0x40022010 0x260, .wait_flash_busy, .check_flash_error,
        .write_debug32 0x40022010 0x210, .flash_loader_init,
        .flash_loader_run 0x1FFFF800
          [0xAA, 0x55, 0, 0xFF, 0, 0xFF, 0, 0xFF, 0, 0xFF, 0, 0xFF, 0, 0xFF, 0, 0xFF] 16,
        .write_debug32 0x40022010 0x2000, .check_flash_error]) ∧
    checks_follow_wait false [.clear_flash_error, .write_debug32 0x40022010 0x220,
        .write_debug32 0x40022010 0x260, .wait_flash_busy, .check_flash_error,
        .write_debug32 0x40022010 0x210, .flash_loader_init,
        .flash_loader_run 0x1FFFF800
          [0xAA, 0x55, 0, 0xFF, 0, 0xFF, 0, 0xFF, 0, 0xFF, 0, 0xFF, 0, 0xFF, 0, 0xFF] 16,
        .write_debug32 0x40022010 0x2000, .check_flash_error] = false ∧
    ((stlink_write_option_control_register_f0 example_consts env_ok sl_f0 0).run []).map
      (fun p => checks_follow_wait false p.2) = some false ∧
    ((stlink_write_option_bytes_f4 example_consts env_ok 0x40023C14 [1, 2, 3, 4] 4).run []).map
      (fun p => checks_follow_wait false p.2) = some true := by
  refine ⟨rfl, rfl, rfl, rfl⟩

/-- C16, evaluated at the input where it fails: with a transport on which every
register write fails (`stlink_write_debug32` returns `-1`) and every other call
succeeds, the F4, F7 and L4 codecs discard the status of the write that carries the
new option value and return the 0 of `check_flash_error`, and
`stlink_write_option_bytes` returns 0 on the F4 session; the C0 writer, which tests
the status of its writes, returns the `-1`. -/
theorem codecs_swallow_write_failure :
    (env_write_fails [.clear_flash_error, .write_debug32 0x40023C14 0x04030202]).ret = -1 ∧
    (stlink_write_option_bytes_f4 example_consts env_write_fails 0x40023C14 [1, 2, 3, 4]
      4).run [] = some (0, [.clear_flash_error, .write_debug32 0x40023C14 0x04030202,
        .wait_flash_busy, .check_flash_error]) ∧
    (stlink_write_option_bytes example_consts env_write_fails sl_f4 1 0x40023C14
      [1, 2, 3, 4] 4).run [] = some (0, [.wait_flash_busy, .unlock_flash_if,
        .unlock_flash_option_if, .clear_flash_error,
        .write_debug32 0x40023C14 0x04030202, .wait_flash_busy, .check_flash_error,
        .lock_flash_option, .lock_flash]) ∧
    (stlink_write_option_bytes_f7 example_consts env_write_fails 0x40023C14 [1, 2, 3, 4]
      4).run [] = some (0, [.clear_flash_error, .write_debug32 0x40023C14 0x04030202,
        .wait_flash_busy, .check_flash_error]) ∧
    ((stlink_write_option_bytes_l4 example_consts env_write_fails 0x40022020 [1, 2, 3, 4]
      4).run []).map Prod.fst = some 0 ∧
    (stlink_write_option_bytes_c0 example_consts env_write_fails 0x40022020 [1, 2, 3, 4]
      4).run [] = some (-1, [.clear_flash_error, .write_debug32 0x40022020 0x04030201]) := by
  refine ⟨rfl, rfl, rfl, rfl, rfl, rfl⟩

/-- C18, evaluated at the input where it fails: an 8-byte write on the WB session
with a target whose first `check_flash_error` reports `-1` and whose later checks
report 0.  The loop aborts after the first word (the second word is not written),
but the status of the loop is overwritten by the `check_flash_error` that follows
the `OPTSTRT` write, and the codec returns 0. -/
theorem wb_codec_loses_loop_error :
    (env_first_check_fails [.clear_flash_error, .write_debug32 0x1FFF8000 0x04030201,
      .wait_flash_busy, .check_flash_error]).ret = -1 ∧
    (stlink_write_option_bytes_wb example_consts env_first_check_fails 3 0x1FFF8000
      [1, 2, 3, 4, 5, 6, 7, 8] 8).run [] =
      some (0, [.clear_flash_error, .write_debug32 0x1FFF8000 0x04030201,
        .wait_flash_busy, .check_flash_error, .read_debug32 0x58004014,
        .write_debug32 0x58004014 0x20000, .wait_flash_busy, .check_flash_error,
        .read_debug32 0x58004014, .write_debug32 0x58004014 0x8000000]) ∧
    (stlink_write_option_bytes example_consts env_first_check_fails sl_wb 3 0x1FFF8000
      [1, 2, 3, 4, 5, 6, 7, 8] 8).run [] =
      some (0, [.wait_flash_busy, .unlock_flash_if, .unlock_flash_option_if,
        .clear_flash_error, .write_debug32 0x1FFF8000 0x04030201,
        .wait_flash_busy, .check_flash_error, .read_debug32 0x58004014,
        .write_debug32 0x58004014 0x20000, .wait_flash_busy, .check_flash_error,
        .read_debug32 0x58004014, .write_debug32 0x58004014 0x8000000,
        .lock_flash_option, .lock_flash]) ∧
    (stlink_write_option_bytes_l0 example_consts env_first_check_fails sl_wb 3 0x1FFF8000
      [1, 2, 3, 4, 5, 6, 7, 8] 8).run [] =
      some (-1, [.clear_flash_error, .write_debug32 0x1FFF8000 0x04030201,
        .wait_flash_busy, .check_flash_error, .read_debug32 0x40023C04,
        .write_debug32 0x40023C04 0x40000]) := by
  refine ⟨rfl, rfl, rfl, rfl⟩

/-! ## The streaming loop of the L0/L1 codec (C17) -/

theorem streamed_words_zero (addr : Nat) (base : List Nat) : streamed_words addr base 0 = [] :=
  rfl

/-- The calls for `m + 1` words are the calls for the first word followed by the
calls for `m` words of the advanced address and buffer. -/
theorem streamed_words_succ (addr : Nat) (base : List Nat) (m : Nat) (haddr : addr < U32) :
    streamed_words addr base (m + 1) =
      [.write_debug32 addr (option_word base), .wait_flash_busy, .check_flash_error] ++
        streamed_words ((addr + 4) % U32) (base.drop 4) m := by
  unfold streamed_words
  rw [List.range_succ_eq_map, List.flatMap_cons, List.flatMap_map]
  have h0 : (addr + 4 * 0) % U32 = addr := by
    rw [Nat.mul_zero, Nat.add_zero, Nat.mod_eq_of_lt haddr]
  have hstep : ∀ i, ((addr + 4) % U32 + 4 * i) % U32 = (addr + 4 * (i + 1)) % U32 := by
    intro i
    rw [Nat.add_mod, Nat.mod_mod, ← Nat.add_mod]
    congr 1
    omega
  have hdrop : ∀ i, (base.drop 4).drop (4 * i) = base.drop (4 * (i + 1)) := by
    intro i
    rw [List.drop_drop]
    congr 1
    omega
  simp only [h0, Nat.mul_zero, List.drop_zero, hstep, hdrop, Function.comp_def]

/-- The streaming loop, for a word-aligned length and enough fuel: it handles the
first `m` words, stops at the first failing check, and returns the status of the
last check made (0 when there is no word). -/
theorem write_option_words_loop_run (env : Env) :
    ∀ (fuel addr : Nat) (base : List Nat) (len : Nat) (log : List Op),
      len % 4 = 0 → len < U32 → addr < U32 → len / 4 < fuel →
      ∃ m ret, m ≤ len / 4 ∧
        (write_option_words_loop env fuel addr base len).run log =
          some (ret, log ++ streamed_words addr base m) ∧
        (m = 0 → ret = 0) ∧
        (1 ≤ m → ret = (env (log ++ streamed_words addr base m)).ret) ∧
        (ret = 0 → m = len / 4) ∧
        (∀ j, j + 1 < m → (env (log ++ streamed_words addr base (j + 1))).ret = 0) := by
  intro fuel
  induction fuel with
  | zero => intro addr base len log _ _ _ h; omega
  | succ n ih =>
    intro addr base len log h4 hlen haddr hfuel
    by_cases hz : len = 0
    · refine ⟨0, 0, by omega, ?_, fun _ => rfl, fun h => absurd h (by omega), ?_, ?_⟩
      · simp [write_option_words_loop, hz, streamed_words_zero, StateT.run, bind,
          StateT.bind, pure, StateT.pure]
      · intro _
        simp [hz]
      · intro j hj
        omega
    · by_cases hr : (env (log ++ [.write_debug32 addr (option_word base), .wait_flash_busy,
          .check_flash_error])).ret = 0
      · have hlen2 : (len + U32 - 4) % U32 = len - 4 := by
          unfold U32 at *
          omega
        obtain ⟨m, ret, hm, hrun, hm0, hm1, hret, hprev⟩ :=
          ih ((addr + 4) % U32) (base.drop 4) (len - 4)
            (log ++ [.write_debug32 addr (option_word base), .wait_flash_busy,
              .check_flash_error])
            (by omega) (by omega) (Nat.mod_lt _ (by norm_num [U32])) (by omega)
        refine ⟨m + 1, ret, by omega, ?_, fun h => absurd h (by omega), ?_, ?_, ?_⟩
        · rw [streamed_words_succ addr base m haddr, ← List.append_assoc, ← hrun]
          simp [write_option_words_loop, hz, hr, hlen2, wait_flash_busy, check_flash_error,
            stlink_write_debug32, call, StateT.run, bind, StateT.bind, pure, StateT.pure]
        · intro _
          rw [streamed_words_succ addr base m haddr, ← List.append_assoc]
          by_cases hmz : m = 0
          · subst hmz
            rw [hm0 rfl, streamed_words_zero, List.append_nil, hr]
          · exact hm1 (by omega)
        · intro h0
          have := hret h0
          omega
        · intro j hj
          rw [streamed_words_succ addr base j haddr, ← List.append_assoc]
          cases j with
          | zero => rw [streamed_words_zero, List.append_nil, hr]
          | succ i => exact hprev i (by omega)
      · refine ⟨1, (env (log ++ [.write_debug32 addr (option_word base), .wait_flash_busy,
          .check_flash_error])).ret, by omega, ?_, fun h => absurd h (by omega), ?_, ?_, ?_⟩
        · rw [streamed_words_succ addr base 0 haddr, streamed_words_zero, List.append_nil]
          simp [write_option_words_loop, hz, hr, wait_flash_busy, check_flash_error,
            stlink_write_debug32, call, StateT.run, bind, StateT.bind, pure, StateT.pure]
        · intro _
          rw [streamed_words_succ addr base 0 haddr, streamed_words_zero, List.append_nil]
        · intro h0
          exact absurd h0 hr
        · intro j hj
          omega

/-- C17: for every `len` that is a multiple of 4 (and fuel covering the words), the
L0/L1 codec, after `clear_flash_error`, writes the data words to `addr`, `addr + 4`,
`addr + 8`, ... in increasing order, each write followed by `wait_flash_busy` and then
`check_flash_error`.  It handles `m` words: all `len / 4` when it returns 0, and
otherwise the words up to the first failing check, whose status it returns (the
checks before it reported 0 and no further word is written).  In both cases the
reload sequence, read `PECR` then write `PECR` with `OBL_LAUNCH` set, follows the
loop exactly once and ends the log. -/
theorem l0_codec_streams_words (k : Consts) (env : Env) (sl : stlink_t)
    (fuel addr : Nat) (base : List Nat) (len : Nat) (log : List Op)
    (h4 : len % 4 = 0) (hlen : len < U32) (haddr : addr < U32) (hfuel : len / 4 < fuel) :
    ∃ m ret, m ≤ len / 4 ∧
      (stlink_write_option_bytes_l0 k env sl fuel addr base len).run log =
        some (ret, log ++ [.clear_flash_error] ++ streamed_words addr base m ++
          [.read_debug32 ((k.get_stm32l0_flash_base sl + k.FLASH_PECR_OFF) % U32),
            .write_debug32 ((k.get_stm32l0_flash_base sl + k.FLASH_PECR_OFF) % U32)
              ((env (log ++ [.clear_flash_error] ++ streamed_words addr base m ++
                  [.read_debug32 ((k.get_stm32l0_flash_base sl + k.FLASH_PECR_OFF) % U32)])).val
                % U32 ||| (1 <<< k.FLASH_L0_OBL_LAUNCH))]) ∧
      (m = 0 → ret = 0) ∧
      (1 ≤ m → ret = (env (log ++ [.clear_flash_error] ++ streamed_words addr base m)).ret) ∧
      (ret = 0 → m = len / 4) ∧
      (∀ j, j + 1 < m →
        (env (log ++ [.clear_flash_error] ++ streamed_words addr base (j + 1))).ret = 0) := by
  obtain ⟨m, ret, hm, hrun, hm0, hm1, hret, hprev⟩ :=
    write_option_words_loop_run env fuel addr base len (log ++ [.clear_flash_error])
      h4 hlen haddr hfuel
  refine ⟨m, ret, hm, ?_, hm0, hm1, hret, hprev⟩
  simp only [StateT.run] at hrun
  unfold stlink_write_option_bytes_l0 clear_flash_error stlink_write_debug32
    stlink_read_debug32
  simp [StateT.run, bind, StateT.bind, pure, StateT.pure, call, hrun]

/-- Witness of C17: two words written at the option-byte base of the L0 session,
every call succeeding. -/
theorem l0_codec_streams_words_witness :
    ∃ m ret, m ≤ 8 / 4 ∧
      (stlink_write_option_bytes_l0 example_consts env_ok sl_l0 3 0x1FF80000
        [1, 2, 3, 4, 5, 6, 7, 8] 8).run [] =
        some (ret, [] ++ [.clear_flash_error] ++
          streamed_words 0x1FF80000 [1, 2, 3, 4, 5, 6, 7, 8] m ++
          [.read_debug32 ((example_consts.get_stm32l0_flash_base sl_l0 +
              example_consts.FLASH_PECR_OFF) % U32),
            .write_debug32 ((example_consts.get_stm32l0_flash_base sl_l0 +
              example_consts.FLASH_PECR_OFF) % U32)
              ((env_ok ([] ++ [.clear_flash_error] ++
                  streamed_words 0x1FF80000 [1, 2, 3, 4, 5, 6, 7, 8] m ++
                  [.read_debug32 ((example_consts.get_stm32l0_flash_base sl_l0 +
                    example_consts.FLASH_PECR_OFF) % U32)])).val
                % U32 ||| (1 <<< example_consts.FLASH_L0_OBL_LAUNCH))]) ∧
      (m = 0 → ret = 0) ∧
      (1 ≤ m → ret = (env_ok ([] ++ [.clear_flash_error] ++
        streamed_words 0x1FF80000 [1, 2, 3, 4, 5, 6, 7, 8] m)).ret) ∧
      (ret = 0 → m = 8 / 4) ∧
      (∀ j, j + 1 < m → (env_ok ([] ++ [.clear_flash_error] ++
        streamed_words 0x1FF80000 [1, 2, 3, 4, 5, 6, 7, 8] (j + 1))).ret = 0) :=
  l0_codec_streams_words example_consts env_ok sl_l0 3 0x1FF80000 [1, 2, 3, 4, 5, 6, 7, 8]
    8 [] (by decide) (by decide) (by decide) (by decide)

/-! ## The F7 multi-word read (C19) -/

/-- The loop of `stlink_read_option_bytes_f7`, started at `counter = c` on the log of
`c` dumped words with `r` iterations to go: it dumps words up to some `m`, where
either `m = c + r` and the loop ends, or the read of word `m` returned `-1` and the
function returns at once. -/
theorem read_option_bytes_f7_loop_run (env : Env) (sl : stlink_t) (log : List Op) :
    ∀ (r c : Nat), ∃ m, c ≤ m ∧ m ≤ c + r ∧
      (∀ j, c ≤ j → j < m → (env (f7_dump env sl.option_base j log ++
        [.read_debug32 ((sl.option_base + 4 * j) % U32)])).ret ≠ -1) ∧
      ((m = c + r ∧ (read_option_bytes_f7_loop env sl r c).run
          (f7_dump env sl.option_base c log) =
            some (none, f7_dump env sl.option_base (c + r) log)) ∨
        (m < c + r ∧
          (env (f7_dump env sl.option_base m log ++
            [.read_debug32 ((sl.option_base + 4 * m) % U32)])).ret = -1 ∧
          (read_option_bytes_f7_loop env sl r c).run (f7_dump env sl.option_base c log) =
            some (some (-1, (env (f7_dump env sl.option_base m log ++
                [.read_debug32 ((sl.option_base + 4 * m) % U32)])).val % U32),
              f7_dump env sl.option_base m log ++
                [.read_debug32 ((sl.option_base + 4 * m) % U32)]))) := by
  intro r
  induction r with
  | zero =>
    intro c
    refine ⟨c, le_refl c, by omega, fun j h1 h2 => absurd h2 (by omega), Or.inl ⟨rfl, ?_⟩⟩
    simp [read_option_bytes_f7_loop, StateT.run, pure, StateT.pure]
  | succ r ih =>
    intro c
    by_cases hr : (env (f7_dump env sl.option_base c log ++
        [.read_debug32 ((sl.option_base + 4 * c) % U32)])).ret = -1
    · refine ⟨c, le_refl c, by omega, fun j h1 h2 => absurd h2 (by omega),
        Or.inr ⟨by omega, hr, ?_⟩⟩
      simp [read_option_bytes_f7_loop, stlink_read_debug32, call, StateT.run, bind,
        StateT.bind, pure, StateT.pure, Nat.mul_comm c 4, hr]
    · obtain ⟨m, hcm, hmr, hprev, hres⟩ := ih (c + 1)
      have hstep : (read_option_bytes_f7_loop env sl (r + 1) c).run
          (f7_dump env sl.option_base c log) =
          (read_option_bytes_f7_loop env sl r (c + 1)).run
            (f7_dump env sl.option_base (c + 1) log) := by
        simp [read_option_bytes_f7_loop, f7_dump, stlink_read_debug32, call, StateT.run, bind,
          StateT.bind, pure, StateT.pure, Nat.mul_comm c 4, hr]
      refine ⟨m, by omega, by omega, ?_, ?_⟩
      · intro j h1 h2
        by_cases hjc : j = c
        · subst hjc
          exact hr
        · exact hprev j (by omega) h2
      · rcases hres with ⟨hm, hrun⟩ | ⟨hm, hfail, hrun⟩
        · refine Or.inl ⟨by omega, ?_⟩
          rw [hstep, hrun]
          congr 3
          omega
        · exact Or.inr ⟨by omega, hfail, by rw [hstep, hrun]⟩

/-- C19 as amended: for every context whose option region holds at least one word
(`4 <= option_size`), `stlink_read_option_bytes_f7` reads the words at
`option_base + 4 * i` in increasing order of `i`, each once, printing every word
read before the last read it makes.  Its last read is that of word `m`, and it
returns the status and the word of that read.  Either `m = option_size / 4 - 1`
(all `option_size / 4` words were read and the last word is the returned value), or
the read of word `m` returned `-1` and the function returns that `-1` at once; no
earlier read returned `-1`.  Every address read lies in the region when the region
does not wrap. -/
theorem read_option_bytes_f7_reads_region (env : Env) (sl : stlink_t) (log : List Op)
    (hsize : 4 ≤ sl.option_size) (hlt : sl.option_size < U32) :
    ∃ m, m ≤ sl.option_size / 4 - 1 ∧
      (stlink_read_option_bytes_f7 env sl).run log =
        some (((env (f7_dump env sl.option_base m log ++
              [.read_debug32 ((sl.option_base + 4 * m) % U32)])).ret,
            (env (f7_dump env sl.option_base m log ++
              [.read_debug32 ((sl.option_base + 4 * m) % U32)])).val % U32),
          f7_dump env sl.option_base m log ++
            [.read_debug32 ((sl.option_base + 4 * m) % U32)]) ∧
      (m < sl.option_size / 4 - 1 →
        (env (f7_dump env sl.option_base m log ++
          [.read_debug32 ((sl.option_base + 4 * m) % U32)])).ret = -1) ∧
      (∀ j, j < m → (env (f7_dump env sl.option_base j log ++
        [.read_debug32 ((sl.option_base + 4 * j) % U32)])).ret ≠ -1) ∧
      (sl.option_base + sl.option_size ≤ U32 → ∀ i, i ≤ m →
        (sl.option_base + 4 * i) % U32 = sl.option_base + 4 * i ∧
        sl.option_base + 4 * i + 4 ≤ sl.option_base + sl.option_size) := by
  have hbound : (sl.option_size / 4 + U32 - 1) % U32 = sl.option_size / 4 - 1 := by
    unfold U32 at *
    omega
  obtain ⟨m, _, hmr, hprev, hres⟩ :=
    read_option_bytes_f7_loop_run env sl log (sl.option_size / 4 - 1) 0
  have hregion : sl.option_base + sl.option_size ≤ U32 → ∀ i, i ≤ m →
      (sl.option_base + 4 * i) % U32 = sl.option_base + 4 * i ∧
      sl.option_base + 4 * i + 4 ≤ sl.option_base + sl.option_size := by
    intro hfit i hi
    have h1 : sl.option_base + 4 * i + 4 ≤ sl.option_base + sl.option_size := by omega
    exact ⟨Nat.mod_eq_of_lt (by omega), h1⟩
  refine ⟨m, by omega, ?_, ?_, fun j hj => hprev j (Nat.zero_le j) hj, hregion⟩
  · rcases hres with ⟨hm, hrun⟩ | ⟨hm, hfail, hrun⟩
    · simp only [f7_dump, Nat.zero_add, StateT.run] at hrun
      unfold stlink_read_option_bytes_f7 stlink_read_debug32
      simp [StateT.run, bind, StateT.bind, pure, StateT.pure, call, hbound, hrun, hm,
        Nat.mul_comm (sl.option_size / 4 - 1) 4]
    · simp only [f7_dump, Nat.zero_add, StateT.run] at hrun
      unfold stlink_read_option_bytes_f7
      simp [StateT.run, bind, StateT.bind, pure, StateT.pure, hbound, hrun, hfail]
  · intro hm
    rcases hres with ⟨hm2, _⟩ | ⟨_, hfail, _⟩
    · omega
    · exact hfail

/-- Witness of C19 as amended: the F7 session (8 words), every call succeeding. -/
theorem read_option_bytes_f7_reads_region_witness :
    ∃ m, m ≤ sl_f7.option_size / 4 - 1 ∧
      (stlink_read_option_bytes_f7 env_ok sl_f7).run [] =
        some (((env_ok (f7_dump env_ok sl_f7.option_base m [] ++
              [.read_debug32 ((sl_f7.option_base + 4 * m) % U32)])).ret,
            (env_ok (f7_dump env_ok sl_f7.option_base m [] ++
              [.read_debug32 ((sl_f7.option_base + 4 * m) % U32)])).val % U32),
          f7_dump env_ok sl_f7.option_base m [] ++
            [.read_debug32 ((sl_f7.option_base + 4 * m) % U32)]) ∧
      (m < sl_f7.option_size / 4 - 1 →
        (env_ok (f7_dump env_ok sl_f7.option_base m [] ++
          [.read_debug32 ((sl_f7.option_base + 4 * m) % U32)])).ret = -1) ∧
      (∀ j, j < m → (env_ok (f7_dump env_ok sl_f7.option_base j [] ++
        [.read_debug32 ((sl_f7.option_base + 4 * j) % U32)])).ret ≠ -1) ∧
      (sl_f7.option_base + sl_f7.option_size ≤ U32 → ∀ i, i ≤ m →
        (sl_f7.option_base + 4 * i) % U32 = sl_f7.option_base + 4 * i ∧
        sl_f7.option_base + 4 * i + 4 ≤ sl_f7.option_base + sl_f7.option_size) :=
  read_option_bytes_f7_reads_region env_ok sl_f7 [] (by decide) (by decide)

/-- Counterexample to C19 as stated.  On an F7 session with `option_size == 0` the
region holds `option_size / 4 = 0` words, yet the function reads at `option_base`
(here the read fails and it returns `-1`; the loop bound `option_size / 4 - 1` wraps
to `0xFFFFFFFF`).  On the 8-word F7 session, a first read that returns the failure
status `-2` is not treated as a failure: all 8 words are read and the status 0 of
the last read is returned. -/
theorem read_option_bytes_f7_not_for_every_context :
    sl_f7_empty.option_size / 4 = 0 ∧
    (stlink_read_option_bytes_f7 (env_failing (.read_debug32 0x1FFF0000)) sl_f7_empty).run []
      = some ((-1, 0), [.read_debug32 0x1FFF0000]) ∧
    (env_first_read_minus_two [.read_debug32 0x1FFF0000]).ret = -2 ∧
    (stlink_read_option_bytes_f7 env_first_read_minus_two sl_f7).run [] =
      some ((0, 0), [.read_debug32 0x1FFF0000, .printf 0, .read_debug32 0x1FFF0004,
        .printf 0, .read_debug32 0x1FFF0008, .printf 0, .read_debug32 0x1FFF000C,
        .printf 0, .read_debug32 0x1FFF0010, .printf 0, .read_debug32 0x1FFF0014,
        .printf 0, .read_debug32 0x1FFF0018, .printf 0, .read_debug32 0x1FFF001C]) := by
  refine ⟨rfl, ?_, rfl, rfl⟩
  rfl

/-! ## The half-words built by the F0 option-control-register writer (C21) -/

/-- The F0 codec on a request it does not reject, for every environment: its calls
are an initial segment of `f0_codec_calls`, the whole of it when it returns 0. -/
theorem write_option_bytes_f0_calls (k : Consts) (env : Env) (addr : Nat) (base : List Nat)
    (len : Nat) (log : List Op) (hlen : ¬ len < 12)
    (haddr : addr = k.STM32_F0_OPTION_BYTES_BASE) :
    ∃ ret ops, (stlink_write_option_bytes_f0 k env addr base len).run log =
        some (ret, log ++ ops) ∧
      ops <+: f0_codec_calls k addr base len ∧
      (ret = 0 → ops = f0_codec_calls k addr base len) := by
  have hgo : ¬ (len < 12 ∨ addr ≠ k.STM32_F0_OPTION_BYTES_BASE) := by
    rintro (h | h)
    · exact hlen h
    · exact h haddr
  unfold f0_codec_calls
  unfold stlink_write_option_bytes_f0 clear_flash_error wait_flash_busy check_flash_error
    stlink_write_debug32 stlink_flash_loader_init stlink_flash_loader_run
  generalize (1 <<< k.FLASH_CR_OPTER ||| 1 <<< k.FLASH_CR_STRT ||| 1 <<< k.FLASH_CR_OPTWRE) = e2
  generalize (1 <<< k.FLASH_CR_OPTER ||| 1 <<< k.FLASH_CR_OPTWRE) = e1
  generalize (1 <<< k.FLASH_CR_OPTPG ||| 1 <<< k.FLASH_CR_OPTWRE) = e3
  generalize (1 <<< k.FLASH_CR_OBL_LAUNCH) = e4
  generalize k.FLASH_CR = cr
  by_cases h1 : (env (log ++ [.clear_flash_error, .write_debug32 cr e1,
      .write_debug32 cr e2])).ret = 0
  · by_cases h2 : (env (log ++ [.clear_flash_error, .write_debug32 cr e1,
        .write_debug32 cr e2, .wait_flash_busy, .check_flash_error])).ret = 0
    · by_cases h3 : (env (log ++ [.clear_flash_error, .write_debug32 cr e1,
          .write_debug32 cr e2, .wait_flash_busy, .check_flash_error, .write_debug32 cr e3,
          .flash_loader_init])).ret = 0
      · by_cases h4 : (env (log ++ [.clear_flash_error, .write_debug32 cr e1,
            .write_debug32 cr e2, .wait_flash_busy, .check_flash_error, .write_debug32 cr e3,
            .flash_loader_init, .flash_loader_run addr base len])).ret = 0
        · refine ⟨(env (log ++ [.clear_flash_error, .write_debug32 cr e1,
              .write_debug32 cr e2, .wait_flash_busy, .check_flash_error,
              .write_debug32 cr e3, .flash_loader_init, .flash_loader_run addr base len,
              .write_debug32 cr e4, .check_flash_error])).ret,
            [.clear_flash_error, .write_debug32 cr e1,
              .write_debug32 cr e2, .wait_flash_busy, .check_flash_error,
              .write_debug32 cr e3, .flash_loader_init, .flash_loader_run addr base len,
              .write_debug32 cr e4, .check_flash_error], ?_, List.prefix_refl _, fun _ => rfl⟩
          simp [StateT.run, bind, StateT.bind, pure, StateT.pure, call, hgo, h1, h2, h3, h4]
        · refine ⟨(env (log ++ [.clear_flash_error, .write_debug32 cr e1,
              .write_debug32 cr e2, .wait_flash_busy, .check_flash_error,
              .write_debug32 cr e3, .flash_loader_init,
              .flash_loader_run addr base len])).ret,
            [.clear_flash_error, .write_debug32 cr e1, .write_debug32 cr e2,
              .wait_flash_busy, .check_flash_error, .write_debug32 cr e3,
              .flash_loader_init, .flash_loader_run addr base len], ?_, ⟨_, rfl⟩,
            fun h => absurd h h4⟩
          simp [StateT.run, bind, StateT.bind, pure, StateT.pure, call, hgo, h1, h2, h3, h4]
      · refine ⟨(env (log ++ [.clear_flash_error, .write_debug32 cr e1,
            .write_debug32 cr e2, .wait_flash_busy, .check_flash_error, .write_debug32 cr e3,
            .flash_loader_init])).ret,
          [.clear_flash_error, .write_debug32 cr e1, .write_debug32 cr e2,
            .wait_flash_busy, .check_flash_error, .write_debug32 cr e3,
            .flash_loader_init], ?_, ⟨_, rfl⟩, fun h => absurd h h3⟩
        simp [StateT.run, bind, StateT.bind, pure, StateT.pure, call, hgo, h1, h2, h3]
    · refine ⟨(env (log ++ [.clear_flash_error, .write_debug32 cr e1,
          .write_debug32 cr e2, .wait_flash_busy, .check_flash_error])).ret,
        [.clear_flash_error, .write_debug32 cr e1, .write_debug32 cr e2,
          .wait_flash_busy, .check_flash_error], ?_, ⟨_, rfl⟩, fun h => absurd h h2⟩
      simp [StateT.run, bind, StateT.bind, pure, StateT.pure, call, hgo, h1, h2]
  · refine ⟨(env (log ++ [.clear_flash_error, .write_debug32 cr e1,
        .write_debug32 cr e2])).ret,
      [.clear_flash_error, .write_debug32 cr e1, .write_debug32 cr e2], ?_, ⟨_, rfl⟩,
      fun h => absurd h h1⟩
    simp [StateT.run, bind, StateT.bind, pure, StateT.pure, call, hgo, h1]

theorem f0_control_register_calls_eq (k : Consts) (chip_id option_cr protection : Nat) :
    f0_control_register_calls k chip_id option_cr protection =
      [.clear_flash_error, .read_debug32 k.FLASH_OBR, .read_debug32 k.FLASH_WRPR] ++
        f0_codec_calls k k.STM32_F0_OPTION_BYTES_BASE
          (halfword_bytes (f0_opt_val chip_id option_cr protection)) 16 ++
        [.check_flash_error] :=
  rfl

/-- The F0 option-control-register writer, for every environment: its calls are an
initial segment of `f0_control_register_calls` for the value read from `FLASH_WRPR`. -/
theorem write_option_control_register_f0_calls (k : Consts) (env : Env) (sl : stlink_t)
    (option_cr : Nat) (log : List Op) :
    ∃ ret ops, (stlink_write_option_control_register_f0 k env sl option_cr).run log =
        some (ret, log ++ ops) ∧
      ops <+: f0_control_register_calls k sl.chip_id option_cr
        ((env (log ++ [.clear_flash_error, .read_debug32 k.FLASH_OBR,
          .read_debug32 k.FLASH_WRPR])).val % U32) := by
  rw [f0_control_register_calls_eq]
  unfold stlink_write_option_control_register_f0 clear_flash_error check_flash_error
    stlink_read_debug32
  by_cases h1 : (env (log ++ [.clear_flash_error, .read_debug32 k.FLASH_OBR])).ret = 0
  · by_cases h2 : (env (log ++ [.clear_flash_error, .read_debug32 k.FLASH_OBR,
        .read_debug32 k.FLASH_WRPR])).ret = 0
    · obtain ⟨ret, ops, hrun, hpre, hfull⟩ :=
        write_option_bytes_f0_calls k env k.STM32_F0_OPTION_BYTES_BASE
          (halfword_bytes (f0_opt_val sl.chip_id option_cr
            ((env (log ++ [.clear_flash_error, .read_debug32 k.FLASH_OBR,
              .read_debug32 k.FLASH_WRPR])).val % U32))) 16
          (log ++ [.clear_flash_error, .read_debug32 k.FLASH_OBR,
            .read_debug32 k.FLASH_WRPR]) (by norm_num) rfl
      simp only [StateT.run] at hrun
      by_cases h3 : ret = 0
      · refine ⟨(env (log ++ [.clear_flash_error, .read_debug32 k.FLASH_OBR,
            .read_debug32 k.FLASH_WRPR] ++ ops ++ [.check_flash_error])).ret,
          [.clear_flash_error, .read_debug32 k.FLASH_OBR, .read_debug32 k.FLASH_WRPR] ++
            ops ++ [.check_flash_error], ?_, ?_⟩
        · simp [StateT.run, bind, StateT.bind, pure, StateT.pure, call, h1, h2, h3, hrun]
        · rw [hfull h3]
      · refine ⟨ret,
          [.clear_flash_error, .read_debug32 k.FLASH_OBR, .read_debug32 k.FLASH_WRPR] ++ ops,
          ?_, ?_⟩
        · simp [StateT.run, bind, StateT.bind, pure, StateT.pure, call, h1, h2, h3, hrun]
        · rw [List.append_assoc]
          exact (List.prefix_append_right_inj _).2
            (hpre.trans (List.prefix_append _ _))
    · refine ⟨(env (log ++ [.clear_flash_error, .read_debug32 k.FLASH_OBR,
          .read_debug32 k.FLASH_WRPR])).ret,
        [.clear_flash_error, .read_debug32 k.FLASH_OBR, .read_debug32 k.FLASH_WRPR], ?_,
        ?_⟩
      · simp [StateT.run, bind, StateT.bind, pure, StateT.pure, call, h1, h2]
      · rw [List.append_assoc]
        exact List.prefix_append _ _
  · refine ⟨(env (log ++ [.clear_flash_error, .read_debug32 k.FLASH_OBR])).ret,
      [.clear_flash_error, .read_debug32 k.FLASH_OBR], ?_, ⟨_, rfl⟩⟩
    simp [StateT.run, bind, StateT.bind, pure, StateT.pure, call, h1]

/-- The low byte of a half-word produced by the macro is the low byte of its
argument. -/
theorem val_with_complement_low_byte (v : Nat) : VAL_WITH_COMPLEMENT v % 256 = v % 256 := by
  rw [val_with_complement_eq]
  omega

theorem f0_opt_val_first_group (chip_id option_cr p : Nat)
    (h : f0_chip_group chip_id = true) :
    f0_opt_val chip_id option_cr p =
      [ if option_cr &&& (1 <<< 1) ≠ 0 then 0xFFFF else 0x55AA,
        VAL_WITH_COMPLEMENT ((option_cr >>> 6 >>> 2) &&& 0xFFFF),
        VAL_WITH_COMPLEMENT ((option_cr >>> 16) &&& 0xFFFF),
        VAL_WITH_COMPLEMENT (((option_cr >>> 16) &&& 0xFFFF) >>> 8),
        VAL_WITH_COMPLEMENT p, VAL_WITH_COMPLEMENT (p >>> 8),
        VAL_WITH_COMPLEMENT (p >>> 16), VAL_WITH_COMPLEMENT (p >>> 24) ] := by
  simp only [f0_opt_val, h, if_true]

theorem f0_opt_val_other_group (chip_id option_cr p : Nat)
    (h : f0_chip_group chip_id = false) :
    f0_opt_val chip_id option_cr p =
      [ if option_cr &&& (1 <<< 1) ≠ 0 then 0xFFFF else 0x5AA5,
        VAL_WITH_COMPLEMENT ((option_cr >>> 0 >>> 2) &&& 0xFFFF),
        VAL_WITH_COMPLEMENT ((option_cr >>> 10) &&& 0xFFFF),
        VAL_WITH_COMPLEMENT (((option_cr >>> 10) &&& 0xFFFF) >>> 8),
        VAL_WITH_COMPLEMENT p, VAL_WITH_COMPLEMENT (p >>> 8),
        VAL_WITH_COMPLEMENT (p >>> 16), VAL_WITH_COMPLEMENT (p >>> 24) ] := by
  simp only [f0_opt_val, h, Bool.false_eq_true, if_false]

/-- C21: for every `option_cr` and every `FLASH_WRPR` value `p`,
`stlink_write_option_control_register_f0` builds 8 half-words with
`(option_offset, user_data_offset, rdp) = (6, 16, 0x55AA)` for the chip ids 0x422,
0x432, 0x438, 0x446, 0x439, 0x440, 0x444, 0x445, 0x448, 0x442 and `(0, 10, 0x5AA5)`
for every other chip id.  Half-word 0 is `0xFFFF` if bit 1 of `option_cr` is set and
`rdp` otherwise; the low byte of half-word 1 is
`(option_cr >> (option_offset + 2)) & 0xFF`; the low bytes of half-words 2 and 3 are
`(option_cr >> user_data_offset) & 0xFF` and
`(option_cr >> (user_data_offset + 8)) & 0xFF`; the low bytes of half-words 4..7 are
the bytes 0..3 of `p`.  The 16 bytes of these half-words are what the function
writes, at `STM32_F0_OPTION_BYTES_BASE`: for every environment its calls are an
initial segment of `f0_control_register_calls`, whose only flash-loader run carries
this address and these bytes, and the whole sequence is made when every call
succeeds. -/
theorem f0_control_register_half_words (k : Consts) (env : Env) (sl : stlink_t)
    (option_cr p : Nat) (log : List Op) :
    let group := sl.chip_id ∈ [0x422, 0x432, 0x438, 0x446, 0x439, 0x440, 0x444, 0x445,
      0x448, 0x442]
    let option_offset := if group then 6 else 0
    let user_data_offset := if group then 16 else 10
    let rdp := if group then 0x55AA else 0x5AA5
    let opt_val := f0_opt_val sl.chip_id option_cr p
    opt_val.length = 8 ∧
    opt_val.getD 0 0 = (if option_cr.testBit 1 then 0xFFFF else rdp) ∧
    opt_val.getD 1 0 &&& 0xFF = (option_cr >>> (option_offset + 2)) &&& 0xFF ∧
    opt_val.getD 2 0 &&& 0xFF = (option_cr >>> user_data_offset) &&& 0xFF ∧
    opt_val.getD 3 0 &&& 0xFF = (option_cr >>> (user_data_offset + 8)) &&& 0xFF ∧
    opt_val.getD 4 0 &&& 0xFF = p &&& 0xFF ∧
    opt_val.getD 5 0 &&& 0xFF = (p >>> 8) &&& 0xFF ∧
    opt_val.getD 6 0 &&& 0xFF = (p >>> 16) &&& 0xFF ∧
    opt_val.getD 7 0 &&& 0xFF = (p >>> 24) &&& 0xFF ∧
    (halfword_bytes opt_val).length = 16 ∧
    (∀ a d l, Op.flash_loader_run a d l ∈ f0_control_register_calls k sl.chip_id option_cr p →
      a = k.STM32_F0_OPTION_BYTES_BASE ∧ d = halfword_bytes opt_val ∧ l = 16) ∧
    (p = (env (log ++ [.clear_flash_error, .read_debug32 k.FLASH_OBR,
        .read_debug32 k.FLASH_WRPR])).val % U32 →
      (∃ ret ops, (stlink_write_option_control_register_f0 k env sl option_cr).run log =
          some (ret, log ++ ops) ∧
        ops <+: f0_control_register_calls k sl.chip_id option_cr p) ∧
      ((∀ l, (env l).ret = 0) →
        (stlink_write_option_control_register_f0 k env sl option_cr).run log =
          some (0, log ++ f0_control_register_calls k sl.chip_id option_cr p))) := by
  intro group option_offset user_data_offset rdp opt_val
  have hgroup : f0_chip_group sl.chip_id = true ↔ group := by
    simp [f0_chip_group, group]
  have hbit : (option_cr &&& (1 <<< 1) ≠ 0) ↔ option_cr.testBit 1 = true := by
    have h := Nat.and_two_pow option_cr 1
    have h2 : (1 : Nat) <<< 1 = 2 ^ 1 := by decide
    rw [h2, h]
    cases option_cr.testBit 1 <;> simp
  have h0 : opt_val.getD 0 0 = if option_cr &&& (1 <<< 1) ≠ 0 then 0xFFFF
      else (if f0_chip_group sl.chip_id = true then 0x55AA else 0x5AA5) := rfl
  have hg2 : ¬ group → f0_chip_group sl.chip_id = false := by
    intro hg
    cases hc : f0_chip_group sl.chip_id
    · rfl
    · exact absurd (hgroup.1 hc) hg
  refine ⟨rfl, ?h0, ?b1, ?b2, ?b3, ?b4, ?b5, ?b6, ?b7, rfl, ?mem, ?run⟩
  case h0 =>
    rw [h0]
    by_cases hb : option_cr.testBit 1 = true
    · rw [if_pos (hbit.2 hb), if_pos hb]
    · rw [if_neg (fun h => hb (hbit.1 h)), if_neg hb]
      by_cases hg : group
      · rw [if_pos (hgroup.2 hg)]
        simp only [rdp, hg, if_true]
      · rw [if_neg (fun h => hg (hgroup.1 h))]
        simp only [rdp, hg, if_false]
  case mem =>
    intro a d l h
    simp only [f0_control_register_calls, List.mem_cons, List.mem_singleton,
      Op.flash_loader_run.injEq, reduceCtorEq, false_or, or_false, List.not_mem_nil] at h
    exact h
  case run =>
    intro hp
    subst hp
    exact ⟨write_option_control_register_f0_calls k env sl option_cr log,
      fun hok => write_option_control_register_f0_run k env sl option_cr log hok⟩
  all_goals
    by_cases hg : group
    · simp only [opt_val, f0_opt_val_first_group _ _ _ (hgroup.2 hg), option_offset,
        user_data_offset, hg, if_true, List.getD_cons_zero, List.getD_cons_succ, and_ff,
        val_with_complement_low_byte, Nat.and_pow_two_sub_one_eq_mod _ 16,
        Nat.shiftRight_eq_div_pow, show (0xFFFF : Nat) = 2 ^ 16 - 1 from rfl]
      try omega
    · simp only [opt_val, f0_opt_val_other_group _ _ _ (hg2 hg), option_offset,
        user_data_offset, hg, if_false, List.getD_cons_zero, List.getD_cons_succ, and_ff,
        val_with_complement_low_byte, Nat.and_pow_two_sub_one_eq_mod _ 16,
        Nat.shiftRight_eq_div_pow, show (0xFFFF : Nat) = 2 ^ 16 - 1 from rfl]
      try omega

/-- Witness of C21: the F0 session (chip 0x440, first group), `option_cr = 0x00FF5500`
and write protection `0x12345678`, every call succeeding: the half-words are
`0x55AA`, `0xAA55`, `0x00FF`, `0xFF00`, `0x8778`, `0xA956`, `0xCB34`, `0xED12` and
their 16 bytes go to the flash loader at `0x1FFFF800`. -/
theorem f0_control_register_half_words_witness :
    f0_opt_val sl_f0.chip_id 0x00FF5500 0x12345678 =
      [0x55AA, 0xAA55, 0x00FF, 0xFF00, 0x8778, 0xA956, 0xCB34, 0xED12] ∧
    (stlink_write_option_control_register_f0 example_consts (fun _ => ⟨0, 0x12345678⟩)
      sl_f0 0x00FF5500).run [] =
      some (0, [] ++ f0_control_register_calls example_consts sl_f0.chip_id 0x00FF5500
        0x12345678) ∧
    Op.flash_loader_run 0x1FFFF800
      [0xAA, 0x55, 0x55, 0xAA, 0xFF, 0x00, 0x00, 0xFF, 0x78, 0x87, 0x56, 0xA9, 0x34, 0xCB,
        0x12, 0xED] 16 ∈
      f0_control_register_calls example_consts sl_f0.chip_id 0x00FF5500 0x12345678 :=
  ⟨by decide,
   ((f0_control_register_half_words example_consts (fun _ => ⟨0, 0x12345678⟩) sl_f0
      0x00FF5500 0x12345678 []).2.2.2.2.2.2.2.2.2.2.2 (by decide)).2 (fun _ => rfl),
   by decide⟩

/-! ## Termination of the word loops (C22) -/

theorem only_exit_bind_of {α β : Type} {Q : α → Prop} {P : β → Prop} {m : Dev α}
    {f : α → Dev β} (hm : OnlyExit Q m) (hf : ∀ a, Q a → OnlyExit P (f a)) :
    OnlyExit P (m >>= f) := by
  constructor
  intro log ret final h
  simp only [StateT.run, Bind.bind, StateT.bind] at h
  cases hrun : m log with
  | none => simp [hrun] at h
  | some p =>
    obtain ⟨a, l⟩ := p
    simp only [hrun, Option.bind_eq_bind, Option.some_bind] at h
    exact (hf a (hm.out log a l hrun)).out l ret final h

theorem only_exit_bind {α β : Type} {P : β → Prop} {m : Dev α} {f : α → Dev β}
    (hf : ∀ a, OnlyExit P (f a)) : OnlyExit P (m >>= f) :=
  only_exit_bind_of (⟨fun _ _ _ _ => trivial⟩ : OnlyExit (fun _ => True) m) fun a _ => hf a

theorem only_exit_pure {α : Type} {P : α → Prop} (a : α) (h : P a) :
    OnlyExit P (pure a : Dev α) := by
  constructor
  intro log ret final hrun
  simp only [StateT.run, Pure.pure, StateT.pure, Option.some.injEq, Prod.mk.injEq] at hrun
  obtain ⟨rfl, rfl⟩ := hrun
  exact h

theorem only_exit_ite {α : Type} {P : α → Prop} {c : Prop} [Decidable c] {t e : Dev α}
    (ht : OnlyExit P t) (he : OnlyExit P e) : OnlyExit P (if c then t else e) := by
  split <;> assumption

/-- A computation none of whose results is possible does not return. -/
theorem only_exit_diverges {α : Type} {m : Dev α} (h : OnlyExit (fun _ => False) m)
    (log : List Op) : m.run log = none := by
  cases hrun : m.run log with
  | none => rfl
  | some p => exact (h.out log p.1 p.2 hrun).elim

/-- The counter of the word loops keeps its residue modulo 4. -/
theorem len_minus_four_mod (len : Nat) : len_minus_four len % 4 = len % 4 := by
  unfold len_minus_four U32
  omega

/-- For a length that is not a multiple of 4 the counter never reaches 0. -/
theorem len_minus_four_iterate_ne_zero (len : Nat) (h4 : len % 4 ≠ 0) :
    ∀ j, (len_minus_four^[j] len) ≠ 0 := by
  have hmod : ∀ j, (len_minus_four^[j] len) % 4 = len % 4 := by
    intro j
    induction j with
    | zero => rfl
    | succ n ih => rw [Function.iterate_succ_apply', len_minus_four_mod, ih]
  intro j h0
  have := hmod j
  rw [h0] at this
  omega

/-- The H7 codec leaves its loop, for a length that is not a multiple of 4, only by
its `return -1`. -/
theorem h7_loop_unaligned_only_error (k : Consts) (env : Env) :
    ∀ (fuel addr : Nat) (base : List Nat) (len : Nat), len % 4 ≠ 0 →
      OnlyExit (fun ret => ret = -1)
        (stlink_write_option_bytes_h7_loop k env fuel addr base len) := by
  intro fuel
  induction fuel with
  | zero =>
    intro addr base len _
    constructor
    intro log ret final h
    simp [stlink_write_option_bytes_h7_loop, StateT.run, failure, Alternative.failure,
      StateT.failure] at h
  | succ n ih =>
    intro addr base len h4
    have hz : ¬ len = 0 := by
      intro h0
      rw [h0] at h4
      exact h4 rfl
    have hnext : OnlyExit (fun ret => ret = -1)
        (stlink_write_option_bytes_h7_loop k env n ((addr + 4) % U32) (base.drop 4)
          ((len + U32 - 4) % U32)) := by
      apply ih
      have := len_minus_four_mod len
      unfold len_minus_four at this
      omega
    unfold stlink_write_option_bytes_h7_loop
    simp only [hz, if_false]
    repeat with_reducible first | exact hnext | apply only_exit_bind | exact only_exit_pure (-1 : Int) (rfl : (-1 : Int) = -1) | apply only_exit_ite | intro _ | split | dsimp only

/-- One iteration of the streaming loop of the L0/L1 and WB/WL codecs. -/
theorem write_option_words_loop_step (env : Env) (n addr : Nat) (base : List Nat)
    (len : Nat) (log : List Op) (hz : len ≠ 0) :
    (write_option_words_loop env (n + 1) addr base len).run log =
      if (env (log ++ [.write_debug32 addr (option_word base), .wait_flash_busy,
          .check_flash_error])).ret ≠ 0 then
        some ((env (log ++ [.write_debug32 addr (option_word base), .wait_flash_busy,
          .check_flash_error])).ret,
          log ++ [.write_debug32 addr (option_word base), .wait_flash_busy,
            .check_flash_error])
      else
        (write_option_words_loop env n ((addr + 4) % U32) (base.drop 4)
          ((len + U32 - 4) % U32)).run
          (log ++ [.write_debug32 addr (option_word base), .wait_flash_busy,
            .check_flash_error]) := by
  by_cases hr : (env (log ++ [.write_debug32 addr (option_word base), .wait_flash_busy,
      .check_flash_error])).ret = 0
  · simp [write_option_words_loop, hz, hr, wait_flash_busy, check_flash_error,
      stlink_write_debug32, call, StateT.run, bind, StateT.bind, pure, StateT.pure]
  · simp [write_option_words_loop, hz, hr, wait_flash_busy, check_flash_error,
      stlink_write_debug32, call, StateT.run, bind, StateT.bind, pure, StateT.pure]

/-- The streaming loop leaves, for a length that is not a multiple of 4, only by its
`break`: the status returned is the non-zero status of the `check_flash_error` that
ends the log. -/
theorem write_option_words_loop_unaligned (env : Env) :
    ∀ (fuel addr : Nat) (base : List Nat) (len : Nat) (log : List Op) (ret : Int)
      (final : List Op), len % 4 ≠ 0 →
      (write_option_words_loop env fuel addr base len).run log = some (ret, final) →
      ret ≠ 0 ∧ ret = (env final).ret ∧ ∃ pre, final = pre ++ [.check_flash_error] := by
  intro fuel
  induction fuel with
  | zero =>
    intro addr base len log ret final _ h
    simp [write_option_words_loop, StateT.run, failure, Alternative.failure,
      StateT.failure] at h
  | succ n ih =>
    intro addr base len log ret final h4 h
    have hz : len ≠ 0 := by
      intro h0
      rw [h0] at h4
      exact h4 rfl
    rw [write_option_words_loop_step env n addr base len log hz] at h
    by_cases hr : (env (log ++ [.write_debug32 addr (option_word base), .wait_flash_busy,
        .check_flash_error])).ret = 0
    · rw [if_neg (not_not.2 hr)] at h
      refine ih _ _ _ _ ret final ?_ h
      have := len_minus_four_mod len
      unfold len_minus_four at this
      omega
    · rw [if_pos hr] at h
      simp only [Option.some.injEq, Prod.mk.injEq] at h
      obtain ⟨h1, h2⟩ := h
      subst h2
      subst h1
      exact ⟨hr, rfl, ⟨log ++ [.write_debug32 addr (option_word base), .wait_flash_busy], by
        simp⟩⟩

/-- With no call failing, the streaming loop never ends on a length that is not a
multiple of 4, whatever the fuel. -/
theorem write_option_words_loop_unaligned_diverges (env : Env) (hok : ∀ l, (env l).ret = 0)
    (fuel addr : Nat) (base : List Nat) (len : Nat) (log : List Op) (h4 : len % 4 ≠ 0) :
    (write_option_words_loop env fuel addr base len).run log = none := by
  cases h : (write_option_words_loop env fuel addr base len).run log with
  | none => rfl
  | some p =>
    obtain ⟨ret, final⟩ := p
    obtain ⟨hne, heq, _⟩ :=
      write_option_words_loop_unaligned env fuel addr base len log ret final h4 h
    rw [heq, hok] at hne
    exact absurd rfl hne

/-- A poll that finds the controller idle after `j + 1` reads returns once the fuel
exceeds `j`. -/
theorem h7_wait_option_busy_returns (k : Consts) (env : Env) :
    ∀ (j fuel : Nat) (log : List Op), j < fuel →
      (env (log ++ List.replicate (j + 1) (.read_debug32 k.FLASH_H7_OPTSR_CUR))).val % U32 &&&
        (1 <<< k.FLASH_H7_OPTSR_OPT_BUSY) = 0 →
      ∃ a ops, (h7_wait_option_busy k env fuel).run log = some (a, log ++ ops) := by
  intro j
  induction j with
  | zero =>
    intro fuel log hf hidle
    obtain ⟨n, rfl⟩ : ∃ n, fuel = n + 1 := ⟨fuel - 1, by omega⟩
    refine ⟨(env (log ++ [.read_debug32 k.FLASH_H7_OPTSR_CUR])).val % U32,
      [.read_debug32 k.FLASH_H7_OPTSR_CUR], ?_⟩
    simp only [zero_add, List.replicate_one] at hidle
    simp [h7_wait_option_busy, stlink_read_debug32, call, StateT.run, bind, StateT.bind,
      pure, StateT.pure, hidle]
  | succ i ih =>
    intro fuel log hf hidle
    obtain ⟨n, rfl⟩ : ∃ n, fuel = n + 1 := ⟨fuel - 1, by omega⟩
    by_cases hnow : (env (log ++ [.read_debug32 k.FLASH_H7_OPTSR_CUR])).val % U32 &&&
        (1 <<< k.FLASH_H7_OPTSR_OPT_BUSY) = 0
    · refine ⟨(env (log ++ [.read_debug32 k.FLASH_H7_OPTSR_CUR])).val % U32,
        [.read_debug32 k.FLASH_H7_OPTSR_CUR], ?_⟩
      simp [h7_wait_option_busy, stlink_read_debug32, call, StateT.run, bind, StateT.bind,
        pure, StateT.pure, hnow]
    · have hidle2 : (env ((log ++ [.read_debug32 k.FLASH_H7_OPTSR_CUR]) ++
          List.replicate (i + 1) (.read_debug32 k.FLASH_H7_OPTSR_CUR))).val % U32 &&&
          (1 <<< k.FLASH_H7_OPTSR_OPT_BUSY) = 0 := by
        rw [List.append_assoc, List.singleton_append, ← List.replicate_succ]
        exact hidle
      obtain ⟨a, ops, hrun⟩ := ih n (log ++ [.read_debug32 k.FLASH_H7_OPTSR_CUR])
        (by omega) hidle2
      refine ⟨a, [.read_debug32 k.FLASH_H7_OPTSR_CUR] ++ ops, ?_⟩
      simp only [StateT.run] at hrun
      simp [h7_wait_option_busy, stlink_read_debug32, call, StateT.run, bind, StateT.bind,
        pure, StateT.pure, hnow, hrun]

theorem returns_h7_wait_option_busy_bounded (k : Consts) (env : Env) (n fuel : Nat)
    (hbusy : h7_busy_at_most k env n) (hf : n ≤ fuel) :
    Returns (h7_wait_option_busy k env fuel) := by
  constructor
  intro log
  obtain ⟨j, hj, hidle⟩ := hbusy log
  exact h7_wait_option_busy_returns k env j fuel log (by omega) hidle

/-- The loop of the H7 codec returns for every word-aligned length when every poll
ends within `n` reads and the fuel exceeds `len / 4 + n`. -/
theorem returns_write_option_bytes_h7_loop_bounded (k : Consts) (env : Env) (n : Nat)
    (hbusy : h7_busy_at_most k env n) :
    ∀ (fuel addr : Nat) (base : List Nat) (len : Nat), len % 4 = 0 → len < U32 →
      len / 4 + n < fuel → Returns (stlink_write_option_bytes_h7_loop k env fuel addr base len) := by
  intro fuel
  induction fuel with
  | zero => intro addr base len _ _ h; omega
  | succ m ih =>
    intro addr base len h4 hlt hfuel
    unfold stlink_write_option_bytes_h7_loop
    by_cases hz : len = 0
    · simp only [hz, if_true]
      exact Returns.pure 0
    · have hnext : Returns (stlink_write_option_bytes_h7_loop k env m ((addr + 4) % U32)
          (base.drop 4) ((len + U32 - 4) % U32)) := by
        apply ih
        · unfold U32 at *; omega
        · unfold U32 at *; omega
        · unfold U32 at *; omega
      have hwait := returns_h7_wait_option_busy_bounded k env n m hbusy (by omega)
      unfold stlink_write_debug32 stlink_read_debug32
      simp only [hz, if_false]
      repeat with_reducible first | exact hnext | exact hwait | apply Returns.bind | apply Returns.pure | apply Returns.call | apply Returns.ite | intro _ | split | dsimp only

/-- Every value returned by the option-busy poll is a value read from the target. -/
theorem h7_wait_option_busy_no_error (k : Consts) (env : Env)
    (hno : h7_no_change_error k env) (fuel : Nat) :
    OnlyExit (fun val => val &&& (1 <<< k.FLASH_H7_OPTSR_OPTCHANGEERR) = 0)
      (h7_wait_option_busy k env fuel) := by
  induction fuel with
  | zero =>
    constructor
    intro log a final h
    simp [h7_wait_option_busy, StateT.run, failure, Alternative.failure,
      StateT.failure] at h
  | succ n ih =>
    constructor
    intro log a final h
    by_cases hnow : (env (log ++ [.read_debug32 k.FLASH_H7_OPTSR_CUR])).val % U32 &&&
        (1 <<< k.FLASH_H7_OPTSR_OPT_BUSY) = 0
    · simp [h7_wait_option_busy, stlink_read_debug32, call, StateT.run, bind, StateT.bind,
        pure, StateT.pure, hnow] at h
      rw [← h.1]
      exact hno _
    · simp [h7_wait_option_busy, stlink_read_debug32, call, StateT.run, bind, StateT.bind,
        pure, StateT.pure, hnow] at h
      exact ih.out _ a final h

/-- With no `OPTCHANGEERR` ever reported, the loop of the H7 codec never ends on a
length that is not a multiple of 4. -/
theorem h7_loop_unaligned_diverges (k : Consts) (env : Env)
    (hno : h7_no_change_error k env) :
    ∀ (fuel addr : Nat) (base : List Nat) (len : Nat), len % 4 ≠ 0 →
      OnlyExit (fun _ => False) (stlink_write_option_bytes_h7_loop k env fuel addr base len) := by
  intro fuel
  induction fuel with
  | zero =>
    intro addr base len _
    constructor
    intro log ret final h
    simp [stlink_write_option_bytes_h7_loop, StateT.run, failure, Alternative.failure,
      StateT.failure] at h
  | succ n ih =>
    intro addr base len h4
    have hz : ¬ len = 0 := by
      intro h0
      rw [h0] at h4
      exact h4 rfl
    have hnext : OnlyExit (fun _ => False)
        (stlink_write_option_bytes_h7_loop k env n ((addr + 4) % U32) (base.drop 4)
          ((len + U32 - 4) % U32)) := by
      apply ih
      have := len_minus_four_mod len
      unfold len_minus_four at this
      omega
    have hwait := h7_wait_option_busy_no_error k env hno n
    unfold stlink_write_option_bytes_h7_loop
    simp only [hz, if_false]
    repeat with_reducible first | exact hnext | contradiction | apply only_exit_bind_of hwait | apply only_exit_bind | intro _ | split | dsimp only

/-- With every call succeeding (and, on H7, no `OPTCHANGEERR`), the codec of a loop family
does not return for a length that is not a multiple of 4. -/
theorem write_option_bytes_switch_unaligned_diverges (k : Consts) (env : Env) (sl : stlink_t)
    (fuel addr : Nat) (base : List Nat) (len : Nat) (log : List Op)
    (hfam : loop_family sl.flash_type) (h4 : len % 4 ≠ 0) (hok : ∀ l, (env l).ret = 0)
    (hno : h7_no_change_error k env) :
    (write_option_bytes_switch k env sl fuel addr base len).run log = none := by
  have hwords : OnlyExit (fun _ => False) (write_option_words_loop env fuel addr base len) :=
    ⟨fun l a final h => by
      rw [write_option_words_loop_unaligned_diverges env hok fuel addr base len l h4] at h
      exact Option.noConfusion h⟩
  have hloop := h7_loop_unaligned_diverges k env hno fuel addr base len h4
  apply only_exit_diverges
  unfold write_option_bytes_switch
  rcases hfam with h | h | h
  · rw [h]
    dsimp only
    unfold stlink_write_option_bytes_h7
    exact only_exit_bind fun _ => only_exit_bind fun _ => hloop
  · rw [h]
    dsimp only
    unfold stlink_write_option_bytes_l0
    exact only_exit_bind fun _ => only_exit_bind_of hwords fun _ hF => hF.elim
  · rw [h]
    dsimp only
    unfold stlink_write_option_bytes_wb
    exact only_exit_bind fun _ => only_exit_bind_of hwords fun _ hF => hF.elim

/-- C22: the word loops of the H7, L0/L1 and WB/WL codecs are total only for
word-aligned lengths.  For every `len < 2^32` that is a multiple of 4 the counter
reaches 0 after `len / 4` decrements by 4; the streaming loop of L0/L1 and WB/WL
returns with fuel `len / 4 + 1` after handling at most `len / 4` words; and the H7
loop returns with fuel `len / 4 + n + 1` when every option-busy poll ends within `n`
reads.  For every `len` that is not a multiple of 4 the 32-bit counter never equals
0 after any number of decrements; the streaming loop, whatever the fuel, can only end
by its `break`, with the non-zero status of the `check_flash_error` that ends the log;
the H7 loop can only end by its `return -1`; and `stlink_write_option_bytes` does not
reject such a length: on a loop family an accepted request, with every call
succeeding and no `OPTCHANGEERR` reported, returns for no fuel. -/
theorem word_loops_total_only_when_aligned (k : Consts) (env : Env) (sl : stlink_t)
    (addr : Nat) (base : List Nat) (len : Nat) (log : List Op) :
    (len % 4 = 0 → len < U32 →
      len_minus_four^[len / 4] len = 0 ∧
      (addr < U32 → ∃ m ret, m ≤ len / 4 ∧
        (write_option_words_loop env (len / 4 + 1) addr base len).run log =
          some (ret, log ++ streamed_words addr base m)) ∧
      (∀ n, h7_busy_at_most k env n → ∃ ret ops,
        (stlink_write_option_bytes_h7_loop k env (len / 4 + n + 1) addr base len).run log =
          some (ret, log ++ ops))) ∧
    (len % 4 ≠ 0 →
      (∀ j, len_minus_four^[j] len ≠ 0) ∧
      (∀ fuel ret final,
        (write_option_words_loop env fuel addr base len).run log = some (ret, final) →
        ret ≠ 0 ∧ ret = (env final).ret ∧ ∃ pre, final = pre ++ [.check_flash_error]) ∧
      (∀ fuel ret final,
        (stlink_write_option_bytes_h7_loop k env fuel addr base len).run log =
          some (ret, final) → ret = -1) ∧
      (loop_family sl.flash_type → request_accepted sl addr len → (∀ l, (env l).ret = 0) →
        h7_no_change_error k env →
        ∀ fuel, (stlink_write_option_bytes k env sl fuel addr base len).run log = none)) := by
  refine ⟨fun h4 hlen => ⟨?_, ?_, ?_⟩, fun h4 => ⟨?_, ?_, ?_, ?_⟩⟩
  · have hiter : ∀ j n, n % 4 = 0 → n < U32 → n / 4 = j → len_minus_four^[j] n = 0 := by
      intro j
      induction j with
      | zero =>
        intro n h4 _ hj
        rw [Function.iterate_zero, id]
        omega
      | succ i ih =>
        intro n h4 hn hj
        rw [Function.iterate_succ_apply]
        have hstep : len_minus_four n = n - 4 := by
          unfold len_minus_four U32 at *
          omega
        rw [hstep]
        apply ih
        · omega
        · omega
        · omega
    exact hiter (len / 4) len h4 hlen rfl
  · intro haddr
    obtain ⟨m, ret, hm, hrun, _⟩ :=
      write_option_words_loop_run env (len / 4 + 1) addr base len log h4 hlen haddr
        (by omega)
    exact ⟨m, ret, hm, hrun⟩
  · intro n hbusy
    exact (returns_write_option_bytes_h7_loop_bounded k env n hbusy (len / 4 + n + 1) addr
      base len h4 hlen (by omega)).out log
  · exact len_minus_four_iterate_ne_zero len h4
  · intro fuel ret final hrun
    exact write_option_words_loop_unaligned env fuel addr base len log ret final h4 hrun
  · intro fuel ret final hrun
    exact (h7_loop_unaligned_only_error k env fuel addr base len h4).out log ret final hrun
  · intro hfam hvalid hok hno fuel
    rw [write_option_bytes_accepted k env sl fuel addr base len log hvalid (hok _) (hok _),
      write_option_bytes_switch_unaligned_diverges k env sl fuel addr base len _ hfam h4 hok
        hno]
    rfl

/-- Witness of C22: on the L0 session with every call succeeding, the 8-byte request
at the option base streams at most two words with fuel 3 and the H7 loop returns with
fuel 4, while the accepted 6-byte request returns for no fuel, its counter never
reaching 0.  The 6-byte streaming loop does end when `check_flash_error` fails, with
that status, and the 6-byte H7 loop when `OPTCHANGEERR` is reported, with `-1`. -/
theorem word_loops_total_only_when_aligned_witness :
    (len_minus_four^[8 / 4] 8 = 0 ∧
      (∃ m ret, m ≤ 8 / 4 ∧
        (write_option_words_loop env_ok (8 / 4 + 1) 0x1FF80000 [1, 2, 3, 4, 5, 6, 7, 8] 8).run
          [] = some (ret, [] ++ streamed_words 0x1FF80000 [1, 2, 3, 4, 5, 6, 7, 8] m)) ∧
      ∃ ret ops,
        (stlink_write_option_bytes_h7_loop example_consts env_ok (8 / 4 + 1 + 1) 0x1FF80000
          [1, 2, 3, 4, 5, 6, 7, 8] 8).run [] = some (ret, [] ++ ops)) ∧
    (6 % 4 ≠ 0 ∧ request_accepted sl_l0 0x1FF80000 6 ∧ loop_family sl_l0.flash_type ∧
      (∀ j, len_minus_four^[j] 6 ≠ 0) ∧
      ∀ fuel, (stlink_write_option_bytes example_consts env_ok sl_l0 fuel 0x1FF80000
        [1, 2, 3, 4, 5, 6] 6).run [] = none) ∧
    ((write_option_words_loop (env_failing .check_flash_error) 1 0x1FF80000
        [1, 2, 3, 4, 5, 6] 6).run [] =
      some (-1, [.write_debug32 0x1FF80000 0x04030201, .wait_flash_busy,
        .check_flash_error]) ∧
      (-1 : Int) ≠ 0 ∧
      (-1 : Int) = (env_failing .check_flash_error [.write_debug32 0x1FF80000 0x04030201,
        .wait_flash_busy, .check_flash_error]).ret) ∧
    ((stlink_write_option_bytes_h7_loop example_consts env_change_error 2 0x52002020
        [1, 2, 3, 4, 5, 6] 6).run [] =
      some (-1, [.read_debug32 0x5200201C, .write_debug32 0x52002020 0x04030201,
        .read_debug32 0x52002018, .write_debug32 0x52002018 0x40000002,
        .read_debug32 0x5200201C, .write_debug32 0x52002024 0x40000000]) ∧
      (-1 : Int) = -1) :=
  have haligned := (word_loops_total_only_when_aligned example_consts env_ok sl_l0 0x1FF80000
    [1, 2, 3, 4, 5, 6, 7, 8] 8 []).1 (by decide) (by decide)
  have hunaligned := (word_loops_total_only_when_aligned example_consts env_ok sl_l0
    0x1FF80000 [1, 2, 3, 4, 5, 6] 6 []).2 (by decide)
  have hbreak := ((word_loops_total_only_when_aligned example_consts
    (env_failing .check_flash_error) sl_l0 0x1FF80000 [1, 2, 3, 4, 5, 6] 6 []).2
      (by decide)).2.1 1 (-1) [.write_debug32 0x1FF80000 0x04030201, .wait_flash_busy,
        .check_flash_error] rfl
  ⟨⟨haligned.1, haligned.2.1 (by decide),
      haligned.2.2 1 (fun _ => ⟨0, by decide, by simp [env_ok]⟩)⟩,
    ⟨by decide, by decide, by decide, hunaligned.1,
      hunaligned.2.2.2 (by decide) (by decide) (fun _ => rfl) (fun _ => by simp [env_ok])⟩,
    ⟨rfl, hbreak.1, hbreak.2.1⟩,
    ⟨rfl, ((word_loops_total_only_when_aligned example_consts env_change_error sl_l0
      0x52002020 [1, 2, 3, 4, 5, 6] 6 []).2 (by decide)).2.2.1 2 (-1) _ rfl⟩⟩

/-! ## Consequences of the validation for the F0 and F7 codecs (C23, C24) -/

/-- A request that does not pass the validation returns `-1` before any call. -/
theorem write_option_bytes_rejected (k : Consts) (env : Env) (sl : stlink_t)
    (fuel addr : Nat) (base : List Nat) (len : Nat) (log : List Op)
    (hnot : ¬ request_accepted sl addr len) :
    (stlink_write_option_bytes k env sl fuel addr base len).run log = some (-1, log) := by
  unfold stlink_write_option_bytes
  unfold request_accepted at hnot
  by_cases hbase : sl.option_base = 0
  · simp [StateT.run, bind, StateT.bind, pure, StateT.pure, hbase]
  · by_cases hrange : addr < sl.option_base ∨ addr > (sl.option_base + sl.option_size) % U32
    · simp [StateT.run, bind, StateT.bind, pure, StateT.pure, hbase, hrange]
    · have hlen : (addr + len) % U32 > (sl.option_base + sl.option_size) % U32 := by
        by_contra hc
        exact hnot ⟨hbase, hrange, hc⟩
      simp [StateT.run, bind, StateT.bind, pure, StateT.pure, hbase, hrange, hlen]

/-- C23: on the F0_F1_F3 and F1_XL families, `stlink_write_option_bytes32` returns
`-1` for every word, every context and every environment.  It forwards
`addr = option_base` and `len = 4` to `stlink_write_option_bytes`, so whenever the
validation and both unlock steps pass, the F0 codec rejects the request (`len < 12`)
and the calls are exactly the unlock sequence followed by `lock_flash_option` and
`lock_flash`: no erase write, no program write. -/
theorem write_option_bytes32_fails_on_f0 (k : Consts) (env : Env) (sl : stlink_t)
    (fuel option_byte : Nat) (log : List Op)
    (hft : sl.flash_type = STM32_FLASH_TYPE_F0_F1_F3 ∨ sl.flash_type = STM32_FLASH_TYPE_F1_XL) :
    (∃ final, (stlink_write_option_bytes32 k env sl fuel option_byte).run log =
      some (-1, final)) ∧
    (request_accepted sl sl.option_base 4 →
      (env (log ++ [.wait_flash_busy, .unlock_flash_if])).ret = 0 →
      (env (log ++ unlock_sequence)).ret = 0 →
      (stlink_write_option_bytes32 k env sl fuel option_byte).run log =
        some (-1, log ++ unlock_sequence ++ relock_sequence)) := by
  have hcodec : ∀ l, (write_option_bytes_switch k env sl fuel sl.option_base
      (write_uint32 option_byte) 4).run l = some (-1, l) := by
    intro l
    have h12 : (4 : Nat) < 12 ∨ sl.option_base ≠ k.STM32_F0_OPTION_BYTES_BASE :=
      Or.inl (by norm_num)
    unfold write_option_bytes_switch
    rcases hft with h | h <;> rw [h] <;>
      simp [stlink_write_option_bytes_f0, StateT.run, bind, StateT.bind, pure, StateT.pure]
  have hok : request_accepted sl sl.option_base 4 →
      (env (log ++ [.wait_flash_busy, .unlock_flash_if])).ret = 0 →
      (env (log ++ unlock_sequence)).ret = 0 →
      (stlink_write_option_bytes32 k env sl fuel option_byte).run log =
        some (-1, log ++ unlock_sequence ++ relock_sequence) := by
    intro hvalid hu huo
    unfold stlink_write_option_bytes32
    rw [write_option_bytes_accepted k env sl fuel sl.option_base (write_uint32 option_byte) 4
      log hvalid hu huo, hcodec]
    rfl
  refine ⟨?_, hok⟩
  by_cases hvalid : request_accepted sl sl.option_base 4
  · by_cases hu : (env (log ++ [.wait_flash_busy, .unlock_flash_if])).ret = 0
    · by_cases huo : (env (log ++ unlock_sequence)).ret = 0
      · exact ⟨_, hok hvalid hu huo⟩
      · exact ⟨_, write_option_bytes_option_unlock_failed k env sl fuel sl.option_base
          (write_uint32 option_byte) 4 log hvalid hu huo⟩
    · exact ⟨_, write_option_bytes_flash_unlock_failed k env sl fuel sl.option_base
        (write_uint32 option_byte) 4 log hvalid hu⟩
  · exact ⟨log, write_option_bytes_rejected k env sl fuel sl.option_base
      (write_uint32 option_byte) 4 log hvalid⟩

/-- Witness of C23: the F0 session (option bytes at `0x1FFFF800`, 16 bytes), every
call succeeding. -/
theorem write_option_bytes32_fails_on_f0_witness :
    (stlink_write_option_bytes32 example_consts env_ok sl_f0 1 0x12345678).run [] =
      some (-1, [] ++ unlock_sequence ++ relock_sequence) :=
  (write_option_bytes32_fails_on_f0 example_consts env_ok sl_f0 1 0x12345678 []
    (by decide)).2 (by decide) rfl rfl

/-- C24: through `stlink_write_option_bytes` the F7 codec is never invoked with
`addr == 0`.  Every accepted request has `option_base != 0` and
`addr >= option_base`, hence `addr != 0`; and a request with `addr == 0` is rejected
with `-1` before any call, for every context, family, length and environment.  For
an accepted request on the F7 family the codec selected is
`stlink_write_option_bytes_f7` at that non-zero address. -/
theorem f7_address_zero_unreachable (k : Consts) (env : Env) (sl : stlink_t)
    (fuel addr : Nat) (base : List Nat) (len : Nat) (log : List Op) :
    (request_accepted sl addr len → sl.option_base ≠ 0 ∧ sl.option_base ≤ addr ∧ addr ≠ 0) ∧
    (stlink_write_option_bytes k env sl fuel 0 base len).run log = some (-1, log) ∧
    (sl.flash_type = STM32_FLASH_TYPE_F7 → request_accepted sl addr len →
      addr ≠ 0 ∧ write_option_bytes_switch k env sl fuel addr base len =
        stlink_write_option_bytes_f7 k env addr base len) := by
  have hne : request_accepted sl addr len →
      sl.option_base ≠ 0 ∧ sl.option_base ≤ addr ∧ addr ≠ 0 := by
    rintro ⟨hbase, hrange, _⟩
    have h1 : ¬ addr < sl.option_base := fun h => hrange (Or.inl h)
    exact ⟨hbase, by omega, by omega⟩
  refine ⟨hne, ?_, ?_⟩
  · apply write_option_bytes_rejected
    rintro ⟨hbase, hrange, _⟩
    exact hrange (Or.inl (Nat.pos_of_ne_zero hbase))
  · intro hft hvalid
    refine ⟨(hne hvalid).2.2, ?_⟩
    unfold write_option_bytes_switch
    rw [hft]

/-- Witness of C24: an accepted request on the F7 session reaches the F7 codec at the
non-zero address `0x1FFF0000`; the request with `addr == 0` is refused before any
call. -/
theorem f7_address_zero_unreachable_witness :
    (request_accepted sl_f7 0x1FFF0000 4 ∧
      sl_f7.option_base ≠ 0 ∧ sl_f7.option_base ≤ 0x1FFF0000 ∧ 0x1FFF0000 ≠ 0) ∧
    (stlink_write_option_bytes example_consts env_ok sl_f7 1 0 [1, 2, 3, 4] 4).run [] =
      some (-1, []) ∧
    (0x1FFF0000 ≠ 0 ∧
      write_option_bytes_switch example_consts env_ok sl_f7 1 0x1FFF0000 [1, 2, 3, 4] 4 =
        stlink_write_option_bytes_f7 example_consts env_ok 0x1FFF0000 [1, 2, 3, 4] 4) :=
  ⟨⟨by decide, (f7_address_zero_unreachable example_consts env_ok sl_f7 1 0x1FFF0000
      [1, 2, 3, 4] 4 []).1 (by decide)⟩,
   (f7_address_zero_unreachable example_consts env_ok sl_f7 1 0x1FFF0000 [1, 2, 3, 4] 4
      []).2.1,
   (f7_address_zero_unreachable example_consts env_ok sl_f7 1 0x1FFF0000 [1, 2, 3, 4] 4
      []).2.2 rfl (by decide)⟩

/-! ## Register-index validation and conversion (C25) -/

/-- C25: `stlink_read_reg` returns `-1` without calling the backend exactly when
`r_idx < 0` or `r_idx > 20`, and otherwise forwards `r_idx` to the backend.
`stlink_read_unsupported_reg` forwards the converted index `0x14` for `r_idx` in
`[0x1C, 0x1F]`, `0x21` for `r_idx == 0x40`, `0x40 + (r_idx - 0x20)` for `r_idx` in
`[0x20, 0x3F]`, and returns `-1` without calling the backend for every other `r_idx`.
`stlink_write_unsupported_reg` uses the same mapping, except that an `r_idx` in
`[0x1C, 0x1F]` is forwarded unchanged. -/
theorem register_index_conversion (env : Env) (val : Nat) (r_idx : Int) (log : List Op) :
    ((stlink_read_reg env r_idx).run log = some (-1, log) ↔ (r_idx < 0 ∨ r_idx > 20)) ∧
    (¬ (r_idx < 0 ∨ r_idx > 20) → (stlink_read_reg env r_idx).run log =
      some ((env (log ++ [.read_reg r_idx])).ret, log ++ [.read_reg r_idx])) ∧
    (0x1C ≤ r_idx ∧ r_idx ≤ 0x1F → (stlink_read_unsupported_reg env r_idx).run log =
      some ((env (log ++ [.read_unsupported_reg 0x14])).ret,
        log ++ [.read_unsupported_reg 0x14])) ∧
    (r_idx = 0x40 → (stlink_read_unsupported_reg env r_idx).run log =
      some ((env (log ++ [.read_unsupported_reg 0x21])).ret,
        log ++ [.read_unsupported_reg 0x21])) ∧
    (0x20 ≤ r_idx ∧ r_idx ≤ 0x3F → (stlink_read_unsupported_reg env r_idx).run log =
      some ((env (log ++ [.read_unsupported_reg (0x40 + (r_idx - 0x20))])).ret,
        log ++ [.read_unsupported_reg (0x40 + (r_idx - 0x20))])) ∧
    (r_idx < 0x1C ∨ r_idx > 0x40 → (stlink_read_unsupported_reg env r_idx).run log =
      some (-1, log)) ∧
    (0x1C ≤ r_idx ∧ r_idx ≤ 0x1F → (stlink_write_unsupported_reg env val r_idx).run log =
      some ((env (log ++ [.write_unsupported_reg val r_idx])).ret,
        log ++ [.write_unsupported_reg val r_idx])) ∧
    (r_idx = 0x40 → (stlink_write_unsupported_reg env val r_idx).run log =
      some ((env (log ++ [.write_unsupported_reg val 0x21])).ret,
        log ++ [.write_unsupported_reg val 0x21])) ∧
    (0x20 ≤ r_idx ∧ r_idx ≤ 0x3F → (stlink_write_unsupported_reg env val r_idx).run log =
      some ((env (log ++ [.write_unsupported_reg val (0x40 + (r_idx - 0x20))])).ret,
        log ++ [.write_unsupported_reg val (0x40 + (r_idx - 0x20))])) ∧
    (r_idx < 0x1C ∨ r_idx > 0x40 → (stlink_write_unsupported_reg env val r_idx).run log =
      some (-1, log)) := by
  have hin : ¬ (r_idx < 0 ∨ r_idx > 20) → (stlink_read_reg env r_idx).run log =
      some ((env (log ++ [.read_reg r_idx])).ret, log ++ [.read_reg r_idx]) := by
    intro h
    have h2 : ¬ (r_idx > 20 ∨ r_idx < 0) := fun h3 => h h3.symm
    simp [stlink_read_reg, call, StateT.run, bind, StateT.bind, pure, StateT.pure, h2]
  refine ⟨⟨?_, ?_⟩, hin, ?_, ?_, ?_, ?_, ?_, ?_, ?_, ?_⟩
  · intro h
    by_contra hc
    rw [hin hc] at h
    simp at h
  · intro h
    have h2 : r_idx > 20 ∨ r_idx < 0 := h.symm
    simp [stlink_read_reg, StateT.run, bind, StateT.bind, pure, StateT.pure, h2]
  · intro h
    simp [stlink_read_unsupported_reg, call, StateT.run, bind, StateT.bind, pure,
      StateT.pure, h]
  · intro h
    subst h
    simp [stlink_read_unsupported_reg, call, StateT.run, bind, StateT.bind, pure,
      StateT.pure]
  · intro h
    have h1 : ¬ (28 ≤ r_idx ∧ r_idx ≤ 31) := by omega
    have h2 : ¬ r_idx = 64 := by omega
    have h3 : 32 ≤ r_idx ∧ r_idx < 64 := by omega
    simp [stlink_read_unsupported_reg, call, StateT.run, bind, StateT.bind, pure,
      StateT.pure, h1, h2, h3]
  · intro h
    have h1 : ¬ (28 ≤ r_idx ∧ r_idx ≤ 31) := by omega
    have h2 : ¬ r_idx = 64 := by omega
    have h3 : ¬ (32 ≤ r_idx ∧ r_idx < 64) := by omega
    simp [stlink_read_unsupported_reg, call, StateT.run, bind, StateT.bind, pure,
      StateT.pure, h1, h2, h3]
  · intro h
    simp [stlink_write_unsupported_reg, call, StateT.run, bind, StateT.bind, pure,
      StateT.pure, h]
  · intro h
    subst h
    simp [stlink_write_unsupported_reg, call, StateT.run, bind, StateT.bind, pure,
      StateT.pure]
  · intro h
    have h1 : ¬ (28 ≤ r_idx ∧ r_idx ≤ 31) := by omega
    have h2 : ¬ r_idx = 64 := by omega
    have h3 : 32 ≤ r_idx ∧ r_idx < 64 := by omega
    simp [stlink_write_unsupported_reg, call, StateT.run, bind, StateT.bind, pure,
      StateT.pure, h1, h2, h3]
  · intro h
    have h1 : ¬ (28 ≤ r_idx ∧ r_idx ≤ 31) := by omega
    have h2 : ¬ r_idx = 64 := by omega
    have h3 : ¬ (32 ≤ r_idx ∧ r_idx < 64) := by omega
    simp [stlink_write_unsupported_reg, call, StateT.run, bind, StateT.bind, pure,
      StateT.pure, h1, h2, h3]

/-- Witness of C25: the index `0x1D` (basepri) is read through the converted index
`0x14` and written through `0x1D`; `0x40` (FPSCR) goes through `0x21` and `0x25`
through `0x45`; `0x10` is refused by both conversions; `stlink_read_reg` forwards the
index 5 and refuses the index 21. -/
theorem register_index_conversion_witness :
    ((stlink_read_reg env_ok 21).run [] = some (-1, []) ∧
      (stlink_read_reg env_ok 5).run [] = some (0, [.read_reg 5])) ∧
    ((stlink_read_unsupported_reg env_ok 0x1D).run [] =
        some (0, [.read_unsupported_reg 0x14]) ∧
      (stlink_read_unsupported_reg env_ok 0x40).run [] =
        some (0, [.read_unsupported_reg 0x21]) ∧
      (stlink_read_unsupported_reg env_ok 0x25).run [] =
        some (0, [.read_unsupported_reg 0x45]) ∧
      (stlink_read_unsupported_reg env_ok 0x10).run [] = some (-1, [])) ∧
    ((stlink_write_unsupported_reg env_ok 7 0x1D).run [] =
        some (0, [.write_unsupported_reg 7 0x1D]) ∧
      (stlink_write_unsupported_reg env_ok 7 0x40).run [] =
        some (0, [.write_unsupported_reg 7 0x21]) ∧
      (stlink_write_unsupported_reg env_ok 7 0x25).run [] =
        some (0, [.write_unsupported_reg 7 0x45]) ∧
      (stlink_write_unsupported_reg env_ok 7 0x10).run [] = some (-1, [])) :=
  ⟨⟨(register_index_conversion env_ok 7 21 []).1.2 (by decide),
      (register_index_conversion env_ok 7 5 []).2.1 (by decide)⟩,
    ⟨(register_index_conversion env_ok 7 0x1D []).2.2.1 (by decide),
      (register_index_conversion env_ok 7 0x40 []).2.2.2.1 rfl,
      (register_index_conversion env_ok 7 0x25 []).2.2.2.2.1 (by decide),
      (register_index_conversion env_ok 7 0x10 []).2.2.2.2.2.1 (by decide)⟩,
    ⟨(register_index_conversion env_ok 7 0x1D []).2.2.2.2.2.2.1 (by decide),
      (register_index_conversion env_ok 7 0x40 []).2.2.2.2.2.2.2.1 rfl,
      (register_index_conversion env_ok 7 0x25 []).2.2.2.2.2.2.2.2.1 (by decide),
      (register_index_conversion env_ok 7 0x10 []).2.2.2.2.2.2.2.2.2 (by decide)⟩⟩

end Stlink
